import Mathlib

/-!
# IKEv2 packet codec of in.ikev2 (illumos-joyent)

A shallow embedding of `ikev2_pkt.c` and of the algorithm registry in `pkcs11.c`.

Conventions of the embedding

* Memory is a list of octets (`List Nat`, every read is taken modulo 256); a C pointer
  into a packet buffer is the offset of the octet it points at.
* A C function that can stop the process (a failed `ASSERT`/`VERIFY`, `INVALID`, a
  division by zero) returns `Except Fault _`.  `ASSERT` is only compiled into DEBUG
  builds, so every function containing one takes the build flavour `debug` as an
  argument; `VERIFY` is checked in every build.
* Declarations of the repository that live in files outside the source tree at hand
  (`ikev2.h`, `pkt.h`, `pkt.c`, `defs.h`) are modelled from the specification and are
  marked as such.  Operations of `pkt.c` whose effect the specification leaves open
  (`pkt_in_alloc`, `pkt_add_xform`, `pkt_add_xform_attr_tv`) are parameters.
-/

namespace Ikev2

/-! ## Faults and walk results -/

/-- The ways in which the C code can stop the process instead of returning. -/
inductive Fault where
  | assertion
  | verify
  | invalid
  | div_by_zero
  | null_deref
deriving DecidableEq, Repr

/-- Modelled from the spec: `pkt_walk_ret_t` of `pkt.h`, of which `ikev2_pkt.c` uses the
two values `PKT_WALK_OK` and `PKT_WALK_ERROR`. -/
inductive pkt_walk_ret_t where
  | PKT_WALK_OK
  | PKT_WALK_ERROR
deriving DecidableEq, Repr

open pkt_walk_ret_t

/-! ## Constants of `ikev2.h` -/

/-- Modelled from the spec: the payload kinds of `ikev2.h` (not in the source tree); the
numbers are the RFC 7296 / RFC 6467 assignments the header copies. -/
def IKEV2_PAYLOAD_NONE : Nat := 0
/-- Modelled from the spec: payload kind SA (RFC 7296 value). -/
def IKEV2_PAYLOAD_SA : Nat := 33
/-- Modelled from the spec: payload kind KE (RFC 7296 value). -/
def IKEV2_PAYLOAD_KE : Nat := 34
/-- Modelled from the spec: payload kind IDi (RFC 7296 value). -/
def IKEV2_PAYLOAD_IDi : Nat := 35
/-- Modelled from the spec: payload kind IDr (RFC 7296 value). -/
def IKEV2_PAYLOAD_IDr : Nat := 36
/-- Modelled from the spec: payload kind CERT (RFC 7296 value). -/
def IKEV2_PAYLOAD_CERT : Nat := 37
/-- Modelled from the spec: payload kind CERTREQ (RFC 7296 value). -/
def IKEV2_PAYLOAD_CERTREQ : Nat := 38
/-- Modelled from the spec: payload kind AUTH (RFC 7296 value). -/
def IKEV2_PAYLOAD_AUTH : Nat := 39
/-- Modelled from the spec: payload kind NONCE (RFC 7296 value). -/
def IKEV2_PAYLOAD_NONCE : Nat := 40
/-- Modelled from the spec: payload kind NOTIFY (RFC 7296 value). -/
def IKEV2_PAYLOAD_NOTIFY : Nat := 41
/-- Modelled from the spec: payload kind DELETE (RFC 7296 value). -/
def IKEV2_PAYLOAD_DELETE : Nat := 42
/-- Modelled from the spec: payload kind VENDOR (RFC 7296 value). -/
def IKEV2_PAYLOAD_VENDOR : Nat := 43
/-- Modelled from the spec: payload kind TSi (RFC 7296 value). -/
def IKEV2_PAYLOAD_TSi : Nat := 44
/-- Modelled from the spec: payload kind TSr (RFC 7296 value). -/
def IKEV2_PAYLOAD_TSr : Nat := 45
/-- Modelled from the spec: payload kind SK (RFC 7296 value). -/
def IKEV2_PAYLOAD_SK : Nat := 46
/-- Modelled from the spec: payload kind CP (RFC 7296 value). -/
def IKEV2_PAYLOAD_CP : Nat := 47
/-- Modelled from the spec: payload kind EAP (RFC 7296 value). -/
def IKEV2_PAYLOAD_EAP : Nat := 48
/-- Modelled from the spec: payload kind GSPM (RFC 6467 value). -/
def IKEV2_PAYLOAD_GSPM : Nat := 49
/-- Modelled from the spec: the lowest payload kind, `[MIN..MAX]` of section 4.3. -/
def IKEV2_PAYLOAD_MIN : Nat := IKEV2_PAYLOAD_SA
/-- Modelled from the spec: the highest payload kind, `[MIN..MAX]` of section 4.3. -/
def IKEV2_PAYLOAD_MAX : Nat := IKEV2_PAYLOAD_GSPM
/-- Modelled from the spec: the size of the per-kind counter array. -/
def IKEV2_NUM_PAYLOADS : Nat := IKEV2_PAYLOAD_MAX - IKEV2_PAYLOAD_MIN + 1

/-- Modelled from the spec: exchange type IKE_SA_INIT of `ikev2.h` (RFC 7296 value). -/
def IKEV2_EXCH_IKE_SA_INIT : Nat := 34
/-- Modelled from the spec: exchange type IKE_AUTH of `ikev2.h` (RFC 7296 value). -/
def IKEV2_EXCH_IKE_AUTH : Nat := 35
/-- Modelled from the spec: exchange type CREATE_CHILD_SA of `ikev2.h` (RFC 7296 value). -/
def IKEV2_EXCH_CREATE_CHILD_SA : Nat := 36
/-- Modelled from the spec: exchange type INFORMATIONAL of `ikev2.h` (RFC 7296 value). -/
def IKEV2_EXCH_INFORMATIONAL : Nat := 37
/-- Modelled from the spec: exchange type IKE_SESSION_RESUME of `ikev2.h` (RFC 5723 value). -/
def IKEV2_EXCH_IKE_SESSION_RESUME : Nat := 38

/-- Modelled from the spec: header flag INITIATOR of `ikev2.h` (RFC 7296 bit). -/
def IKEV2_FLAG_INITIATOR : Nat := 0x08
/-- Modelled from the spec: header flag VERSION of `ikev2.h` (RFC 7296 bit). -/
def IKEV2_FLAG_VERSION : Nat := 0x10
/-- Modelled from the spec: header flag RESPONSE of `ikev2.h` (RFC 7296 bit). -/
def IKEV2_FLAG_RESPONSE : Nat := 0x20
/-- Modelled from the spec: the critical bit (bit 7) of a generic payload header. -/
def IKEV2_CRITICAL_PAYLOAD : Nat := 0x80

/-- Modelled from the spec: the version octet of IKEv2, major 2 and minor 0. -/
def IKEV2_VERSION : Nat := 0x20
/-- Modelled from the spec: the major version is the high nibble of the version octet. -/
def IKE_GET_MAJORV (v : Nat) : Nat := (v &&& 0xF0) >>> 4

/-- Modelled from the spec: `sizeof (ike_header_t)`, the fixed 28 octet header. -/
def sizeof_ike_header_t : Nat := 28
/-- Modelled from the spec: `sizeof (ike_payload_t)`, the 4 octet generic payload header. -/
def sizeof_ike_payload_t : Nat := 4
/-- Modelled from the spec: `sizeof (ikev2_notify_t)`, protoid, spisize and a 16 bit type. -/
def sizeof_ikev2_notify_t : Nat := 4

/-! ## Octet access -/

/-- The octet at offset `off` of `mem`. -/
def rd8 (mem : List Nat) (off : Nat) : Nat := mem.getD off 0 % 256

/-- The big-endian 16 bit value at `off`, that is `ntohs` of the two octets stored there. -/
def rd16 (mem : List Nat) (off : Nat) : Nat := 256 * rd8 mem off + rd8 mem (off + 1)

/-- The big-endian 32 bit value at `off`. -/
def rd32 (mem : List Nat) (off : Nat) : Nat := 65536 * rd16 mem off + rd16 mem (off + 2)

/-- The `n` octets of `mem` starting at `off`. -/
def rdN (mem : List Nat) (off n : Nat) : List Nat := (mem.drop off).take n

/-- The memory after `memcpy (mem + off, src, src.length)`; a store past the end of the
list is dropped. -/
def wrN (mem : List Nat) (off : Nat) (src : List Nat) : List Nat :=
  mem.take off ++ (src.take (mem.length - off)) ++ mem.drop (off + src.length)

/-! ## Packets -/

/-- Modelled from the spec: `PayloadIndex{ kind, body_ptr, body_len }` (`pkt_payload_t`). -/
structure pkt_payload_t where
  pp_type : Nat
  pp_ptr : Nat
  pp_len : Nat
deriving DecidableEq, Repr

/-- Modelled from the spec: `NotifyIndex{ ptr, len, type }` (`pkt_notify_t`). -/
structure pkt_notify_t where
  pn_type : Nat
  pn_ptr : Nat
  pn_len : Nat
deriving DecidableEq, Repr

/-- Modelled from the spec: the fixed IKE header, fields in wire order. `msgid` keeps the
four octets as they lie in memory. -/
structure ike_header_t where
  initiator_spi : List Nat
  responder_spi : List Nat
  next_payload : Nat
  version : Nat
  exch_type : Nat
  flags : Nat
  msgid : List Nat
  length : Nat
deriving DecidableEq, Repr

/-- The header found in the first 28 octets of `buf`. -/
def read_ike_header (buf : List Nat) : ike_header_t :=
  { initiator_spi := rdN buf 0 8
    responder_spi := rdN buf 8 8
    next_payload := rd8 buf 16
    version := rd8 buf 17
    exch_type := rd8 buf 18
    flags := rd8 buf 19
    msgid := rdN buf 20 4
    length := rd32 buf 24 }

/-! ## Algorithm identifiers and the SA -/

/-- Modelled from the spec: the encryption transform identifiers of `ikev2.h`; the
enumerators are those named by the switch statements of `pkcs11.c`. -/
inductive ikev2_xf_encr_t where
  | IKEV2_ENCR_NONE
  | IKEV2_ENCR_DES_IV64
  | IKEV2_ENCR_DES
  | IKEV2_ENCR_3DES
  | IKEV2_ENCR_RC5
  | IKEV2_ENCR_IDEA
  | IKEV2_ENCR_CAST
  | IKEV2_ENCR_BLOWFISH
  | IKEV2_ENCR_3IDEA
  | IKEV2_ENCR_DES_IV32
  | IKEV2_ENCR_RC4
  | IKEV2_ENCR_NULL
  | IKEV2_ENCR_AES_CBC
  | IKEV2_ENCR_AES_CTR
  | IKEV2_ENCR_AES_CCM_8
  | IKEV2_ENCR_AES_CCM_12
  | IKEV2_ENCR_AES_CCM_16
  | IKEV2_ENCR_AES_GCM_8
  | IKEV2_ENCR_AES_GCM_12
  | IKEV2_ENCR_AES_GCM_16
  | IKEV2_ENCR_NULL_AES_GMAC
  | IKEV2_ENCR_XTS_AES
  | IKEV2_ENCR_CAMELLIA_CBC
  | IKEV2_ENCR_CAMELLIA_CTR
  | IKEV2_ENCR_CAMELLIA_CCM_8
  | IKEV2_ENCR_CAMELLIA_CCM_12
  | IKEV2_ENCR_CAMELLIA_CCM_16
deriving DecidableEq, Repr

/-- Modelled from the spec: the integrity transform identifiers of `ikev2.h`; the
enumerators are those named by the switch statements of `pkcs11.c`. -/
inductive ikev2_xf_auth_t where
  | IKEV2_XF_AUTH_NONE
  | IKEV2_XF_AUTH_HMAC_MD5_96
  | IKEV2_XF_AUTH_HMAC_SHA1_96
  | IKEV2_XF_AUTH_DES_MAC
  | IKEV2_XF_AUTH_KPDK_MD5
  | IKEV2_XF_AUTH_AES_XCBC_96
  | IKEV2_XF_AUTH_HMAC_MD5_128
  | IKEV2_XF_AUTH_HMAC_SHA1_160
  | IKEV2_XF_AUTH_AES_CMAC_96
  | IKEV2_XF_AUTH_AES_128_GMAC
  | IKEV2_XF_AUTH_AES_192_GMAC
  | IKEV2_XF_AUTH_AES_256_GMAC
  | IKEV2_XF_AUTH_HMAC_SHA2_256_128
  | IKEV2_XF_AUTH_HMAC_SHA2_384_192
  | IKEV2_XF_AUTH_HMAC_SHA2_512_256
deriving DecidableEq, Repr

/-- Modelled from the spec: `encr_modes_t` of `pkcs11.h`, the cipher modes. -/
inductive encr_modes_t where
  | MODE_NONE
  | MODE_CBC
  | MODE_CTR
  | MODE_CCM
  | MODE_GCM
deriving DecidableEq, Repr

/-- Modelled from the spec: the peer implementations told apart by vendor ID; only
`VENDOR_ILLUMOS_1` is named by `ikev2_pkt.c`. -/
inductive vendor_t where
  | VENDOR_UNKNOWN
  | VENDOR_ILLUMOS_1
deriving DecidableEq, Repr

open ikev2_xf_encr_t ikev2_xf_auth_t encr_modes_t vendor_t

/-- Modelled from the spec: the bit of `sa->flags` that says we are the initiator. -/
def I2SA_INITIATOR : Nat := 0x1

/-- Modelled from the spec: the SA object `{ encr, auth, salt, salt_len, sk_ei, sk_er,
sk_ai, sk_ar, flags, vendor_peer_flag }`; keys are token object handles. -/
structure ikev2_sa_t where
  encr : ikev2_xf_encr_t
  auth : ikev2_xf_auth_t
  flags : Nat
  vendor : vendor_t
  salt : List Nat
  saltlen : Nat
  sk_ei : Nat
  sk_er : Nat
  sk_ai : Nat
  sk_ar : Nat
deriving DecidableEq, Repr

/-- Modelled from the spec: the packet of `pkt.h`. `pkt_raw` is the whole pre-allocated
buffer (its length is the capacity), `pkt_ptr` the offset of the write cursor, and the two
index tables are kept with their counts. -/
structure pkt_t where
  pkt_sa : Option ikev2_sa_t
  pkt_raw : List Nat
  pkt_ptr : Nat
  pkt_header : ike_header_t
  pkt_payloads : List pkt_payload_t
  pkt_payload_count : Nat
  pkt_notifies : List pkt_notify_t
  pkt_notify_count : Nat
deriving DecidableEq, Repr

/-- Modelled from the spec: `pkt_write_left`, the octets between the cursor and the end of
the buffer. -/
def pkt_write_left (pkt : pkt_t) : Nat := pkt.pkt_raw.length - pkt.pkt_ptr

/-! ## Algorithm registry (`pkcs11.c`) -/

/-- The PKCS#11 mechanism identifiers named by `pkcs11.c` and `ikev2_pkt.c`; `CKM_0` is
the literal `0` that some switch arms return. -/
inductive CK_MECHANISM_TYPE where
  | CKM_0
  | CKM_DES_CBC
  | CKM_DES3_CBC
  | CKM_RC5_CBC
  | CKM_IDEA_CBC
  | CKM_CAST5_CBC
  | CKM_BLOWFISH_CBC
  | CKM_RC4
  | CKM_AES_CBC
  | CKM_AES_CTR
  | CKM_AES_CCM
  | CKM_AES_GCM
  | CKM_AES_ECB
  | CKM_CAMELLIA_CBC
  | CKM_CAMELLIA_CTR
  | CKM_CAMELLIA_ECB
  | CKM_MD5_HMAC
  | CKM_SHA_1_HMAC
  | CKM_DES_MAC
  | CKM_AES_XCBC_MAC_96
  | CKM_AES_CMAC
  | CKM_AES_GMAC
  | CKM_SHA256_HMAC
  | CKM_SHA384_HMAC
  | CKM_SHA512_HMAC
deriving DecidableEq, Repr

open CK_MECHANISM_TYPE

/-- The function `ikev2_encr_to_p11` of `pkcs11.c`. -/
def ikev2_encr_to_p11 : ikev2_xf_encr_t → Except Fault CK_MECHANISM_TYPE
  | IKEV2_ENCR_NONE => .error Fault.invalid
  | IKEV2_ENCR_NULL_AES_GMAC => .error Fault.invalid
  | IKEV2_ENCR_NULL => .error Fault.invalid
  | IKEV2_ENCR_3IDEA => .error Fault.invalid
  | IKEV2_ENCR_XTS_AES => .error Fault.invalid
  | IKEV2_ENCR_DES_IV64 => .ok CKM_DES_CBC
  | IKEV2_ENCR_DES => .ok CKM_DES_CBC
  | IKEV2_ENCR_DES_IV32 => .ok CKM_DES_CBC
  | IKEV2_ENCR_3DES => .ok CKM_DES3_CBC
  | IKEV2_ENCR_RC5 => .ok CKM_RC5_CBC
  | IKEV2_ENCR_IDEA => .ok CKM_IDEA_CBC
  | IKEV2_ENCR_CAST => .ok CKM_CAST5_CBC
  | IKEV2_ENCR_BLOWFISH => .ok CKM_BLOWFISH_CBC
  | IKEV2_ENCR_RC4 => .ok CKM_RC4
  | IKEV2_ENCR_AES_CBC => .ok CKM_AES_CBC
  | IKEV2_ENCR_AES_CTR => .ok CKM_AES_CTR
  | IKEV2_ENCR_AES_CCM_8 => .ok CKM_AES_CCM
  | IKEV2_ENCR_AES_CCM_12 => .ok CKM_AES_CCM
  | IKEV2_ENCR_AES_CCM_16 => .ok CKM_AES_CCM
  | IKEV2_ENCR_AES_GCM_8 => .ok CKM_AES_GCM
  | IKEV2_ENCR_AES_GCM_12 => .ok CKM_AES_GCM
  | IKEV2_ENCR_AES_GCM_16 => .ok CKM_AES_GCM
  | IKEV2_ENCR_CAMELLIA_CBC => .ok CKM_CAMELLIA_CBC
  | IKEV2_ENCR_CAMELLIA_CTR => .ok CKM_CAMELLIA_CTR
  | IKEV2_ENCR_CAMELLIA_CCM_8 => .ok CKM_CAMELLIA_CBC
  | IKEV2_ENCR_CAMELLIA_CCM_12 => .ok CKM_CAMELLIA_CBC
  | IKEV2_ENCR_CAMELLIA_CCM_16 => .ok CKM_CAMELLIA_CBC

/-- The function `ikev2_encr_block_size` of `pkcs11.c`. -/
def ikev2_encr_block_size : ikev2_xf_encr_t → Nat
  | IKEV2_ENCR_NONE => 0
  | IKEV2_ENCR_NULL => 0
  | IKEV2_ENCR_NULL_AES_GMAC => 0
  | IKEV2_ENCR_DES_IV64 => 8
  | IKEV2_ENCR_DES => 8
  | IKEV2_ENCR_DES_IV32 => 8
  | IKEV2_ENCR_3DES => 8
  | IKEV2_ENCR_RC5 => 8
  | IKEV2_ENCR_RC4 => 8
  | IKEV2_ENCR_IDEA => 8
  | IKEV2_ENCR_CAST => 8
  | IKEV2_ENCR_BLOWFISH => 8
  | IKEV2_ENCR_3IDEA => 8
  | IKEV2_ENCR_AES_CBC => 16
  | IKEV2_ENCR_AES_CTR => 16
  | IKEV2_ENCR_XTS_AES => 16
  | IKEV2_ENCR_AES_CCM_8 => 16
  | IKEV2_ENCR_AES_CCM_12 => 16
  | IKEV2_ENCR_AES_CCM_16 => 16
  | IKEV2_ENCR_AES_GCM_8 => 16
  | IKEV2_ENCR_AES_GCM_12 => 16
  | IKEV2_ENCR_AES_GCM_16 => 16
  | IKEV2_ENCR_CAMELLIA_CBC => 16
  | IKEV2_ENCR_CAMELLIA_CTR => 16
  | IKEV2_ENCR_CAMELLIA_CCM_8 => 16
  | IKEV2_ENCR_CAMELLIA_CCM_12 => 16
  | IKEV2_ENCR_CAMELLIA_CCM_16 => 16

/-- The function `ikev2_encr_iv_size` of `pkcs11.c`; its `default:` arm is the block size. -/
def ikev2_encr_iv_size : ikev2_xf_encr_t → Nat
  | IKEV2_ENCR_NONE => 0
  | IKEV2_ENCR_NULL => 0
  | IKEV2_ENCR_DES_IV32 => 4
  | IKEV2_ENCR_DES_IV64 => 8
  | encr => ikev2_encr_block_size encr

/-- The function `ikev2_encr_mode` of `pkcs11.c`. -/
def ikev2_encr_mode : ikev2_xf_encr_t → encr_modes_t
  | IKEV2_ENCR_NONE => MODE_NONE
  | IKEV2_ENCR_NULL => MODE_NONE
  | IKEV2_ENCR_NULL_AES_GMAC => MODE_NONE
  | IKEV2_ENCR_XTS_AES => MODE_NONE
  | IKEV2_ENCR_DES_IV64 => MODE_CBC
  | IKEV2_ENCR_DES => MODE_CBC
  | IKEV2_ENCR_DES_IV32 => MODE_CBC
  | IKEV2_ENCR_3DES => MODE_CBC
  | IKEV2_ENCR_RC5 => MODE_CBC
  | IKEV2_ENCR_RC4 => MODE_CBC
  | IKEV2_ENCR_IDEA => MODE_CBC
  | IKEV2_ENCR_CAST => MODE_CBC
  | IKEV2_ENCR_BLOWFISH => MODE_CBC
  | IKEV2_ENCR_3IDEA => MODE_CBC
  | IKEV2_ENCR_AES_CBC => MODE_CBC
  | IKEV2_ENCR_CAMELLIA_CBC => MODE_CBC
  | IKEV2_ENCR_AES_CTR => MODE_CTR
  | IKEV2_ENCR_CAMELLIA_CTR => MODE_CTR
  | IKEV2_ENCR_AES_CCM_8 => MODE_CCM
  | IKEV2_ENCR_AES_CCM_12 => MODE_CCM
  | IKEV2_ENCR_AES_CCM_16 => MODE_CCM
  | IKEV2_ENCR_CAMELLIA_CCM_8 => MODE_CCM
  | IKEV2_ENCR_CAMELLIA_CCM_12 => MODE_CCM
  | IKEV2_ENCR_CAMELLIA_CCM_16 => MODE_CCM
  | IKEV2_ENCR_AES_GCM_8 => MODE_GCM
  | IKEV2_ENCR_AES_GCM_12 => MODE_GCM
  | IKEV2_ENCR_AES_GCM_16 => MODE_GCM

/-- The function `ikev2_auth_to_p11` of `pkcs11.c`. -/
def ikev2_auth_to_p11 : ikev2_xf_auth_t → CK_MECHANISM_TYPE
  | IKEV2_XF_AUTH_NONE => CKM_0
  | IKEV2_XF_AUTH_HMAC_MD5_96 => CKM_MD5_HMAC
  | IKEV2_XF_AUTH_HMAC_SHA1_96 => CKM_SHA_1_HMAC
  | IKEV2_XF_AUTH_DES_MAC => CKM_DES_MAC
  | IKEV2_XF_AUTH_KPDK_MD5 => CKM_MD5_HMAC
  | IKEV2_XF_AUTH_AES_XCBC_96 => CKM_AES_XCBC_MAC_96
  | IKEV2_XF_AUTH_HMAC_MD5_128 => CKM_MD5_HMAC
  | IKEV2_XF_AUTH_HMAC_SHA1_160 => CKM_SHA_1_HMAC
  | IKEV2_XF_AUTH_AES_CMAC_96 => CKM_AES_CMAC
  | IKEV2_XF_AUTH_AES_128_GMAC => CKM_AES_GMAC
  | IKEV2_XF_AUTH_AES_192_GMAC => CKM_AES_GMAC
  | IKEV2_XF_AUTH_AES_256_GMAC => CKM_AES_GMAC
  | IKEV2_XF_AUTH_HMAC_SHA2_256_128 => CKM_SHA256_HMAC
  | IKEV2_XF_AUTH_HMAC_SHA2_384_192 => CKM_SHA384_HMAC
  | IKEV2_XF_AUTH_HMAC_SHA2_512_256 => CKM_SHA512_HMAC

/-- The second switch of `ikev2_auth_icv_size`, on the integrity algorithm. -/
def auth_icv_size_of_auth : ikev2_xf_auth_t → Nat
  | IKEV2_XF_AUTH_NONE => 0
  | IKEV2_XF_AUTH_HMAC_MD5_96 => 12
  | IKEV2_XF_AUTH_HMAC_SHA1_96 => 12
  | IKEV2_XF_AUTH_AES_XCBC_96 => 12
  | IKEV2_XF_AUTH_AES_CMAC_96 => 12
  | IKEV2_XF_AUTH_DES_MAC => 16
  | IKEV2_XF_AUTH_KPDK_MD5 => 16
  | IKEV2_XF_AUTH_HMAC_MD5_128 => 16
  | IKEV2_XF_AUTH_AES_128_GMAC => 16
  | IKEV2_XF_AUTH_HMAC_SHA2_256_128 => 16
  | IKEV2_XF_AUTH_HMAC_SHA1_160 => 20
  | IKEV2_XF_AUTH_AES_192_GMAC => 24
  | IKEV2_XF_AUTH_HMAC_SHA2_384_192 => 24
  | IKEV2_XF_AUTH_AES_256_GMAC => 32
  | IKEV2_XF_AUTH_HMAC_SHA2_512_256 => 32

/-- The arm of the first switch of `ikev2_auth_icv_size` for an AEAD cipher with an ICV of
`n` octets: `ASSERT3S(auth, ==, IKEV2_XF_AUTH_NONE); return (n);`. -/
def aead_icv_size (debug : Bool) (auth : ikev2_xf_auth_t) (n : Nat) : Except Fault Nat :=
  if debug = true ∧ auth ≠ IKEV2_XF_AUTH_NONE then .error Fault.assertion else .ok n

/-- The function `ikev2_auth_icv_size` of `pkcs11.c`. -/
def ikev2_auth_icv_size (debug : Bool) (encr : ikev2_xf_encr_t) (auth : ikev2_xf_auth_t) :
    Except Fault Nat :=
  match encr with
  | IKEV2_ENCR_AES_CCM_8 => aead_icv_size debug auth 8
  | IKEV2_ENCR_AES_GCM_8 => aead_icv_size debug auth 8
  | IKEV2_ENCR_CAMELLIA_CCM_8 => aead_icv_size debug auth 8
  | IKEV2_ENCR_AES_CCM_12 => aead_icv_size debug auth 12
  | IKEV2_ENCR_AES_GCM_12 => aead_icv_size debug auth 12
  | IKEV2_ENCR_CAMELLIA_CCM_12 => aead_icv_size debug auth 12
  | IKEV2_ENCR_AES_CCM_16 => aead_icv_size debug auth 16
  | IKEV2_ENCR_AES_GCM_16 => aead_icv_size debug auth 16
  | IKEV2_ENCR_CAMELLIA_CCM_16 => aead_icv_size debug auth 16
  | _ => .ok (auth_icv_size_of_auth auth)

/-- The function `ikev2_encr_saltlen` of `pkcs11.c`. -/
def ikev2_encr_saltlen : ikev2_xf_encr_t → Nat
  | IKEV2_ENCR_AES_CCM_8 => 3
  | IKEV2_ENCR_AES_CCM_12 => 3
  | IKEV2_ENCR_AES_CCM_16 => 3
  | IKEV2_ENCR_CAMELLIA_CCM_8 => 3
  | IKEV2_ENCR_CAMELLIA_CCM_12 => 3
  | IKEV2_ENCR_CAMELLIA_CCM_16 => 3
  | IKEV2_ENCR_AES_GCM_8 => 4
  | IKEV2_ENCR_AES_GCM_12 => 4
  | IKEV2_ENCR_AES_GCM_16 => 4
  | _ => 0

/-! ## The payload walk (`pkt.c`) -/

/-- One iteration bound per call: the walk of `pkt.c` is a loop, unrolled here at most
`fuel` times; `none` means the bound was hit. Modelled from the spec: section 4.3 step 2,
"Walk the generic-payload chain starting at `header.next_payload`, ending when it is 0.
For each link: require remaining region >= 4; read length; require `length >= 4` and
`length <= remaining`", then the callback sees the kind, the flags octet, the body and
the body length and any answer but OK ends the walk; section 3, "After inbound walk, the
sum of all (4 + body_len) equals the enclosing region size exactly". -/
def pkt_payload_walk_loop {σ : Type}
    (cb : Nat → Nat → List Nat → Nat → Nat → σ → pkt_walk_ret_t × σ) :
    Nat → List Nat → Nat → Nat → Nat → σ → Option (pkt_walk_ret_t × σ)
  | 0, _, _, _, _, _ => none
  | fuel + 1, mem, off, len, paytype, cookie =>
    if paytype = IKEV2_PAYLOAD_NONE then
      some (if len = 0 then PKT_WALK_OK else PKT_WALK_ERROR, cookie)
    else if len < sizeof_ike_payload_t then
      some (PKT_WALK_ERROR, cookie)
    else
      let pay_next := rd8 mem off
      let pay_reserved := rd8 mem (off + 1)
      let pay_length := rd16 mem (off + 2)
      if pay_length < sizeof_ike_payload_t ∨ pay_length > len then
        some (PKT_WALK_ERROR, cookie)
      else
        match cb paytype pay_reserved mem (off + sizeof_ike_payload_t)
            (pay_length - sizeof_ike_payload_t) cookie with
        | (PKT_WALK_OK, cookie1) =>
          pkt_payload_walk_loop cb fuel mem (off + pay_length) (len - pay_length)
            pay_next cookie1
        | (PKT_WALK_ERROR, cookie1) => some (PKT_WALK_ERROR, cookie1)

/-- Modelled from the spec: `pkt_payload_walk (data, len, cb, first, cookie)` of `pkt.c`.
Every link takes at least 4 octets, so `len + 1` iterations always suffice (see
`pkt_payload_walk_loop_total`). -/
def pkt_payload_walk {σ : Type} (mem : List Nat) (data len : Nat)
    (cb : Nat → Nat → List Nat → Nat → Nat → σ → pkt_walk_ret_t × σ)
    (first : Nat) (cookie : σ) : pkt_walk_ret_t × σ :=
  match pkt_payload_walk_loop cb (len + 1) mem data len first cookie with
  | some r => r
  | none => (PKT_WALK_ERROR, cookie)

/-- The payloads of a chain, in order, as index entries (kind, body offset, body length):
the links a walk of the region visits, whatever its callback does. -/
def chain_links_loop : Nat → List Nat → Nat → Nat → Nat → List pkt_payload_t
  | 0, _, _, _, _ => []
  | fuel + 1, mem, off, len, paytype =>
    if paytype = IKEV2_PAYLOAD_NONE then []
    else if len < sizeof_ike_payload_t then []
    else
      let pay_next := rd8 mem off
      let pay_length := rd16 mem (off + 2)
      if pay_length < sizeof_ike_payload_t ∨ pay_length > len then []
      else
        ⟨paytype, off + sizeof_ike_payload_t, pay_length - sizeof_ike_payload_t⟩ ::
          chain_links_loop fuel mem (off + pay_length) (len - pay_length) pay_next

/-- The outer payloads of the datagram `buf`, in order. -/
def outer_links (buf : List Nat) : List pkt_payload_t :=
  chain_links_loop (buf.length - sizeof_ike_header_t + 1) buf sizeof_ike_header_t
    (buf.length - sizeof_ike_header_t) (rd8 buf 16)

/-- The kinds of the outer payloads of the datagram `buf`, in order. -/
def outer_kinds (buf : List Nat) : List Nat := (outer_links buf).map pkt_payload_t.pp_type

/-! ## Inbound validation (`ikev2_pkt.c`) -/

/-- The `struct validate_data` of `ikev2_pkt.c`; `payload_count` is indexed by
`paytype - IKEV2_PAYLOAD_MIN`. -/
structure validate_data where
  pkt : pkt_t
  notify_count : Nat
  payload_count : Nat → Nat
  initiator : Bool
  exch_type : Nat

/-- Modelled from the spec: `pkt_notify (pkt, idx)` of `pkt.h` yields the slot `idx` of
the notify table; this is the packet after the three stores `check_payload` makes through
that pointer. -/
def pkt_notify_store (pkt : pkt_t) (idx : Nat) (n : pkt_notify_t) : pkt_t :=
  { pkt with pkt_notifies := pkt.pkt_notifies.set idx n }

/-- The callback `check_payload` of `ikev2_pkt.c`; `mem` and `buf` stand for the body
pointer, and `critical` is computed and not used, as in the source. The `ASSERT3U` before the counter update names identifiers that do not exist; on
that path `arg->exch_type` is IKE_SA_INIT by the switch just above, so it is a no-op. -/
def check_payload (paytype resv : Nat) (mem : List Nat) (buf buflen : Nat)
    (arg : validate_data) : pkt_walk_ret_t × validate_data :=
  let _critical : Bool := decide (resv &&& IKEV2_CRITICAL_PAYLOAD ≠ 0)
  /- Skip unknown payloads. -/
  if paytype < IKEV2_PAYLOAD_MIN ∨ paytype > IKEV2_PAYLOAD_MAX then
    (PKT_WALK_OK, arg)
  else if arg.exch_type = IKEV2_EXCH_IKE_AUTH ∨
      arg.exch_type = IKEV2_EXCH_CREATE_CHILD_SA ∨
      arg.exch_type = IKEV2_EXCH_INFORMATIONAL then
    if paytype ≠ IKEV2_PAYLOAD_SK then (PKT_WALK_ERROR, arg)
    else (PKT_WALK_OK, arg)
  else if arg.exch_type = IKEV2_EXCH_IKE_SA_INIT then
    let counts1 : Nat → Nat :=
      Function.update arg.payload_count (paytype - IKEV2_PAYLOAD_MIN)
        (arg.payload_count (paytype - IKEV2_PAYLOAD_MIN) + 1)
    let arg1 : validate_data := { arg with payload_count := counts1 }
    if paytype = IKEV2_PAYLOAD_NOTIFY then
      let idx := arg1.notify_count
      let arg2 : validate_data := { arg1 with notify_count := arg1.notify_count + 1 }
      let len := sizeof_ikev2_notify_t
      if buflen < len then (PKT_WALK_ERROR, arg2)
      else
        let n_spisize := rd8 mem (buf + 1)
        let n_type := rd16 mem (buf + 2)
        let len1 := len + n_spisize
        if buflen < len1 then (PKT_WALK_ERROR, arg2)
        else
          let ntfy : pkt_notify_t := { pn_ptr := buf, pn_type := n_type, pn_len := buflen }
          (PKT_WALK_OK, { arg2 with pkt := pkt_notify_store arg2.pkt idx ntfy })
    else (PKT_WALK_OK, arg1)
  else
    /- Unknown exchange, bail. -/
    (PKT_WALK_ERROR, arg)

/-- The macro `PAYCOUNT(totals, paytype)` of `ikev2_pkt_new_inbound`. -/
def PAYCOUNT (totals : Nat → Nat) (paytype : Nat) : Nat := totals (paytype - IKEV2_PAYLOAD_MIN)

/-- The macro `HAS_NOTIFY(totals)` of `ikev2_pkt_new_inbound`. -/
def HAS_NOTIFY (totals : Nat → Nat) : Bool := decide (PAYCOUNT totals IKEV2_PAYLOAD_NOTIFY > 0)

/-- The body of the `for` loop of `ikev2_pkt_new_inbound` for one payload kind `i`:
`false` is `goto discard`, `true` is leaving the switch by `break`. The VENDOR case has no
`break` after its test and runs on into the SA case with the VENDOR count. -/
def sa_init_switch (counts : Nat → Nat) (i : Nat) : Bool :=
  let count := PAYCOUNT counts i
  if i = IKEV2_PAYLOAD_IDi ∨ i = IKEV2_PAYLOAD_IDr ∨ i = IKEV2_PAYLOAD_CERT ∨
      i = IKEV2_PAYLOAD_AUTH ∨ i = IKEV2_PAYLOAD_DELETE ∨ i = IKEV2_PAYLOAD_TSi ∨
      i = IKEV2_PAYLOAD_TSr ∨ i = IKEV2_PAYLOAD_SK ∨ i = IKEV2_PAYLOAD_CP ∨
      i = IKEV2_PAYLOAD_EAP ∨ i = IKEV2_PAYLOAD_GSPM then
    if count > 0 then false else true
  else if i = IKEV2_PAYLOAD_NOTIFY ∨ i = IKEV2_PAYLOAD_CERTREQ then
    true
  else if i = IKEV2_PAYLOAD_VENDOR then
    if PAYCOUNT counts IKEV2_PAYLOAD_SA > 0 ∨ PAYCOUNT counts IKEV2_PAYLOAD_NOTIFY > 0 then
      true
    else if count ≠ 1 ∧ HAS_NOTIFY counts = false then false
    else true
  else if i = IKEV2_PAYLOAD_SA then
    if count ≠ 1 ∧ HAS_NOTIFY counts = false then false
    else true
  else if i = IKEV2_PAYLOAD_KE ∨ i = IKEV2_PAYLOAD_NONCE then
    if count ≠ 1 then
      if HAS_NOTIFY counts = false then false
      else true
    else if PAYCOUNT counts IKEV2_PAYLOAD_SA ≠ 1 then false
    else true
  else true

/-- The `for (i = IKEV2_PAYLOAD_MIN; i <= IKEV2_PAYLOAD_MAX; i++)` loop of
`ikev2_pkt_new_inbound`: `true` when no kind jumps to `discard`. -/
def sa_init_loop (counts : Nat → Nat) : Bool :=
  (List.range' IKEV2_PAYLOAD_MIN IKEV2_NUM_PAYLOADS).all (sa_init_switch counts)

/-- The `struct validate_data arg = { 0 }` of `ikev2_pkt_new_inbound` after the three
assignments `arg.pkt`, `arg.exch_type` and `arg.initiator`. -/
def validate_start (pkt : pkt_t) (hdr : ike_header_t) : validate_data :=
  { pkt := pkt
    notify_count := 0
    payload_count := fun _ => 0
    initiator := decide (hdr.flags &&& IKEV2_FLAG_INITIATOR ≠ 0)
    exch_type := hdr.exch_type }

/-- The call `pkt_payload_walk ((uchar_t *)(hdr + 1), buflen - sizeof (ike_header_t),
check_payload, hdr->next_payload, &arg)` of `ikev2_pkt_new_inbound`. -/
def inbound_walk (buf : List Nat) (pkt : pkt_t) : pkt_walk_ret_t × validate_data :=
  pkt_payload_walk buf sizeof_ike_header_t (buf.length - sizeof_ike_header_t)
    check_payload (read_ike_header buf).next_payload (validate_start pkt (read_ike_header buf))

/-- The function `ikev2_pkt_new_inbound (buf, buflen)` of `ikev2_pkt.c`, for a buffer of
at least 28 octets (the caller's duty; the alignment `ASSERT` is outside the model).
`.ok none` is the NULL return, `.ok (some pkt)` the accepted packet. `pkt_in_alloc` of
`pkt.c` is the argument `alloc`; `INVALID` of `defs.h`, which the sources mark as not
returning, is the fault `invalid`. -/
def ikev2_pkt_new_inbound (alloc : List Nat → Option pkt_t) (debug : Bool)
    (buf : List Nat) : Except Fault (Option pkt_t) :=
  let hdr := read_ike_header buf
  if debug = true ∧ IKE_GET_MAJORV hdr.version ≠ IKE_GET_MAJORV IKEV2_VERSION then
    .error Fault.assertion
  else
    let flags := hdr.flags &&& (IKEV2_FLAG_INITIATOR ||| IKEV2_FLAG_RESPONSE)
    if flags ^^^ (IKEV2_FLAG_INITIATOR ||| IKEV2_FLAG_RESPONSE) = 0 then
      .ok none
    else
      match alloc buf with
      | none => .ok none
      | some pkt =>
        match inbound_walk buf pkt with
        | (PKT_WALK_ERROR, _) => .ok none
        | (PKT_WALK_OK, arg) =>
          let counts := arg.payload_count
          if arg.exch_type = IKEV2_EXCH_IKE_AUTH ∨
              arg.exch_type = IKEV2_EXCH_CREATE_CHILD_SA ∨
              arg.exch_type = IKEV2_EXCH_INFORMATIONAL then
            if PAYCOUNT counts IKEV2_PAYLOAD_SK = 1 then .ok (some arg.pkt)
            else .ok none
          else if arg.exch_type = IKEV2_EXCH_IKE_SESSION_RESUME then
            .error Fault.invalid
          else if sa_init_loop counts = true then .ok (some arg.pkt)
          else .ok none

/-- The payload kinds that the loop of `ikev2_pkt_new_inbound` never allows in an
IKE_SA_INIT exchange (its first group of `case` labels). -/
def sa_init_never : List Nat :=
  [IKEV2_PAYLOAD_IDi, IKEV2_PAYLOAD_IDr, IKEV2_PAYLOAD_CERT, IKEV2_PAYLOAD_AUTH,
   IKEV2_PAYLOAD_DELETE, IKEV2_PAYLOAD_TSi, IKEV2_PAYLOAD_TSr, IKEV2_PAYLOAD_SK,
   IKEV2_PAYLOAD_CP, IKEV2_PAYLOAD_EAP, IKEV2_PAYLOAD_GSPM]

/-- The call returned a packet (it neither returned NULL nor stopped the process). -/
def Accepted (r : Except Fault (Option pkt_t)) : Prop := ∃ p, r = .ok (some p)

/-- The header flags pass the test of `ikev2_pkt_new_inbound`, which rejects a header that
has both INITIATOR and RESPONSE set. -/
@[reducible] def flags_pass (buf : List Nat) : Prop :=
  ((read_ike_header buf).flags &&& (IKEV2_FLAG_INITIATOR ||| IKEV2_FLAG_RESPONSE)) ^^^
    (IKEV2_FLAG_INITIATOR ||| IKEV2_FLAG_RESPONSE) ≠ 0

/-- The asserted precondition of `ikev2_pkt_new_inbound`: the header says major version 2. -/
@[reducible] def version_is_v2 (buf : List Nat) : Prop :=
  IKE_GET_MAJORV (read_ike_header buf).version = IKE_GET_MAJORV IKEV2_VERSION

/-- The version `ASSERT` of `ikev2_pkt_new_inbound` does not fire: the build has no
assertions, or the header says major version 2. -/
@[reducible] def version_assert_holds (debug : Bool) (buf : List Nat) : Prop :=
  debug = true → version_is_v2 buf

/-- Modelled from the spec: `pkt_in_alloc (buf, buflen)` of `pkt.c`, the packet "created
inbound-from-wire": it owns the datagram and the parsed header, and step 1 of section 4.3
asks that the "Length field must match `buf` length". The payload index holds the outer
payloads whose kind is in `[MIN..MAX]` and the notify table has one empty slot for each
outer NOTIFY. -/
def pkt_in_alloc (buf : List Nat) : Option pkt_t :=
  if (read_ike_header buf).length = buf.length then
    let idx := (outer_links buf).filter
      (fun p => decide (IKEV2_PAYLOAD_MIN ≤ p.pp_type ∧ p.pp_type ≤ IKEV2_PAYLOAD_MAX))
    let nn := (outer_kinds buf).count IKEV2_PAYLOAD_NOTIFY
    some
      { pkt_sa := none
        pkt_raw := buf
        pkt_ptr := buf.length
        pkt_header := read_ike_header buf
        pkt_payloads := idx
        pkt_payload_count := idx.length
        pkt_notifies := List.replicate nn ⟨0, 0, 0⟩
        pkt_notify_count := nn }
  else none

/-! ## The cryptographic token (PKCS#11) -/

/-- The return values of the token that the code tells apart. -/
inductive CK_RV where
  | CKR_OK
  | CKR_SIGNATURE_INVALID
  | CKR_FUNCTION_FAILED
deriving DecidableEq, Repr

open CK_RV

/-- The parameter block a `CK_MECHANISM` points at. `unset` is a `pParameter` that the
code never assigned (the local `mech` of `crypt_common` is not cleared); the associated
data is given by its offset in the packet buffer, its length and its octets. -/
inductive mech_param where
  | unset
  | null
  | iv (bytes : List Nat)
  | ccm (aad_ptr aad_len : Nat) (aad : List Nat) (nonce : List Nat) (mac_len : Nat)
  | gcm (aad_ptr aad_len : Nat) (aad : List Nat) (iv : List Nat) (tag_bits : Nat)
deriving DecidableEq, Repr

/-- A `CK_MECHANISM`. -/
structure CK_MECHANISM where
  mechanism : CK_MECHANISM_TYPE
  param : mech_param
deriving DecidableEq, Repr

/-- The token interface consumed by `ikev2_pkt.c` (section 6 of the specification). The
operation that follows an `Init` call is given the mechanism and key of that call.
`C_Encrypt`, `C_Decrypt` and `C_Sign` take the input octets and the size of the output
buffer and yield the octets they store in it. -/
structure Token where
  C_EncryptInit : CK_MECHANISM → Nat → CK_RV
  C_Encrypt : CK_MECHANISM → Nat → List Nat → Nat → CK_RV × List Nat
  C_DecryptInit : CK_MECHANISM → Nat → CK_RV
  C_Decrypt : CK_MECHANISM → Nat → List Nat → Nat → CK_RV × List Nat
  C_SignInit : CK_MECHANISM → Nat → CK_RV
  C_Sign : CK_MECHANISM → Nat → List Nat → Nat → CK_RV × List Nat
  C_VerifyInit : CK_MECHANISM → Nat → CK_RV
  C_Verify : CK_MECHANISM → Nat → List Nat → List Nat → CK_RV

/-- One call into the token, as the code makes it. A data pointer is `some off` when it
points at offset `off` of the packet buffer and `none` when it points at a local array. -/
inductive p11_call where
  | EncryptInit (mech : CK_MECHANISM) (key : Nat)
  | Encrypt (data : Option Nat) (datalen : Nat)
  | DecryptInit (mech : CK_MECHANISM) (key : Nat)
  | Decrypt (data : Option Nat) (datalen : Nat)
  | SignInit (mech : CK_MECHANISM) (key : Nat)
  | Sign (data datalen icv : Nat)
  | VerifyInit (mech : CK_MECHANISM) (key : Nat)
  | Verify (data datalen icv icvlen : Nat)
deriving DecidableEq, Repr

/-- The packet together with the token calls made so far, oldest first. -/
structure crypt_st where
  pkt : pkt_t
  calls : List p11_call
deriving DecidableEq, Repr

/-- The width of `CK_ULONG`, `size_t` and of a pointer (LP64). -/
def ULONG_MOD : Nat := 2 ^ 64

/-! ## The SK payload (`ikev2_pkt.c`) -/

/-- The key choice made at the head of `cbc_iv` and `crypt_common`: `sk_ei` for the
initiator, `sk_er` otherwise. -/
def encr_key (sa : ikev2_sa_t) : Nat :=
  if sa.flags &&& I2SA_INITIATOR ≠ 0 then sa.sk_ei else sa.sk_er

/-- The key choice made at the head of `auth_common`. -/
def auth_key (sa : ikev2_sa_t) : Nat :=
  if sa.flags &&& I2SA_INITIATOR ≠ 0 then sa.sk_ai else sa.sk_ar

/-- The function `cbc_iv (pkt, ivp)` of `ikev2_pkt.c`. -/
def cbc_iv (tok : Token) (sa : ikev2_sa_t) (st : crypt_st) (ivp : Nat) :
    Except Fault (Bool × crypt_st) :=
  let key := encr_key sa
  let sel : Option (CK_MECHANISM × Nat) :=
    match sa.encr with
    | IKEV2_ENCR_AES_CBC => some (⟨CKM_AES_ECB, mech_param.null⟩, 16)
    | IKEV2_ENCR_CAMELLIA_CBC => some (⟨CKM_CAMELLIA_ECB, mech_param.null⟩, 16)
    | _ => none
  match sel with
  | none => .error Fault.invalid
  | some (mech, blocklen) =>
    if pkt_write_left st.pkt < blocklen then .ok (false, st)
    else if ¬ (blocklen ≥ 4) then .error Fault.verify
    else
      let buf := (st.pkt.pkt_header.msgid.take 4) ++ List.replicate (blocklen - 4) 0
      let st1 : crypt_st := { st with calls := st.calls ++ [p11_call.EncryptInit mech key] }
      if tok.C_EncryptInit mech key ≠ CKR_OK then .ok (false, st1)
      else
        let st2 : crypt_st := { st1 with calls := st1.calls ++ [p11_call.Encrypt none blocklen] }
        let res := tok.C_Encrypt mech key buf blocklen
        if res.1 ≠ CKR_OK then .ok (false, st2)
        else
          let buf1 := wrN buf 0 res.2
          let raw := wrN st2.pkt.pkt_raw ivp (buf1.take (ikev2_encr_iv_size sa.encr))
          .ok (true, { st2 with pkt := { st2.pkt with pkt_raw := raw } })

/-- The `switch (mode)` of `crypt_common`: the parameter block for the mechanism. The
associated data starts at `pkt_raw` (offset 0) and ends in front of the IV. -/
def crypt_param (sa : ikev2_sa_t) (raw : List Nat) (iv ivlen icvlen : Nat) : mech_param :=
  match ikev2_encr_mode sa.encr with
  | MODE_NONE => mech_param.unset
  | MODE_CBC => mech_param.iv (rdN raw iv ivlen)
  | MODE_CTR => mech_param.unset
  | MODE_CCM =>
    mech_param.ccm 0 iv (rdN raw 0 iv) (sa.salt.take sa.saltlen ++ rdN raw iv ivlen) icvlen
  | MODE_GCM =>
    mech_param.gcm 0 iv (rdN raw 0 iv) (sa.salt.take sa.saltlen ++ rdN raw iv ivlen)
      (icvlen * 8)

/-- The function `crypt_common (pkt, encrypt, iv, ivlen, data, datalen, icv, icvlen)` of
`ikev2_pkt.c`. The token works in place on `datalen` octets at `data`. -/
def crypt_common (tok : Token) (sa : ikev2_sa_t) (st : crypt_st) (encrypt : Bool)
    (iv ivlen data datalen icvlen : Nat) : Except Fault (Bool × crypt_st) :=
  let key := encr_key sa
  match ikev2_encr_to_p11 sa.encr with
  | .error e => .error e
  | .ok m =>
    let mech : CK_MECHANISM := ⟨m, crypt_param sa st.pkt.pkt_raw iv ivlen icvlen⟩
    let input := rdN st.pkt.pkt_raw data datalen
    if encrypt = true then
      let st1 : crypt_st := { st with calls := st.calls ++ [p11_call.EncryptInit mech key] }
      if tok.C_EncryptInit mech key ≠ CKR_OK then .ok (false, st1)
      else
        let st2 : crypt_st :=
          { st1 with calls := st1.calls ++ [p11_call.Encrypt (some data) datalen] }
        let res := tok.C_Encrypt mech key input datalen
        let raw := wrN st2.pkt.pkt_raw data res.2
        .ok (decide (res.1 = CKR_OK), { st2 with pkt := { st2.pkt with pkt_raw := raw } })
    else
      let st1 : crypt_st := { st with calls := st.calls ++ [p11_call.DecryptInit mech key] }
      if tok.C_DecryptInit mech key ≠ CKR_OK then .ok (false, st1)
      else
        let st2 : crypt_st :=
          { st1 with calls := st1.calls ++ [p11_call.Decrypt (some data) datalen] }
        let res := tok.C_Decrypt mech key input datalen
        let raw := wrN st2.pkt.pkt_raw data res.2
        .ok (decide (res.1 = CKR_OK), { st2 with pkt := { st2.pkt with pkt_raw := raw } })

/-- The function `auth_common (pkt, encrypt, icv, icvlen)` of `ikev2_pkt.c`. The MAC
input starts at `pkt_raw` (offset 0) and ends in front of `icv`. -/
def auth_common (tok : Token) (debug : Bool) (sa : ikev2_sa_t) (st : crypt_st)
    (encrypt : Bool) (icv icvlen : Nat) : Except Fault (Bool × crypt_st) :=
  let key := auth_key sa
  if debug = true ∧ ¬ (sa.auth ≠ IKEV2_XF_AUTH_NONE) then .error Fault.assertion
  else
    let mech : CK_MECHANISM := ⟨ikev2_auth_to_p11 sa.auth, mech_param.null⟩
    let data := 0
    let datalen := icv
    let input := rdN st.pkt.pkt_raw data datalen
    if encrypt = true then
      let st1 : crypt_st := { st with calls := st.calls ++ [p11_call.SignInit mech key] }
      if tok.C_SignInit mech key ≠ CKR_OK then .ok (false, st1)
      else
        let st2 : crypt_st :=
          { st1 with calls := st1.calls ++ [p11_call.Sign data datalen icv] }
        let res := tok.C_Sign mech key input icvlen
        let raw := wrN st2.pkt.pkt_raw icv res.2
        .ok (decide (res.1 = CKR_OK), { st2 with pkt := { st2.pkt with pkt_raw := raw } })
    else
      let st1 : crypt_st := { st with calls := st.calls ++ [p11_call.VerifyInit mech key] }
      if tok.C_VerifyInit mech key ≠ CKR_OK then .ok (false, st1)
      else
        let st2 : crypt_st :=
          { st1 with calls := st1.calls ++ [p11_call.Verify data datalen icv icvlen] }
        let rc := tok.C_Verify mech key input (rdN st.pkt.pkt_raw icv icvlen)
        if rc = CKR_SIGNATURE_INVALID then .ok (false, st2)
        else .ok (decide (rc = CKR_OK), st2)

/-- The pad length `encrypt_payloads` computes from the block length and the plaintext
length, `uint8_t padlen = 0; if ((datalen + 1) % blocklen != 0) padlen = blocklen -
((datalen + 1) % blocklen);`, for a block length that is not 0. -/
def sk_padlen (blocklen datalen : Nat) : Nat :=
  if (datalen + 1) % ULONG_MOD % blocklen ≠ 0 then
    (blocklen - (datalen + 1) % ULONG_MOD % blocklen) % 256
  else 0

/-- The function `encrypt_payloads (pkt, buf, swaparg, numencr)` of `ikev2_pkt.c`, the
close callback of the SK container whose generic header is at offset `buf`. -/
def encrypt_payloads (tok : Token) (debug : Bool) (pkt : pkt_t) (buf : Nat) :
    Except Fault (Bool × crypt_st) :=
  match pkt.pkt_sa with
  | none => .error Fault.null_deref
  | some sa =>
    let mode := ikev2_encr_mode sa.encr
    let ivlen := ikev2_encr_iv_size sa.encr
    match ikev2_auth_icv_size debug sa.encr sa.auth with
    | .error e => .error e
    | .ok icvlen =>
      let blocklen := ikev2_encr_block_size sa.encr
      let iv := buf + sizeof_ike_payload_t
      let data := iv + ivlen
      /- Sanity check -/
      if ¬ (data ≥ pkt.pkt_ptr) then .error Fault.verify
      else
        let datalen := (pkt.pkt_ptr + ULONG_MOD - data) % ULONG_MOD
        if blocklen = 0 then .error Fault.div_by_zero
        else
          let padlen := sk_padlen blocklen datalen
          if pkt_write_left pkt < padlen + 1 + icvlen then .ok (false, ⟨pkt, []⟩)
          else
            /- the loop stores `padlen` into `padlen + 1` octets at the cursor -/
            let raw1 := wrN pkt.pkt_raw pkt.pkt_ptr (List.replicate (padlen + 1) padlen)
            let ptr1 := pkt.pkt_ptr + (padlen + 1)
            let datalen1 := (datalen + padlen) % ULONG_MOD
            let icv0 := (data + datalen1) % ULONG_MOD
            let raw2 := wrN raw1 icv0 [padlen]
            let icv := icv0 + 1
            if ¬ (ivlen ≥ 4) then .error Fault.verify
            else
              let st0 : crypt_st := ⟨{ pkt with pkt_raw := raw2, pkt_ptr := ptr1 }, []⟩
              let ivres : Except Fault (Bool × crypt_st) :=
                if mode = MODE_CBC then cbc_iv tok sa st0 iv
                else
                  .ok (true, { st0 with pkt :=
                    { st0.pkt with pkt_raw := wrN st0.pkt.pkt_raw iv (pkt.pkt_header.msgid.take 4) } })
              match ivres with
              | .error e => .error e
              | .ok (false, st1) => .ok (false, st1)
              | .ok (true, st1) =>
                let ptr2 := icv + icvlen
                /- Update SK payload length field to reflect padding + ICV -/
                let paylen := (ptr2 + ULONG_MOD - buf) % 65536
                let raw3 := wrN st1.pkt.pkt_raw (buf + 2) [paylen / 256, paylen % 256]
                let st2 : crypt_st := { st1 with pkt := { st1.pkt with pkt_raw := raw3, pkt_ptr := ptr2 } }
                match crypt_common tok sa st2 true iv ivlen data datalen1 icvlen with
                | .error e => .error e
                | .ok (false, st3) => .ok (false, st3)
                | .ok (true, st3) =>
                  if mode = MODE_CCM ∨ mode = MODE_GCM then .ok (true, st3)
                  else
                    match auth_common tok debug sa st3 true icv icvlen with
                    | .error e => .error e
                    | .ok (false, st4) => .ok (false, st4)
                    | .ok (true, st4) => .ok (true, st4)

/-- The locals of `encrypt_payloads` at the point where it calls `crypt_common`: the
packet and the token calls so far, the offsets and lengths it passes on, and `raw_padded`,
the buffer as the padding stores left it. -/
structure sk_close_t where
  st : crypt_st
  raw_padded : List Nat
  padlen : Nat
  iv : Nat
  ivlen : Nat
  data : Nat
  datalen : Nat
  icv : Nat
  icvlen : Nat
deriving DecidableEq, Repr

/-- How far `encrypt_payloads` gets before the cipher: it returns `B_FALSE` early, or it
arrives at its call of `crypt_common`. -/
inductive sk_close_progress where
  | gave_up (st : crypt_st)
  | at_cipher (fr : sk_close_t)
deriving DecidableEq, Repr

/-- The part of `encrypt_payloads` in front of its call of `crypt_common` (the same steps
as in `encrypt_payloads`, see `encrypt_payloads_staged`). -/
def encrypt_payloads_to_cipher (tok : Token) (debug : Bool) (pkt : pkt_t) (buf : Nat) :
    Except Fault sk_close_progress :=
  match pkt.pkt_sa with
  | none => .error Fault.null_deref
  | some sa =>
    let mode := ikev2_encr_mode sa.encr
    let ivlen := ikev2_encr_iv_size sa.encr
    match ikev2_auth_icv_size debug sa.encr sa.auth with
    | .error e => .error e
    | .ok icvlen =>
      let blocklen := ikev2_encr_block_size sa.encr
      let iv := buf + sizeof_ike_payload_t
      let data := iv + ivlen
      if ¬ (data ≥ pkt.pkt_ptr) then .error Fault.verify
      else
        let datalen := (pkt.pkt_ptr + ULONG_MOD - data) % ULONG_MOD
        if blocklen = 0 then .error Fault.div_by_zero
        else
          let padlen := sk_padlen blocklen datalen
          if pkt_write_left pkt < padlen + 1 + icvlen then
            .ok (sk_close_progress.gave_up ⟨pkt, []⟩)
          else
            let raw1 := wrN pkt.pkt_raw pkt.pkt_ptr (List.replicate (padlen + 1) padlen)
            let ptr1 := pkt.pkt_ptr + (padlen + 1)
            let datalen1 := (datalen + padlen) % ULONG_MOD
            let icv0 := (data + datalen1) % ULONG_MOD
            let raw2 := wrN raw1 icv0 [padlen]
            let icv := icv0 + 1
            if ¬ (ivlen ≥ 4) then .error Fault.verify
            else
              let st0 : crypt_st := ⟨{ pkt with pkt_raw := raw2, pkt_ptr := ptr1 }, []⟩
              let ivres : Except Fault (Bool × crypt_st) :=
                if mode = MODE_CBC then cbc_iv tok sa st0 iv
                else
                  .ok (true, { st0 with pkt :=
                    { st0.pkt with pkt_raw := wrN st0.pkt.pkt_raw iv (pkt.pkt_header.msgid.take 4) } })
              match ivres with
              | .error e => .error e
              | .ok (false, st1) => .ok (sk_close_progress.gave_up st1)
              | .ok (true, st1) =>
                let ptr2 := icv + icvlen
                let paylen := (ptr2 + ULONG_MOD - buf) % 65536
                let raw3 := wrN st1.pkt.pkt_raw (buf + 2) [paylen / 256, paylen % 256]
                let st2 : crypt_st := { st1 with pkt := { st1.pkt with pkt_raw := raw3, pkt_ptr := ptr2 } }
                .ok (sk_close_progress.at_cipher
                  ⟨st2, raw2, padlen, iv, ivlen, data, datalen1, icv, icvlen⟩)

/-- The part of `encrypt_payloads` from its call of `crypt_common` on. -/
def encrypt_payloads_from_cipher (tok : Token) (debug : Bool) (sa : ikev2_sa_t)
    (fr : sk_close_t) : Except Fault (Bool × crypt_st) :=
  match crypt_common tok sa fr.st true fr.iv fr.ivlen fr.data fr.datalen fr.icvlen with
  | .error e => .error e
  | .ok (false, st3) => .ok (false, st3)
  | .ok (true, st3) =>
    if ikev2_encr_mode sa.encr = MODE_CCM ∨ ikev2_encr_mode sa.encr = MODE_GCM then
      .ok (true, st3)
    else
      match auth_common tok debug sa st3 true fr.icv fr.icvlen with
      | .error e => .error e
      | .ok (false, st4) => .ok (false, st4)
      | .ok (true, st4) => .ok (true, st4)

/-! ## Opening the SK payload (`ikev2_pkt_decrypt`) -/

/-- Modelled from the spec: the values of the encryption transform identifiers in
`ikev2.h`, the IANA "IKEv2 Transform Type 1" numbers (0 is the reserved value). -/
def encr_id : ikev2_xf_encr_t → Nat
  | IKEV2_ENCR_NONE => 0
  | IKEV2_ENCR_DES_IV64 => 1
  | IKEV2_ENCR_DES => 2
  | IKEV2_ENCR_3DES => 3
  | IKEV2_ENCR_RC5 => 4
  | IKEV2_ENCR_IDEA => 5
  | IKEV2_ENCR_CAST => 6
  | IKEV2_ENCR_BLOWFISH => 7
  | IKEV2_ENCR_3IDEA => 8
  | IKEV2_ENCR_DES_IV32 => 9
  | IKEV2_ENCR_RC4 => 10
  | IKEV2_ENCR_NULL => 11
  | IKEV2_ENCR_AES_CBC => 12
  | IKEV2_ENCR_AES_CTR => 13
  | IKEV2_ENCR_AES_CCM_8 => 14
  | IKEV2_ENCR_AES_CCM_12 => 15
  | IKEV2_ENCR_AES_CCM_16 => 16
  | IKEV2_ENCR_AES_GCM_8 => 18
  | IKEV2_ENCR_AES_GCM_12 => 19
  | IKEV2_ENCR_AES_GCM_16 => 20
  | IKEV2_ENCR_NULL_AES_GMAC => 21
  | IKEV2_ENCR_XTS_AES => 22
  | IKEV2_ENCR_CAMELLIA_CBC => 23
  | IKEV2_ENCR_CAMELLIA_CTR => 24
  | IKEV2_ENCR_CAMELLIA_CCM_8 => 25
  | IKEV2_ENCR_CAMELLIA_CCM_12 => 26
  | IKEV2_ENCR_CAMELLIA_CCM_16 => 27

/-- Modelled from the spec: the values of the integrity transform identifiers in
`ikev2.h`, the IANA "IKEv2 Transform Type 3" numbers. -/
def auth_id : ikev2_xf_auth_t → Nat
  | IKEV2_XF_AUTH_NONE => 0
  | IKEV2_XF_AUTH_HMAC_MD5_96 => 1
  | IKEV2_XF_AUTH_HMAC_SHA1_96 => 2
  | IKEV2_XF_AUTH_DES_MAC => 3
  | IKEV2_XF_AUTH_KPDK_MD5 => 4
  | IKEV2_XF_AUTH_AES_XCBC_96 => 5
  | IKEV2_XF_AUTH_HMAC_MD5_128 => 6
  | IKEV2_XF_AUTH_HMAC_SHA1_160 => 7
  | IKEV2_XF_AUTH_AES_CMAC_96 => 8
  | IKEV2_XF_AUTH_AES_128_GMAC => 9
  | IKEV2_XF_AUTH_AES_192_GMAC => 10
  | IKEV2_XF_AUTH_AES_256_GMAC => 11
  | IKEV2_XF_AUTH_HMAC_SHA2_256_128 => 12
  | IKEV2_XF_AUTH_HMAC_SHA2_384_192 => 13
  | IKEV2_XF_AUTH_HMAC_SHA2_512_256 => 14

/-- Modelled from the spec: `pkt_payload (pkt, i)` of `pkt.h`, the slot `i` of the payload
index. -/
def pkt_payload (pkt : pkt_t) (i : Nat) : pkt_payload_t := pkt.pkt_payloads.getD i ⟨0, 0, 0⟩

/-- A payload kind that the index records, one in `[MIN..MAX]`. -/
def is_indexed_kind (k : Nat) : Bool := decide (IKEV2_PAYLOAD_MIN ≤ k ∧ k ≤ IKEV2_PAYLOAD_MAX)

/-- Modelled from the spec: the callback under `pkt_count_payloads`, the validator of
section 4.3 step 2 run again on the plaintext: a payload of a kind in `[MIN..MAX]` is
counted, a NOTIFY must hold its 4 octet header and its SPI and is counted as a notify too,
other kinds are skipped. The cookie is the pair of counts. -/
def count_cb (paytype _resv : Nat) (mem : List Nat) (buf buflen : Nat) (c : Nat × Nat) :
    pkt_walk_ret_t × (Nat × Nat) :=
  if is_indexed_kind paytype = false then (PKT_WALK_OK, c)
  else if paytype = IKEV2_PAYLOAD_NOTIFY then
    if buflen < sizeof_ikev2_notify_t then (PKT_WALK_ERROR, c)
    else if buflen < sizeof_ikev2_notify_t + rd8 mem (buf + 1) then (PKT_WALK_ERROR, c)
    else (PKT_WALK_OK, (c.1 + 1, c.2 + 1))
  else (PKT_WALK_OK, (c.1 + 1, c.2))

/-- Modelled from the spec: `pkt_count_payloads (data, datalen, first, &paycount,
&ncount)` of `pkt.c`; `region` holds the octets at `data`, as many of the `datalen` as the
buffer has. "Re-run the validator on the recovered plaintext region using the SK header's
Next-Payload as the chain head"; `none` is the failure of that walk. -/
def pkt_count_payloads (region : List Nat) (datalen first : Nat) : Option (Nat × Nat) :=
  match pkt_payload_walk region 0 datalen count_cb first (0, 0) with
  | (PKT_WALK_OK, c) => some c
  | (PKT_WALK_ERROR, _) => none

/-- The list `l` cut or filled up with `d` to the length `n`. -/
def resize_table {α : Type} (l : List α) (n : Nat) (d : α) : List α :=
  l.take n ++ List.replicate (n - l.length) d

/-- Modelled from the spec: `pkt_size_index (pkt, npay, nnotify)` of `pkt.c`, which makes
room in the two index tables for the "newly discovered payload/notify indices"; the counts
become the new sizes. Memory exhaustion is not modelled. -/
def pkt_size_index (pkt : pkt_t) (npay nnotify : Nat) : Option pkt_t :=
  some { pkt with
    pkt_payloads := resize_table pkt.pkt_payloads npay ⟨0, 0, 0⟩
    pkt_payload_count := npay
    pkt_notifies := resize_table pkt.pkt_notifies nnotify ⟨0, 0, 0⟩
    pkt_notify_count := nnotify }

/-- The index entries `es` stored into the table `tbl` from the slot `start` on. -/
def store_entries (tbl : List pkt_payload_t) (start : Nat) : List pkt_payload_t →
    List pkt_payload_t
  | [] => tbl
  | e :: es => store_entries (tbl.set start e) (start + 1) es

/-- Modelled from the spec: `pkt_index_payloads (pkt, data, datalen, first, paystart)` of
`pkt.c`; `region` holds the octets at `data`, as many of the `datalen` as the buffer has.
It appends a `PayloadIndex{ kind, body_ptr, body_len }` for each payload of the region that
`pkt_count_payloads` counts, from the slot `paystart` on. -/
def pkt_index_payloads (pkt : pkt_t) (region : List Nat) (data datalen first paystart : Nat) :
    Option pkt_t :=
  match pkt_count_payloads region datalen first with
  | none => none
  | some _ =>
    let links := (chain_links_loop (datalen + 1) region 0 datalen first).filter
      (fun p => is_indexed_kind p.pp_type)
    let entries := links.map (fun p => { p with pp_ptr := data + p.pp_ptr })
    some { pkt with pkt_payloads := store_entries pkt.pkt_payloads paystart entries }

/-- The offsets and lengths `ikev2_pkt_decrypt` works with once it has split the SK body
into IV, ciphertext and ICV. -/
structure sk_open_t where
  iv : Nat
  ivlen : Nat
  data : Nat
  datalen : Nat
  icv : Nat
  icvlen : Nat
deriving DecidableEq, Repr

/-- The first loop of `ikev2_pkt_decrypt`: pointer and length of the first SK entry among
the first `n` slots of the payload index at and after slot `i`; `none` is `data == NULL`. -/
def find_sk_payload (pkt : pkt_t) : Nat → Nat → Option (Nat × Nat)
  | 0, _ => none
  | n + 1, i =>
    if (pkt_payload pkt i).pp_type ≠ IKEV2_PAYLOAD_SK then find_sk_payload pkt n (i + 1)
    else some ((pkt_payload pkt i).pp_ptr, (pkt_payload pkt i).pp_len)

/-- Lines 1216 to 1251 of `ikev2_pkt_decrypt`: find the SK payload, test its size and split
it. `.ok none` is the return of `B_FALSE` ("SK payload is too small"; without assertions
also a packet with no SK entry, whose length is taken as 0). -/
def ikev2_pkt_decrypt_layout (debug : Bool) (pkt : pkt_t) (sa : ikev2_sa_t) :
    Except Fault (Option sk_open_t) :=
  let found := find_sk_payload pkt pkt.pkt_payload_count 0
  if debug = true ∧ found = none then .error Fault.assertion
  else
    let data0 : Nat := match found with | some r => r.1 | none => 0
    let datalen0 : Nat := match found with | some r => r.2 | none => 0
    let ivlen := ikev2_encr_iv_size sa.encr
    match ikev2_auth_icv_size debug sa.encr sa.auth with
    | .error e => .error e
    | .ok icvlen =>
      if icvlen + icvlen + 1 ≥ datalen0 then .ok none
      else
        let iv := data0
        let data := data0 + ivlen
        let datalen1 := (datalen0 + ULONG_MOD - ivlen) % ULONG_MOD
        let datalen2 := (datalen1 + ULONG_MOD - icvlen) % ULONG_MOD
        let icv := (data + datalen2) % ULONG_MOD
        .ok (some ⟨iv, ivlen, data, datalen2, icv, icvlen⟩)

/-- The test in front of the MAC verification in `ikev2_pkt_decrypt`,
`mode != MODE_CCM && mode != MODE_GCM && sa->encr != IKEV2_XF_AUTH_NONE`; the last
comparison is between the number of the cipher and the number of `IKEV2_XF_AUTH_NONE`. -/
def decrypt_checks_mac (sa : ikev2_sa_t) : Bool :=
  decide (ikev2_encr_mode sa.encr ≠ MODE_CCM ∧ ikev2_encr_mode sa.encr ≠ MODE_GCM ∧
    encr_id sa.encr ≠ auth_id IKEV2_XF_AUTH_NONE)

/-- Lines 1253 to 1257 of `ikev2_pkt_decrypt`: the MAC verification, where the test in
front of it asks for one. -/
def ikev2_pkt_decrypt_auth (tok : Token) (debug : Bool) (sa : ikev2_sa_t) (pkt : pkt_t)
    (fr : sk_open_t) : Except Fault (Bool × crypt_st) :=
  if decrypt_checks_mac sa = true then auth_common tok debug sa ⟨pkt, []⟩ false fr.icv fr.icvlen
  else .ok (true, ⟨pkt, []⟩)

/-- The padding validation loop of `ikev2_pkt_decrypt`, `for (i = 0; i < padlen; i++)
{ if (*padp == padlen) continue; ... return (B_FALSE); }`: `padp` is not moved, so every
round looks at the same octet. `true` means that no round returned. -/
def pad_validate (raw : List Nat) (padp padlen : Nat) : Bool :=
  (List.range padlen).all (fun _i => decide (rd8 raw padp = padlen))

/-- The last loop of `ikev2_pkt_decrypt`, over the slots `is` of the payload index: for
each NOTIFY entry the next slot of the notify table is filled from the entry and from the
16 bit type behind `pp_ptr`. -/
def decrypt_notify_loop (debug : Bool) : List Nat → Nat → pkt_t → Except Fault pkt_t
  | [], _, pkt => .ok pkt
  | i :: is, ncount, pkt =>
    let pp := pkt_payload pkt i
    if pp.pp_type ≠ IKEV2_PAYLOAD_NOTIFY then decrypt_notify_loop debug is ncount pkt
    else if debug = true ∧ ¬ (pp.pp_len ≥ sizeof_ikev2_notify_t) then .error Fault.assertion
    else
      let ntfy : pkt_notify_t :=
        { pn_ptr := pp.pp_ptr, pn_len := pp.pp_len, pn_type := rd16 pkt.pkt_raw (pp.pp_ptr + 2) }
      decrypt_notify_loop debug is (ncount + 1) (pkt_notify_store pkt ncount ntfy)

/-- Lines 1262 to 1326 of `ikev2_pkt_decrypt`, what follows the cipher: the pad length is
read from the octet in front of the ICV, the padding is validated for a peer of our own
kind, and the inner payloads are counted and indexed. -/
def ikev2_pkt_decrypt_index (debug : Bool) (sa : ikev2_sa_t) (st : crypt_st)
    (fr : sk_open_t) : Except Fault (Bool × crypt_st) :=
  let pkt := st.pkt
  let padlen := rd8 pkt.pkt_raw ((fr.icv + ULONG_MOD - 1) % ULONG_MOD)
  let datalen := (fr.datalen + ULONG_MOD - (padlen + 1)) % ULONG_MOD
  if sa.vendor = VENDOR_ILLUMOS_1 ∧
      pad_validate pkt.pkt_raw ((fr.data + datalen) % ULONG_MOD) padlen = false then
    .ok (false, st)
  else
    let pay_next := rd8 pkt.pkt_raw (fr.iv - sizeof_ike_payload_t)
    let region := rdN pkt.pkt_raw fr.data datalen
    match pkt_count_payloads region datalen pay_next with
    | none => .ok (false, st)
    | some (paycount, ncount) =>
      let paystart := pkt.pkt_payload_count
      let nstart := pkt.pkt_notify_count
      match pkt_size_index pkt (pkt.pkt_payload_count + paycount)
          (pkt.pkt_notify_count + ncount) with
      | none => .ok (false, st)
      | some pkt1 =>
        match pkt_index_payloads pkt1 region fr.data datalen pay_next paystart with
        | none => .ok (false, { st with pkt := pkt1 })
        | some pkt2 =>
          match decrypt_notify_loop debug (List.range pkt2.pkt_payload_count) nstart pkt2 with
          | .error e => .error e
          | .ok pkt3 => .ok (true, { st with pkt := pkt3 })

/-- The function `ikev2_pkt_decrypt (pkt)` of `ikev2_pkt.c`: layout, MAC verification,
cipher, and indexing of the inner payloads. -/
def ikev2_pkt_decrypt (tok : Token) (debug : Bool) (pkt : pkt_t) :
    Except Fault (Bool × crypt_st) :=
  match pkt.pkt_sa with
  | none => .error Fault.null_deref
  | some sa =>
    match ikev2_pkt_decrypt_layout debug pkt sa with
    | .error e => .error e
    | .ok none => .ok (false, ⟨pkt, []⟩)
    | .ok (some fr) =>
      match ikev2_pkt_decrypt_auth tok debug sa pkt fr with
      | .error e => .error e
      | .ok (false, st1) => .ok (false, st1)
      | .ok (true, st1) =>
        match crypt_common tok sa st1 false fr.iv fr.ivlen fr.data fr.datalen fr.icvlen with
        | .error e => .error e
        | .ok (false, st2) => .ok (false, st2)
        | .ok (true, st2) => ikev2_pkt_decrypt_index debug sa st2 fr

/-! ## The outbound builder (`ikev2_pkt.c` over `pkt.c`) -/

/-- Modelled from the spec: the kinds of container stack entries that `ikev2_pkt.c` pushes
(`pkt_stack_item_t` of `pkt.h`): the SK container, DELETE, the TSi/TSr payload and a single
traffic selector. -/
inductive pkt_stack_item_t where
  | PSI_SK
  | PSI_DEL
  | PSI_TSP
  | PSI_TS
deriving DecidableEq, Repr

/-- The finalize callbacks that `ikev2_pkt.c` hands to `pkt_stack_push`; `no_finish` is the
null pointer. -/
inductive pkt_finish_fn where
  | no_finish
  | encrypt_payloads_fn
  | delete_finish_fn
  | ts_finish_fn
deriving DecidableEq, Repr

/-- Modelled from the spec: a container stack entry, "kind tag, offset of the container's
header in the buffer, a child counter, optional extra state, and a finalize callback". -/
structure pkt_stack_t where
  stk_type : pkt_stack_item_t
  stk_finish : pkt_finish_fn
  stk_ptr : Nat
  stk_count : Nat
  stk_swaparg : Nat
deriving DecidableEq, Repr

/-- An outbound packet under construction: the packet, its container stack (innermost
entry first) and `next_slot`, the offset of the Next Payload octet that the next payload
added will fill in (the one of the IKE header before the first payload). -/
structure build_st where
  pkt : pkt_t
  stack : List pkt_stack_t
  next_slot : Nat
deriving DecidableEq, Repr

/-- Modelled from the spec: `pkt_stack_push (pkt, type, finish, swaparg)` of `pkt.c`; the
new entry records the write cursor as the offset of the container and has no child yet.
The closing of containers that are already open is not modelled. -/
def pkt_stack_push (b : build_st) (type : pkt_stack_item_t) (finish : pkt_finish_fn)
    (swaparg : Nat) : build_st :=
  { b with stack := ⟨type, finish, b.pkt.pkt_ptr, 0, swaparg⟩ :: b.stack }

/-- Modelled from the spec: `pkt_add_payload (pkt, ptype, resv)` of `pkt.c`, the
`begin_payload` and `chain_next` of section 4.1: with room for it, the Next Payload slot of
the previous payload is set to `ptype`, and a generic header (next payload 0, the reserved
octet, length 0) is stored at the cursor, which moves behind it. -/
def pkt_add_payload (b : build_st) (ptype resv : Nat) : Bool × build_st :=
  if pkt_write_left b.pkt < sizeof_ike_payload_t then (false, b)
  else
    let raw1 := wrN b.pkt.pkt_raw b.next_slot [ptype % 256]
    let raw2 := wrN raw1 b.pkt.pkt_ptr [0, resv % 256, 0, 0]
    (true, { b with
      pkt := { b.pkt with pkt_raw := raw2, pkt_ptr := b.pkt.pkt_ptr + sizeof_ike_payload_t }
      next_slot := b.pkt.pkt_ptr })

/-- Modelled from the spec: the macro `IKEV2_VALID_PAYLOAD` of `ikev2.h`, a payload kind
in `[MIN..MAX]`. -/
@[reducible] def IKEV2_VALID_PAYLOAD (ptype : Nat) : Prop :=
  IKEV2_PAYLOAD_MIN ≤ ptype ∧ ptype ≤ IKEV2_PAYLOAD_MAX

/-- Modelled from the spec: `sizeof (ikev2_payload_t)`, the 4 octet generic payload
header. -/
def sizeof_ikev2_payload_t : Nat := 4

/-- The function `ikev2_add_payload (pkt, ptype, critical)` of `ikev2_pkt.c`; the result
of `pkt_add_payload` is not looked at. -/
def ikev2_add_payload (debug : Bool) (b : build_st) (ptype : Nat) (critical : Bool) :
    Except Fault build_st :=
  if debug = true ∧ ¬ IKEV2_VALID_PAYLOAD ptype then .error Fault.assertion
  else if debug = true ∧ ¬ (pkt_write_left b.pkt ≥ sizeof_ikev2_payload_t) then
    .error Fault.assertion
  else
    let resv : Nat := if critical = true then 0 ||| IKEV2_CRITICAL_PAYLOAD else 0
    .ok (pkt_add_payload b ptype resv).2

/-- The function `ikev2_add_sk (pkt)` of `ikev2_pkt.c`: it opens the SK container at the
cursor and leaves the cursor behind the zeroed room for the IV. -/
def ikev2_add_sk (debug : Bool) (b : build_st) : Except Fault (Bool × build_st) :=
  match b.pkt.pkt_sa with
  | none => .error Fault.null_deref
  | some sa =>
    let ivlen := ikev2_encr_iv_size sa.encr
    match ikev2_auth_icv_size debug sa.encr sa.auth with
    | .error e => .error e
    | .ok icvlen =>
      let len := sizeof_ikev2_payload_t + ivlen + icvlen + ikev2_encr_block_size sa.encr
      if pkt_write_left b.pkt < len then .ok (false, b)
      else
        /- This needs to happen first so that subsequent payloads are encapsulated by the
        SK payload -/
        let b1 := pkt_stack_push b pkt_stack_item_t.PSI_SK pkt_finish_fn.encrypt_payloads_fn 0
        match ikev2_add_payload debug b1 IKEV2_PAYLOAD_SK false with
        | .error e => .error e
        | .ok b2 =>
          /- Skip over space for IV, encrypt_payloads() will fill it in. -/
          let raw := wrN b2.pkt.pkt_raw b2.pkt.pkt_ptr (List.replicate ivlen 0)
          .ok (true, { b2 with
            pkt := { b2.pkt with pkt_raw := raw, pkt_ptr := b2.pkt.pkt_ptr + ivlen } })

/-! ## Encryption transforms (`ikev2_add_xf_encr`) -/

/-- Modelled from the spec: transform type 1, encryption, of `ikev2.h` (RFC 7296 value). -/
def IKEV2_XF_ENCR : Nat := 1
/-- Modelled from the spec: the attribute type KEYLEN of `ikev2.h` (RFC 7296 value). -/
def IKEV2_XF_ATTR_KEYLEN : Nat := 14

/-- Modelled from the spec: the two operations of `pkt.c` under `ikev2_add_xform` and
`ikev2_add_xf_attr`, `pkt_add_xform (pkt, xftype, xfid)` ("8-octet transform header; opens
attribute region") and `pkt_add_xform_attr_tv (pkt, type, value)` ("4-octet TV attribute").
Each returns ok or out-of-space and leaves the packet in some state; their code is not in
the tree, so they are parameters. -/
structure xf_ops where
  pkt_add_xform : build_st → Nat → Nat → Bool × build_st
  pkt_add_xform_attr_tv : build_st → Nat → Nat → Bool × build_st

/-- What `ikev2_add_xf_encr` asks `pkt.c` to add: a transform or a TV attribute. -/
inductive xf_item where
  | xform (xftype xfid : Nat)
  | attr_tv (type value : Nat)
deriving DecidableEq, Repr

/-- The packet under construction together with the requests made to `pkt.c` so far,
oldest first, each with the answer it got. -/
structure xf_st where
  b : build_st
  calls : List (xf_item × Bool)
deriving DecidableEq, Repr

/-- The function `ikev2_add_xform (pkt, xftype, xfid)` of `ikev2_pkt.c`. -/
def ikev2_add_xform (ops : xf_ops) (st : xf_st) (xftype xfid : Nat) : Bool × xf_st :=
  let r := ops.pkt_add_xform st.b xftype xfid
  (r.1, ⟨r.2, st.calls ++ [(xf_item.xform xftype xfid, r.1)]⟩)

/-- The function `ikev2_add_xf_attr (pkt, xf_attr_type, arg)` of `ikev2_pkt.c`. -/
def ikev2_add_xf_attr (ops : xf_ops) (debug : Bool) (st : xf_st) (xf_attr_type arg : Nat) :
    Except Fault (Bool × xf_st) :=
  if xf_attr_type = IKEV2_XF_ATTR_KEYLEN then
    if debug = true ∧ ¬ (arg < 0x10000) then .error Fault.assertion
    else
      let r := ops.pkt_add_xform_attr_tv st.b IKEV2_XF_ATTR_KEYLEN (arg % 65536)
      .ok (r.1, ⟨r.2, st.calls ++ [(xf_item.attr_tv IKEV2_XF_ATTR_KEYLEN (arg % 65536), r.1)]⟩)
  else .ok (false, st)

/-- The two statements `ok &= ikev2_add_xform (pkt, IKEV2_XF_ENCR, encr); ok &=
ikev2_add_xf_attr (pkt, IKEV2_XF_ATTR_KEYLEN, bits);` of `ikev2_add_xf_encr`. -/
def xf_encr_pair (ops : xf_ops) (debug : Bool) (encr : ikev2_xf_encr_t) (bits : Nat)
    (ok : Bool) (st : xf_st) : Except Fault (Bool × xf_st) :=
  let r1 := ikev2_add_xform ops st IKEV2_XF_ENCR (encr_id encr)
  match ikev2_add_xf_attr ops debug r1.2 IKEV2_XF_ATTR_KEYLEN bits with
  | .error e => .error e
  | .ok r2 => .ok (ok && r1.1 && r2.1, r2.2)

/-- The loop `for (size_t bits = minbits; bits <= maxbits; bits += incr)` of
`ikev2_add_xf_encr`, run for at most `fuel` tests of its condition; `none` means that the
bound was hit. -/
def xf_encr_loop (ops : xf_ops) (debug : Bool) (encr : ikev2_xf_encr_t) (incr maxbits : Nat) :
    Nat → Nat → Bool → xf_st → Option (Except Fault (Bool × xf_st))
  | 0, _, _, _ => none
  | fuel + 1, bits, ok, st =>
    if bits ≤ maxbits then
      match xf_encr_pair ops debug encr bits ok st with
      | .error e => some (.error e)
      | .ok r => xf_encr_loop ops debug encr incr maxbits fuel ((bits + incr) % ULONG_MOD) r.1 r.2
    else some (.ok (ok, st))

/-- How the `switch (encr)` of `ikev2_add_xf_encr` ends: it stops the program, it returns,
or it leaves the switch with a value for `incr`. -/
inductive xf_switch where
  | fault (e : Fault)
  | ret (r : Bool × xf_st)
  | incr (n : Nat)

/-- The `switch (encr)` of `ikev2_add_xf_encr`. -/
def xf_encr_switch (ops : xf_ops) (st : xf_st) (encr : ikev2_xf_encr_t)
    (minbits maxbits : Nat) : xf_switch :=
  match encr with
  | IKEV2_ENCR_NONE => xf_switch.fault Fault.invalid
  | IKEV2_ENCR_NULL => xf_switch.fault Fault.invalid
  /- XXX: need to confirm this -/
  | IKEV2_ENCR_NULL_AES_GMAC => xf_switch.ret (true, st)
  /- ones that should never include a key size -/
  | IKEV2_ENCR_DES_IV64 | IKEV2_ENCR_DES | IKEV2_ENCR_3DES | IKEV2_ENCR_IDEA
  | IKEV2_ENCR_3IDEA | IKEV2_ENCR_DES_IV32 =>
    if ¬ (minbits = 0) then xf_switch.fault Fault.verify
    else if ¬ (maxbits = 0) then xf_switch.fault Fault.verify
    else xf_switch.ret (ikev2_add_xform ops st IKEV2_XF_ENCR (encr_id encr))
  /- optional key size -/
  | IKEV2_ENCR_RC4 | IKEV2_ENCR_RC5 | IKEV2_ENCR_BLOWFISH | IKEV2_ENCR_CAST =>
    if minbits = 0 ∧ maxbits = 0 then
      xf_switch.ret (ikev2_add_xform ops st IKEV2_XF_ENCR (encr_id encr))
    else xf_switch.incr 1
  | IKEV2_ENCR_AES_CBC | IKEV2_ENCR_AES_CTR | IKEV2_ENCR_AES_CCM_8 | IKEV2_ENCR_AES_CCM_12
  | IKEV2_ENCR_AES_CCM_16 | IKEV2_ENCR_AES_GCM_8 | IKEV2_ENCR_AES_GCM_12
  | IKEV2_ENCR_AES_GCM_16 | IKEV2_ENCR_XTS_AES => xf_switch.incr 64
  | IKEV2_ENCR_CAMELLIA_CBC | IKEV2_ENCR_CAMELLIA_CTR | IKEV2_ENCR_CAMELLIA_CCM_8
  | IKEV2_ENCR_CAMELLIA_CCM_12 | IKEV2_ENCR_CAMELLIA_CCM_16 =>
    if ¬ (minbits ≥ 128) then xf_switch.fault Fault.verify
    else if ¬ (maxbits ≤ 256) then xf_switch.fault Fault.verify
    else xf_switch.incr 64

/-- The function `ikev2_add_xf_encr (pkt, encr, minbits, maxbits)` of `ikev2_pkt.c`;
`minbits` and `maxbits` are `uint16_t` values. The loop is given `maxbits + 2` tests of its
condition; `none` means that it did not come to an end within them. -/
def ikev2_add_xf_encr (ops : xf_ops) (debug : Bool) (st : xf_st) (encr : ikev2_xf_encr_t)
    (minbits maxbits : Nat) : Option (Except Fault (Bool × xf_st)) :=
  match xf_encr_switch ops st encr minbits maxbits with
  | xf_switch.fault e => some (.error e)
  | xf_switch.ret r => some (.ok r)
  | xf_switch.incr incr =>
    if incr = 1 then
      /- instead of adding potentially hundreds of transforms for a range of keysizes, for
      those with arbitrary key sizes we just add the min and max -/
      let first : Except Fault (Bool × xf_st) :=
        if minbits ≠ maxbits then xf_encr_pair ops debug encr minbits true st
        else .ok (true, st)
      match first with
      | .error e => some (.error e)
      | .ok r =>
        match xf_encr_pair ops debug encr maxbits r.1 r.2 with
        | .error e => some (.error e)
        | .ok r2 => some (.ok r2)
    else xf_encr_loop ops debug encr incr maxbits (maxbits + 2) minbits true st

/-- The encryption transforms with a KEYLEN attribute each that the loop of
`ikev2_add_xf_encr` asks for in `n` rounds from `bits` on in steps of `incr`. -/
def xf_encr_pairs (encr : ikev2_xf_encr_t) (incr : Nat) : Nat → Nat → List xf_item
  | 0, _ => []
  | n + 1, bits =>
    xf_item.xform IKEV2_XF_ENCR (encr_id encr) ::
      xf_item.attr_tv IKEV2_XF_ATTR_KEYLEN bits :: xf_encr_pairs encr incr n (bits + incr)

/-! ## The token calls of an SK payload -/

/-- The first token call of `crypt_common`: `C_EncryptInit` or `C_DecryptInit`. -/
def crypt_init_call (encrypt : Bool) (mech : CK_MECHANISM) (key : Nat) : p11_call :=
  if encrypt = true then p11_call.EncryptInit mech key else p11_call.DecryptInit mech key

/-- The second token call of `crypt_common`: `C_Encrypt` or `C_Decrypt`, in place. -/
def crypt_data_call (encrypt : Bool) (data datalen : Nat) : p11_call :=
  if encrypt = true then p11_call.Encrypt (some data) datalen
  else p11_call.Decrypt (some data) datalen

/-- The first token call of `auth_common`: `C_SignInit` or `C_VerifyInit`. -/
def auth_init_call (encrypt : Bool) (mech : CK_MECHANISM) (key : Nat) : p11_call :=
  if encrypt = true then p11_call.SignInit mech key else p11_call.VerifyInit mech key

/-- The second token call of `auth_common`: `C_Sign` or `C_Verify` over the `icv` octets
from the start of the buffer, with the ICV at `icv`. -/
def auth_data_call (encrypt : Bool) (icv icvlen : Nat) : p11_call :=
  if encrypt = true then p11_call.Sign 0 icv icv else p11_call.Verify 0 icv icv icvlen

/-- The state in which the part of `encrypt_payloads` in front of the cipher ends. -/
def sk_close_progress.state : sk_close_progress → crypt_st
  | sk_close_progress.gave_up st => st
  | sk_close_progress.at_cipher fr => fr.st

/-! ## Proposals (`ikev2_add_prop`) -/

/-- Modelled from the spec: the protocol identifiers `ikev2_spi_proto_t` of `ikev2.h` that
the switch of `ikev2_add_prop` names. -/
inductive ikev2_spi_proto_t where
  | IKEV2_PROTO_NONE
  | IKEV2_PROTO_IKE
  | IKEV2_PROTO_AH
  | IKEV2_PROTO_ESP
  | IKEV2_PROTO_FC_ESP_HEADER
  | IKEV2_PROTO_FC_CT_AUTH
deriving DecidableEq, Repr

/-- The local `spilen` of `ikev2_add_prop` behind its switch. The local is declared with no
initialiser, `size_t spilen;`, and `junk` is the value it happens to hold. The AH and ESP
arm assigns `sizeof (uint32_t)`; the IKE arm is the expression statement
`spilen == (spi == 0) ? 0 : sizeof (uint64_t);`, which compares and drops the result, so
the local keeps `junk`; the other protocols end in `INVALID`. -/
def ikev2_add_prop_spilen (junk : Nat) (proto : ikev2_spi_proto_t) (spi : Nat) :
    Except Fault Nat :=
  match proto with
  | .IKEV2_PROTO_AH => .ok 4
  | .IKEV2_PROTO_ESP => .ok 4
  | .IKEV2_PROTO_IKE =>
    let _dropped : Nat := if junk = (if spi = 0 then 1 else 0) then 0 else 8
    .ok junk
  | .IKEV2_PROTO_NONE => .error Fault.invalid
  | .IKEV2_PROTO_FC_ESP_HEADER => .error Fault.invalid
  | .IKEV2_PROTO_FC_CT_AUTH => .error Fault.invalid

/-- The function `ikev2_add_prop (pkt, propnum, proto, spi)` of `ikev2_pkt.c`;
`pkt_add_prop` of `pkt.c` is a parameter and gets the packet, the proposal number, the
protocol, the SPI length and the SPI. -/
def ikev2_add_prop {α : Type}
    (pkt_add_prop : build_st → Nat → ikev2_spi_proto_t → Nat → Nat → α) (junk : Nat)
    (b : build_st) (propnum : Nat) (proto : ikev2_spi_proto_t) (spi : Nat) :
    Except Fault α :=
  match ikev2_add_prop_spilen junk proto spi with
  | .error e => .error e
  | .ok spilen => .ok (pkt_add_prop b propnum proto spilen spi)

/-! ## Vendor and traffic selector payloads -/

/-- Modelled from the spec: the macro `PKT_APPEND_DATA (pkt, data, len)` of `pkt.h`,
"append raw bytes": the octets are stored at the cursor, which moves behind them. -/
def PKT_APPEND_DATA (b : build_st) (data : List Nat) : build_st :=
  { b with
    pkt := { b.pkt with
      pkt_raw := wrN b.pkt.pkt_raw b.pkt.pkt_ptr data
      pkt_ptr := b.pkt.pkt_ptr + data.length } }

/-- The function `ikev2_add_vendor (pkt, vid, len)` of `ikev2_pkt.c`; `vid` holds the
`len` octets. -/
def ikev2_add_vendor (debug : Bool) (b : build_st) (vid : List Nat) :
    Except Fault (Bool × build_st) :=
  if pkt_write_left b.pkt < sizeof_ikev2_payload_t + vid.length then .ok (false, b)
  else
    match ikev2_add_payload debug b IKEV2_PAYLOAD_VENDOR false with
    | .error e => .error e
    | .ok b1 => .ok (true, PKT_APPEND_DATA b1 vid)

/-- Modelled from the spec: the traffic selector types `ikev2_ts_type_t` of `ikev2.h` that
the switch of `ikev2_add_ts` names. -/
inductive ikev2_ts_type_t where
  | IKEV2_TS_IPV4_ADDR_RANGE
  | IKEV2_TS_IPV6_ADDR_RANGE
  | IKEV2_TS_FC_ADDR_RANGE
deriving DecidableEq, Repr

/-- Modelled from the spec: the octet that stands for a traffic selector type (RFC 7296
values). -/
def ts_type_id : ikev2_ts_type_t → Nat
  | .IKEV2_TS_IPV4_ADDR_RANGE => 7
  | .IKEV2_TS_IPV6_ADDR_RANGE => 8
  | .IKEV2_TS_FC_ADDR_RANGE => 9

/-- The address families that `ikev2_add_ts` tells apart. -/
inductive sa_family_t where
  | AF_INET
  | AF_INET6
  | AF_OTHER
deriving DecidableEq, Repr

/-- What `ikev2_add_ts` reads of a `sockaddr_u_t`: the family, the port as the 16 bit
number that its two octets spell in network order, and the octets of the address. -/
structure sockaddr_u_t where
  ss_family : sa_family_t
  port : Nat
  addr : List Nat
deriving DecidableEq, Repr

/-- The `len` octets of the address of a `sockaddr_u_t`; octets that the list does not
hold read as zero. -/
def sockaddr_octets (s : sockaddr_u_t) (len : Nat) : List Nat :=
  ((s.addr ++ List.replicate len 0).take len).map (fun x => x % 256)

/-- Modelled from the spec: `sizeof (ikev2_ts_t)`, the 8 octets of a traffic selector in
front of its two addresses. -/
def sizeof_ikev2_ts_t : Nat := 8

/-- The switch of `ikev2_add_ts`: the length of one address and the value of
`ts.ts_length` behind the switch. -/
def ikev2_add_ts_switch (debug : Bool) (type : ikev2_ts_type_t) (start fin : sockaddr_u_t) :
    Except Fault (Nat × Nat) :=
  match type with
  | .IKEV2_TS_IPV4_ADDR_RANGE =>
    if debug = true ∧ ¬ (start.ss_family = sa_family_t.AF_INET) then .error Fault.assertion
    else if debug = true ∧ ¬ (fin.ss_family = sa_family_t.AF_INET) then
      .error Fault.assertion
    else .ok (4, (sizeof_ikev2_ts_t + 2 * 4) % 65536)
  | .IKEV2_TS_IPV6_ADDR_RANGE =>
    if debug = true ∧ ¬ (start.ss_family = sa_family_t.AF_INET6) then .error Fault.assertion
    else if debug = true ∧ ¬ (fin.ss_family = sa_family_t.AF_INET6) then
      .error Fault.assertion
    else .ok (16, (sizeof_ikev2_ts_t + 2 * 16) % 65536)
  | .IKEV2_TS_FC_ADDR_RANGE => .error Fault.invalid

/-- The function `ikev2_add_ts (pkt, type, ip_proto, start, end)` of `ikev2_pkt.c`. The
entry for the selector is pushed on the container stack first, with no finalize callback;
the room is looked at behind the switch. The selector is stored as type, protocol, length
and the two ports (the layout of `ikev2_ts_t` is modelled from the spec), then the two
addresses. -/
def ikev2_add_ts (debug : Bool) (b : build_st) (type : ikev2_ts_type_t) (ip_proto : Nat)
    (start fin : sockaddr_u_t) : Except Fault (Bool × build_st) :=
  if debug = true ∧ ¬ (ip_proto % 256 < 256) then .error Fault.assertion
  else if debug = true ∧ ¬ (start.ss_family = fin.ss_family) then .error Fault.assertion
  else
    let b1 := pkt_stack_push b pkt_stack_item_t.PSI_TS pkt_finish_fn.no_finish 0
    match ikev2_add_ts_switch debug type start fin with
    | .error e => .error e
    | .ok (len, ts_length) =>
      if pkt_write_left b1.pkt < ts_length then .ok (false, b1)
      else
        let ts := [ts_type_id type % 256, ip_proto % 256, ts_length / 256, ts_length % 256,
          start.port / 256 % 256, start.port % 256, fin.port / 256 % 256, fin.port % 256]
        let b2 := PKT_APPEND_DATA b1 ts
        let b3 := PKT_APPEND_DATA b2 (sockaddr_octets start len)
        let b4 := PKT_APPEND_DATA b3 (sockaddr_octets fin len)
        .ok (true, b4)

/-! ## The steps of `ikev2_pkt_decrypt` behind the cipher -/

/-- Lines 1262 to 1282 of `ikev2_pkt_decrypt`: the pad length is read from the octet in
front of the ICV and taken off `datalen` together with its own octet, `datalen -= padlen +
1`, in `CK_ULONG` arithmetic and with no look at what is left. The result is the pad length
and the length that goes on to `pkt_count_payloads`; `none` is the return of `B_FALSE` from
the padding validation. -/
def ikev2_pkt_decrypt_shrink (sa : ikev2_sa_t) (pkt : pkt_t) (fr : sk_open_t) :
    Option (Nat × Nat) :=
  let padlen := rd8 pkt.pkt_raw ((fr.icv + ULONG_MOD - 1) % ULONG_MOD)
  let datalen := (fr.datalen + ULONG_MOD - (padlen + 1)) % ULONG_MOD
  if sa.vendor = VENDOR_ILLUMOS_1 ∧
      pad_validate pkt.pkt_raw ((fr.data + datalen) % ULONG_MOD) padlen = false then
    none
  else some (padlen, datalen)

/-- Lines 1284 to 1326 of `ikev2_pkt_decrypt`: the inner payloads of the `datalen` octets
at `fr.data` are counted and indexed. -/
def ikev2_pkt_decrypt_count (debug : Bool) (st : crypt_st) (fr : sk_open_t) (datalen : Nat) :
    Except Fault (Bool × crypt_st) :=
  let pkt := st.pkt
  let pay_next := rd8 pkt.pkt_raw (fr.iv - sizeof_ike_payload_t)
  let region := rdN pkt.pkt_raw fr.data datalen
  match pkt_count_payloads region datalen pay_next with
  | none => .ok (false, st)
  | some (paycount, ncount) =>
    let paystart := pkt.pkt_payload_count
    let nstart := pkt.pkt_notify_count
    match pkt_size_index pkt (pkt.pkt_payload_count + paycount)
        (pkt.pkt_notify_count + ncount) with
    | none => .ok (false, st)
    | some pkt1 =>
      match pkt_index_payloads pkt1 region fr.data datalen pay_next paystart with
      | none => .ok (false, { st with pkt := pkt1 })
      | some pkt2 =>
        match decrypt_notify_loop debug (List.range pkt2.pkt_payload_count) nstart pkt2 with
        | .error e => .error e
        | .ok pkt3 => .ok (true, { st with pkt := pkt3 })

/-! ## Sample datagrams -/

/-- A 28 octet IKE header with the given next payload, version, exchange type, flags and
total length (below 256); the SPIs are 1..8 and 0, the message id is 0. -/
def sample_header (next version exch flags total : Nat) : List Nat :=
  [1, 2, 3, 4, 5, 6, 7, 8, 0, 0, 0, 0, 0, 0, 0, 0, next, version, exch, flags,
   0, 0, 0, 0, 0, 0, 0, total]

/-- An IKE_AUTH request whose only outer payload is one SK payload with an 8 octet body. -/
def dgram_auth_sk : List Nat :=
  sample_header IKEV2_PAYLOAD_SK IKEV2_VERSION IKEV2_EXCH_IKE_AUTH IKEV2_FLAG_INITIATOR 40 ++
    [0, 0, 0, 12, 9, 9, 9, 9, 9, 9, 9, 9]

/-- An IKE_AUTH request with an outer NOTIFY (no SPI, type 16384) in front of the SK. -/
def dgram_auth_notify_sk : List Nat :=
  sample_header IKEV2_PAYLOAD_NOTIFY IKEV2_VERSION IKEV2_EXCH_IKE_AUTH IKEV2_FLAG_INITIATOR
      48 ++
    [IKEV2_PAYLOAD_SK, 0, 0, 8, 1, 0, 64, 0] ++ [0, 0, 0, 12, 9, 9, 9, 9, 9, 9, 9, 9]

/-- The payload chain SA, KE, NONCE of an IKE_SA_INIT message (bodies of 4 octets). -/
def chain_sa_ke_nonce : List Nat :=
  [IKEV2_PAYLOAD_KE, 0, 0, 8, 0, 0, 0, 0] ++ [IKEV2_PAYLOAD_NONCE, 0, 0, 8, 0, 14, 0, 0] ++
    [0, 0, 0, 8, 7, 7, 7, 7]

/-- An IKE_SA_INIT request with SA, KE and NONCE, header flags and version as given. -/
def dgram_sa_init (version flags : Nat) : List Nat :=
  sample_header IKEV2_PAYLOAD_SA version IKEV2_EXCH_IKE_SA_INIT flags 52 ++ chain_sa_ke_nonce

/-- An IKE_SA_INIT response carrying one NOTIFY (no SPI) and one KE, without SA. -/
def dgram_sa_init_notify_ke : List Nat :=
  sample_header IKEV2_PAYLOAD_NOTIFY IKEV2_VERSION IKEV2_EXCH_IKE_SA_INIT IKEV2_FLAG_RESPONSE
      44 ++
    [IKEV2_PAYLOAD_KE, 0, 0, 8, 1, 0, 0, 17] ++ [0, 0, 0, 8, 0, 14, 0, 0]

/-- An IKE_SA_INIT response carrying nothing but one NOTIFY (no SPI). -/
def dgram_sa_init_notify : List Nat :=
  sample_header IKEV2_PAYLOAD_NOTIFY IKEV2_VERSION IKEV2_EXCH_IKE_SA_INIT IKEV2_FLAG_RESPONSE
      36 ++
    [0, 0, 0, 8, 1, 0, 0, 14]

/-- An IKE_SA_INIT request whose chain is IDi, SA, KE, NONCE. -/
def dgram_sa_init_idi : List Nat :=
  sample_header IKEV2_PAYLOAD_IDi IKEV2_VERSION IKEV2_EXCH_IKE_SA_INIT IKEV2_FLAG_INITIATOR
      60 ++
    [IKEV2_PAYLOAD_SA, 0, 0, 8, 1, 0, 0, 0] ++ chain_sa_ke_nonce

/-- A datagram with the unassigned exchange type 99 whose chain is one payload of the
unknown kind 200. -/
def dgram_unknown_exch : List Nat :=
  sample_header 200 IKEV2_VERSION 99 IKEV2_FLAG_INITIATOR 36 ++ [0, 0, 0, 8, 5, 5, 5, 5]

/-! ## Sample SA, token and outbound packets -/

/-- A token for evaluating the code: every `Init` succeeds, encryption adds the key handle
to every octet and decryption subtracts it, and the signature of a message is its octet
sum plus the key, repeated to the asked length. -/
def toy_token : Token :=
  { C_EncryptInit := fun _ _ => CKR_OK
    C_Encrypt := fun _ key input _ => (CKR_OK, input.map (fun b => (b + key) % 256))
    C_DecryptInit := fun _ _ => CKR_OK
    C_Decrypt := fun _ key input _ => (CKR_OK, input.map (fun b => (b + 256 - key % 256) % 256))
    C_SignInit := fun _ _ => CKR_OK
    C_Sign := fun _ key data n => (CKR_OK, List.replicate n ((data.sum + key) % 256))
    C_VerifyInit := fun _ _ => CKR_OK
    C_Verify := fun _ key data sig =>
      if sig = List.replicate sig.length ((data.sum + key) % 256) then CKR_OK
      else CKR_SIGNATURE_INVALID }

/-- An initiator's SA with the given algorithms, no salt, and key handles 1 to 4. -/
def sample_sa (encr : ikev2_xf_encr_t) (auth : ikev2_xf_auth_t) : ikev2_sa_t :=
  { encr := encr, auth := auth, flags := I2SA_INITIATOR, vendor := VENDOR_ILLUMOS_1,
    salt := [], saltlen := 0, sk_ei := 1, sk_er := 2, sk_ai := 3, sk_ar := 4 }

/-- An outbound IKE_AUTH packet under `sa` in a 128 octet buffer, as it stands when the
SK container is closed: the IKE header, the SK generic header at offset 28 (next payload
IDi), the zeroed IV, and then the octets `inner` of the inner payloads; the cursor is
behind them. -/
def sample_out_pkt (sa : ikev2_sa_t) (inner : List Nat) : pkt_t :=
  let used := sample_header IKEV2_PAYLOAD_SK IKEV2_VERSION IKEV2_EXCH_IKE_AUTH
      IKEV2_FLAG_INITIATOR 0 ++
    [IKEV2_PAYLOAD_IDi, 0, 0, 0] ++ List.replicate (ikev2_encr_iv_size sa.encr) 0 ++ inner
  { pkt_sa := some sa
    pkt_raw := used ++ List.replicate (128 - used.length) 0
    pkt_ptr := used.length
    pkt_header := read_ike_header used
    pkt_payloads := []
    pkt_payload_count := 0
    pkt_notifies := []
    pkt_notify_count := 0 }

/-- An inner IDi payload of 12 octets (ID type 2, the name "a@b.c"). -/
def sample_inner_idi : List Nat := [0, 0, 0, 12, 2, 0, 0, 0, 97, 64, 98, 46]

/-- An inbound IKE_AUTH packet under `sa` as `toy_token` on the sending side would make
it: the IKE header, the SK generic header at offset 28 with next payload `next`, a zero
IV, the octets `plain` (inner payloads, padding and pad-length octet) encrypted, and the
ICV over everything in front of it. The payload index holds the SK payload. -/
def sample_in_pkt (sa : ikev2_sa_t) (next : Nat) (plain : List Nat) : pkt_t :=
  let ivlen := ikev2_encr_iv_size sa.encr
  let icvlen := auth_icv_size_of_auth sa.auth
  let bodylen := ivlen + plain.length + icvlen
  let front := sample_header IKEV2_PAYLOAD_SK IKEV2_VERSION IKEV2_EXCH_IKE_AUTH
      IKEV2_FLAG_INITIATOR (32 + bodylen) ++
    [next, 0, (4 + bodylen) / 256, (4 + bodylen) % 256] ++ List.replicate ivlen 0 ++
    plain.map (fun b => (b + encr_key sa) % 256)
  let raw := front ++ List.replicate icvlen ((front.sum + auth_key sa) % 256)
  { pkt_sa := some sa
    pkt_raw := raw
    pkt_ptr := raw.length
    pkt_header := read_ike_header raw
    pkt_payloads := [⟨IKEV2_PAYLOAD_SK, 32, bodylen⟩]
    pkt_payload_count := 1
    pkt_notifies := []
    pkt_notify_count := 0 }

/-- An inner NOTIFY payload of 8 octets (protocol 1, no SPI, type 16388) that is followed
by a payload of kind `next`. -/
def sample_inner_notify (next : Nat) : List Nat := [next, 0, 0, 8, 1, 0, 64, 4]

/-- An inbound IKE_AUTH packet under `sa` whose SK payload has the octets `body` as they
are: the IKE header, the SK generic header at offset 28 and the body at offset 32. The
payload index holds the SK payload. -/
def sample_in_pkt_body (sa : ikev2_sa_t) (next : Nat) (body : List Nat) : pkt_t :=
  let raw := sample_header IKEV2_PAYLOAD_SK IKEV2_VERSION IKEV2_EXCH_IKE_AUTH
      IKEV2_FLAG_INITIATOR (32 + body.length) ++
    [next, 0, (4 + body.length) / 256, (4 + body.length) % 256] ++ body
  { pkt_sa := some sa
    pkt_raw := raw
    pkt_ptr := raw.length
    pkt_header := read_ike_header raw
    pkt_payloads := [⟨IKEV2_PAYLOAD_SK, 32, body.length⟩]
    pkt_payload_count := 1
    pkt_notifies := []
    pkt_notify_count := 0 }

/-- A token for which every operation succeeds: encryption and decryption leave the octets
as they are, a signature is all zero and every signature verifies. -/
def yes_token : Token :=
  { C_EncryptInit := fun _ _ => CKR_OK
    C_Encrypt := fun _ _ input _ => (CKR_OK, input)
    C_DecryptInit := fun _ _ => CKR_OK
    C_Decrypt := fun _ _ input _ => (CKR_OK, input)
    C_SignInit := fun _ _ => CKR_OK
    C_Sign := fun _ _ _ n => (CKR_OK, List.replicate n 0)
    C_VerifyInit := fun _ _ => CKR_OK
    C_Verify := fun _ _ _ _ => CKR_OK }

/-- The SA of the samples for opening an SK payload: AES-CBC with HMAC-SHA1-96, and the
peer is of our own kind. -/
def sample_sa_cbc : ikev2_sa_t := sample_sa IKEV2_ENCR_AES_CBC IKEV2_XF_AUTH_HMAC_SHA1_96

/-- The inbound packet with one inner IDi payload and three octets of padding, whose last
ICV octet (offset 75) was changed in transit. -/
def sample_tampered_pkt : pkt_t :=
  { sample_in_pkt sample_sa_cbc IKEV2_PAYLOAD_IDi (sample_inner_idi ++ [3, 3, 3, 3]) with
    pkt_raw := wrN (sample_in_pkt sample_sa_cbc IKEV2_PAYLOAD_IDi
      (sample_inner_idi ++ [3, 3, 3, 3])).pkt_raw 75 [0] }

/-- The frame with which `encrypt_payloads` comes to the cipher call for the outbound sample
packet under `sample_sa_cbc` that has no inner payload, the SK header at offset 28. -/
def sample_close_frame : sk_close_t :=
  match encrypt_payloads_to_cipher toy_token true (sample_out_pkt sample_sa_cbc []) 28 with
  | .ok (sk_close_progress.at_cipher fr) => fr
  | _ => ⟨⟨sample_out_pkt sample_sa_cbc [], []⟩, [], 0, 0, 0, 0, 0, 0, 0⟩

/-- The SA of `sample_sa_cbc` with a peer that is not of our own kind. -/
def sample_sa_other : ikev2_sa_t := { sample_sa_cbc with vendor := VENDOR_UNKNOWN }

/-- An inbound packet under `sample_sa_other` as it stands when the cipher has run: behind
the zero IV lie a NOTIFY payload, an IDi payload, eleven padding octets of mixed value
(offsets 68 to 78), the pad length 11 at offset 79, and an ICV of twelve zero octets. -/
def sample_open_pkt : pkt_t :=
  sample_in_pkt_body sample_sa_other IKEV2_PAYLOAD_NOTIFY
    (List.replicate 16 0 ++ sample_inner_notify IKEV2_PAYLOAD_IDi ++ sample_inner_idi ++
      [9, 8, 7, 6, 5, 4, 3, 2, 1, 0, 0, 11] ++ List.replicate 12 0)

/-- The buffer of `sample_open_pkt` with the eleven padding octets set to zero. -/
def sample_repadded_raw : List Nat := wrN sample_open_pkt.pkt_raw 68 (List.replicate 11 0)

/-- The frame of the SK payload of `sample_open_pkt`: IV at 32, region of 32 octets at 48,
ICV at 80. -/
def sample_open_frame : sk_open_t := ⟨32, 16, 48, 32, 80, 12⟩

/-- A fresh outbound IKE_AUTH packet under `sa` with the four message id octets `msgid`: a
buffer of 128 octets that holds the 28 octet IKE header, the cursor is behind the header,
no container is open. -/
def sample_build (sa : ikev2_sa_t) (msgid : List Nat) : build_st :=
  let hdr := [1, 2, 3, 4, 5, 6, 7, 8, 0, 0, 0, 0, 0, 0, 0, 0, 0, IKEV2_VERSION,
    IKEV2_EXCH_IKE_AUTH, IKEV2_FLAG_INITIATOR] ++ msgid ++ [0, 0, 0, 0]
  { pkt :=
      { pkt_sa := some sa
        pkt_raw := hdr ++ List.replicate 100 0
        pkt_ptr := 28
        pkt_header := read_ike_header hdr
        pkt_payloads := []
        pkt_payload_count := 0
        pkt_notifies := []
        pkt_notify_count := 0 }
    stack := []
    next_slot := 16 }

/-- An SA with AES-GCM-16, no integrity algorithm and the four salt octets 9, 8, 7, 6. -/
def sample_sa_gcm : ikev2_sa_t :=
  { sample_sa IKEV2_ENCR_AES_GCM_16 IKEV2_XF_AUTH_NONE with salt := [9, 8, 7, 6], saltlen := 4 }

/-- The state in which `crypt_common` leaves `sample_open_pkt` when it decrypts, under
`sample_sa_gcm` and with `yes_token`, the 32 octets at offset 48 with the IV at offset 32. -/
def sample_gcm_opened : crypt_st :=
  match crypt_common yes_token sample_sa_gcm ⟨sample_open_pkt, []⟩ false 32 16 48 32 16 with
  | .ok r => r.2
  | .error _ => ⟨sample_open_pkt, []⟩

/-- The state in which `encrypt_payloads` leaves the outbound sample packet with no inner
payload under `sample_sa_cbc` (SK header at offset 28) with `toy_token`. -/
def sample_closed : crypt_st :=
  match encrypt_payloads toy_token true (sample_out_pkt sample_sa_cbc []) 28 with
  | .ok r => r.2
  | .error _ => ⟨sample_out_pkt sample_sa_cbc [], []⟩

/-- The state in which `ikev2_pkt_decrypt` leaves the inbound sample packet with one inner
IDi payload and three octets of padding under `sample_sa_cbc` with `toy_token`. -/
def sample_opened : crypt_st :=
  match ikev2_pkt_decrypt toy_token true
    (sample_in_pkt sample_sa_cbc IKEV2_PAYLOAD_IDi (sample_inner_idi ++ [3, 3, 3, 3])) with
  | .ok r => r.2
  | .error _ => ⟨sample_in_pkt sample_sa_cbc IKEV2_PAYLOAD_IDi [], []⟩

/-- An SA with AES-CTR and HMAC-SHA1-96. -/
def sample_sa_ctr : ikev2_sa_t := sample_sa IKEV2_ENCR_AES_CTR IKEV2_XF_AUTH_HMAC_SHA1_96

/-- The fresh packet with the message id octets `msgid` under `sample_sa_ctr` after
`ikev2_add_sk`: the SK container is open at offset 28 and the cursor is at 48. -/
def sample_sk_open (msgid : List Nat) : build_st :=
  match ikev2_add_sk true (sample_build sample_sa_ctr msgid) with
  | .ok r => r.2
  | .error _ => sample_build sample_sa_ctr msgid

/-- The packet of `sample_sk_open msgid` after `encrypt_payloads` closed its SK container
with `toy_token`. -/
def sample_sk_closed (msgid : List Nat) : crypt_st :=
  match encrypt_payloads toy_token true (sample_sk_open msgid).pkt 28 with
  | .ok r => r.2
  | .error _ => ⟨(sample_sk_open msgid).pkt, []⟩

/-- A stand-in for the two operations of `pkt.c` that accounts for room only: a transform
takes 8 octets at the cursor and a TV attribute 4; the octets are left as they are. -/
def room_ops : xf_ops :=
  { pkt_add_xform := fun b _ _ =>
      if pkt_write_left b.pkt < 8 then (false, b)
      else (true, { b with pkt := { b.pkt with pkt_ptr := b.pkt.pkt_ptr + 8 } })
    pkt_add_xform_attr_tv := fun b _ _ =>
      if pkt_write_left b.pkt < 4 then (false, b)
      else (true, { b with pkt := { b.pkt with pkt_ptr := b.pkt.pkt_ptr + 4 } }) }

/-! ## Samples for proposals, selectors and short plaintexts -/

/-- An IKE_SA_INIT request with SA, KE and NONCE followed by two VENDOR payloads and one
CERTREQ payload (bodies of 4 octets). -/
def dgram_sa_init_vendors : List Nat :=
  sample_header IKEV2_PAYLOAD_SA IKEV2_VERSION IKEV2_EXCH_IKE_SA_INIT IKEV2_FLAG_INITIATOR 76 ++
    [IKEV2_PAYLOAD_KE, 0, 0, 8, 0, 0, 0, 0] ++ [IKEV2_PAYLOAD_NONCE, 0, 0, 8, 0, 14, 0, 0] ++
    [IKEV2_PAYLOAD_VENDOR, 0, 0, 8, 7, 7, 7, 7] ++ [IKEV2_PAYLOAD_VENDOR, 0, 0, 8, 1, 1, 1, 1] ++
    [IKEV2_PAYLOAD_CERTREQ, 0, 0, 8, 2, 2, 2, 2] ++ [0, 0, 0, 8, 4, 3, 3, 3]

/-- The cookie of the payload walk over `dgram_sa_init_notify` at its start: an IKE_SA_INIT
exchange, a packet with one free notify slot, all counters 0. -/
def sample_validate_start : validate_data :=
  validate_start
    { pkt_sa := none
      pkt_raw := dgram_sa_init_notify
      pkt_ptr := dgram_sa_init_notify.length
      pkt_header := read_ike_header dgram_sa_init_notify
      pkt_payloads := [⟨IKEV2_PAYLOAD_NOTIFY, 32, 4⟩]
      pkt_payload_count := 1
      pkt_notifies := [⟨0, 0, 0⟩]
      pkt_notify_count := 1 }
    (read_ike_header dgram_sa_init_notify)

/-- A packet under construction with a TSi payload open at offset 100 and 8 octets of room:
`sample_build` under `sample_sa_cbc` with the cursor at offset 120 of its 128 octets. -/
def sample_build_tsp : build_st :=
  let b := sample_build sample_sa_cbc [0, 0, 0, 1]
  { b with
    pkt := { b.pkt with pkt_ptr := 120 }
    stack := [⟨pkt_stack_item_t.PSI_TSP, pkt_finish_fn.ts_finish_fn, 104, 0, 0⟩]
    next_slot := 100 }

/-- The IPv4 address 10.0.0.`last` with port `port`. -/
def sample_sockaddr (last port : Nat) : sockaddr_u_t :=
  ⟨sa_family_t.AF_INET, port, [10, 0, 0, last]⟩

/-- The sample packet under `sample_sa_cbc` after `ikev2_add_sk`: the SK header is at
offset 28, the room for the IV at offsets 32 to 47, the cursor at offset 48. -/
def sample_sk_begun (debug : Bool) : build_st :=
  match ikev2_add_sk debug (sample_build sample_sa_cbc [0, 0, 0, 1]) with
  | .ok r => r.2
  | .error _ => sample_build sample_sa_cbc [0, 0, 0, 1]

/-- The packet of `sample_sk_begun` after `ikev2_add_vendor` with the vendor id octets
`vid`. -/
def sample_sk_vendor (debug : Bool) (vid : List Nat) : build_st :=
  match ikev2_add_vendor debug (sample_sk_begun debug) vid with
  | .ok r => r.2
  | .error _ => sample_sk_begun debug

/-- An inbound IKE_AUTH packet under `sample_sa_other` as `toy_token` on the sending side
would make it, with a plaintext of 16 octets: one inner IDi payload of 12 octets, three
zero octets and 200 as the last octet, where the pad length is read. -/
def sample_short_pkt : pkt_t :=
  sample_in_pkt sample_sa_other IKEV2_PAYLOAD_IDi (sample_inner_idi ++ [0, 0, 0, 200])

/-- The frame of the SK payload of `sample_short_pkt`: IV at 32, region of 16 octets at 48,
ICV at 64. -/
def sample_short_frame : sk_open_t := ⟨32, 16, 48, 16, 64, 12⟩

/-- The state in which the MAC verification and the cipher leave `sample_short_pkt` with
`toy_token`. -/
def sample_short_opened : crypt_st :=
  match ikev2_pkt_decrypt_auth toy_token true sample_sa_other sample_short_pkt
      sample_short_frame with
  | .ok (true, st1) =>
    (match crypt_common toy_token sample_sa_other st1 false 32 16 48 16 12 with
    | .ok r => r.2
    | .error _ => st1)
  | _ => ⟨sample_short_pkt, []⟩

/-- An inbound packet under `sample_sa_cbc`, a peer of our own kind, as it stands when the
cipher has run: an IV whose last octet (offset 47) is 16, a region of 16 octets at offset 48
that is one inner IDi payload, three zero octets and 16 as the last octet, and an ICV of
twelve zero octets. -/
def sample_short_own_pkt : pkt_t :=
  sample_in_pkt_body sample_sa_cbc IKEV2_PAYLOAD_IDi
    (List.replicate 15 0 ++ [16] ++ sample_inner_idi ++ [0, 0, 0, 16] ++ List.replicate 12 0)

set_option maxRecDepth 4000

/-! ## Facts about the walk -/

theorem check_payload_exch (pt resv : Nat) (mem : List Nat) (b bl : Nat) (arg : validate_data) :
    (check_payload pt resv mem b bl arg).2.exch_type = arg.exch_type := by
  unfold check_payload
  dsimp only
  split_ifs <;> rfl

theorem check_payload_counts_other (pt resv : Nat) (mem : List Nat) (b bl : Nat)
    (arg : validate_data) (h : arg.exch_type ≠ IKEV2_EXCH_IKE_SA_INIT) :
    (check_payload pt resv mem b bl arg).2.payload_count = arg.payload_count := by
  unfold check_payload
  dsimp only
  split_ifs <;> rfl

theorem check_payload_counts_init (pt resv : Nat) (mem : List Nat) (b bl : Nat)
    (arg : validate_data) (h : arg.exch_type = IKEV2_EXCH_IKE_SA_INIT)
    (k : Nat) (hk1 : IKEV2_PAYLOAD_MIN ≤ k) (hk2 : k ≤ IKEV2_PAYLOAD_MAX) :
    (check_payload pt resv mem b bl arg).2.payload_count (k - IKEV2_PAYLOAD_MIN) =
      arg.payload_count (k - IKEV2_PAYLOAD_MIN) + (if pt = k then 1 else 0) := by
  have hx : ¬ (arg.exch_type = IKEV2_EXCH_IKE_AUTH ∨
      arg.exch_type = IKEV2_EXCH_CREATE_CHILD_SA ∨
      arg.exch_type = IKEV2_EXCH_INFORMATIONAL) := by
    rw [h]; decide
  unfold check_payload
  dsimp only
  by_cases hr : pt < IKEV2_PAYLOAD_MIN ∨ pt > IKEV2_PAYLOAD_MAX
  · have hne : pt ≠ k := by
      rcases hr with hr | hr <;> omega
    rw [if_pos hr, if_neg hne]; rfl
  · have hr1 : IKEV2_PAYLOAD_MIN ≤ pt := by omega
    rw [if_neg hr, if_neg hx, if_pos h]
    by_cases hpk : pt = k
    · subst hpk
      rw [if_pos rfl]
      split_ifs <;> simp [Function.update]
    · have hidx : k - IKEV2_PAYLOAD_MIN ≠ pt - IKEV2_PAYLOAD_MIN := by omega
      rw [if_neg hpk]
      split_ifs <;> simp [Function.update, hidx]

theorem pkt_payload_walk_loop_total {σ : Type}
    (cb : Nat → Nat → List Nat → Nat → Nat → σ → pkt_walk_ret_t × σ) :
    ∀ (fuel : Nat) (mem : List Nat) (off len pt : Nat) (c : σ), len < fuel →
      ∃ r, pkt_payload_walk_loop cb fuel mem off len pt c = some r := by
  intro fuel
  induction fuel with
  | zero => intro mem off len pt c h; omega
  | succ n ih =>
    intro mem off len pt c h
    rw [pkt_payload_walk_loop]
    dsimp only
    by_cases h1 : pt = IKEV2_PAYLOAD_NONE
    · rw [if_pos h1]; exact ⟨_, rfl⟩
    rw [if_neg h1]
    by_cases h2 : len < sizeof_ike_payload_t
    · rw [if_pos h2]; exact ⟨_, rfl⟩
    rw [if_neg h2]
    by_cases h3 : rd16 mem (off + 2) < sizeof_ike_payload_t ∨ rd16 mem (off + 2) > len
    · rw [if_pos h3]; exact ⟨_, rfl⟩
    rw [if_neg h3]
    rcases hcb : cb pt (rd8 mem (off + 1)) mem (off + sizeof_ike_payload_t)
        (rd16 mem (off + 2) - sizeof_ike_payload_t) c with ⟨r, c1⟩
    cases r with
    | PKT_WALK_OK =>
      dsimp only
      apply ih
      have : sizeof_ike_payload_t = 4 := rfl
      omega
    | PKT_WALK_ERROR => exact ⟨_, rfl⟩

theorem walk_counts_other :
    ∀ (fuel : Nat) (mem : List Nat) (off len pt : Nat) (arg : validate_data)
      (r : pkt_walk_ret_t) (arg1 : validate_data),
      arg.exch_type ≠ IKEV2_EXCH_IKE_SA_INIT →
      pkt_payload_walk_loop check_payload fuel mem off len pt arg = some (r, arg1) →
      arg1.payload_count = arg.payload_count ∧ arg1.exch_type = arg.exch_type := by
  intro fuel
  induction fuel with
  | zero => intro mem off len pt arg r arg1 _ h; simp [pkt_payload_walk_loop] at h
  | succ n ih =>
    intro mem off len pt arg r arg1 hx h
    rw [pkt_payload_walk_loop] at h
    dsimp only at h
    by_cases h1 : pt = IKEV2_PAYLOAD_NONE
    · rw [if_pos h1] at h; cases h; exact ⟨rfl, rfl⟩
    rw [if_neg h1] at h
    by_cases h2 : len < sizeof_ike_payload_t
    · rw [if_pos h2] at h; cases h; exact ⟨rfl, rfl⟩
    rw [if_neg h2] at h
    by_cases h3 : rd16 mem (off + 2) < sizeof_ike_payload_t ∨ rd16 mem (off + 2) > len
    · rw [if_pos h3] at h; cases h; exact ⟨rfl, rfl⟩
    rw [if_neg h3] at h
    have he := check_payload_exch pt (rd8 mem (off + 1)) mem (off + sizeof_ike_payload_t)
      (rd16 mem (off + 2) - sizeof_ike_payload_t) arg
    have hc := check_payload_counts_other pt (rd8 mem (off + 1)) mem
      (off + sizeof_ike_payload_t) (rd16 mem (off + 2) - sizeof_ike_payload_t) arg hx
    rcases hcb : check_payload pt (rd8 mem (off + 1)) mem (off + sizeof_ike_payload_t)
        (rd16 mem (off + 2) - sizeof_ike_payload_t) arg with ⟨r0, c1⟩
    rw [hcb] at h he hc
    dsimp only at he hc
    cases r0 with
    | PKT_WALK_OK =>
      dsimp only at h
      have := ih _ _ _ _ _ _ _ (by rw [he]; exact hx) h
      exact ⟨this.1.trans hc, this.2.trans he⟩
    | PKT_WALK_ERROR =>
      dsimp only at h
      cases h
      exact ⟨hc, he⟩

theorem walk_counts_init :
    ∀ (fuel : Nat) (mem : List Nat) (off len pt : Nat) (arg arg1 : validate_data),
      arg.exch_type = IKEV2_EXCH_IKE_SA_INIT →
      pkt_payload_walk_loop check_payload fuel mem off len pt arg = some (PKT_WALK_OK, arg1) →
      arg1.exch_type = IKEV2_EXCH_IKE_SA_INIT ∧
      ∀ k, IKEV2_PAYLOAD_MIN ≤ k → k ≤ IKEV2_PAYLOAD_MAX →
        arg1.payload_count (k - IKEV2_PAYLOAD_MIN) =
          arg.payload_count (k - IKEV2_PAYLOAD_MIN) +
            ((chain_links_loop fuel mem off len pt).map pkt_payload_t.pp_type).count k := by
  intro fuel
  induction fuel with
  | zero => intro mem off len pt arg arg1 _ h; simp [pkt_payload_walk_loop] at h
  | succ n ih =>
    intro mem off len pt arg arg1 hx h
    rw [pkt_payload_walk_loop] at h
    rw [chain_links_loop]
    dsimp only at h ⊢
    by_cases h1 : pt = IKEV2_PAYLOAD_NONE
    · rw [if_pos h1] at h ⊢
      simp only [Option.some.injEq, Prod.mk.injEq] at h
      obtain ⟨_, rfl⟩ := h
      exact ⟨hx, fun k _ _ => by simp⟩
    rw [if_neg h1] at h ⊢
    by_cases h2 : len < sizeof_ike_payload_t
    · rw [if_pos h2] at h; cases h
    rw [if_neg h2] at h ⊢
    by_cases h3 : rd16 mem (off + 2) < sizeof_ike_payload_t ∨ rd16 mem (off + 2) > len
    · rw [if_pos h3] at h; cases h
    rw [if_neg h3] at h ⊢
    have he := check_payload_exch pt (rd8 mem (off + 1)) mem (off + sizeof_ike_payload_t)
      (rd16 mem (off + 2) - sizeof_ike_payload_t) arg
    have hc := check_payload_counts_init pt (rd8 mem (off + 1)) mem
      (off + sizeof_ike_payload_t) (rd16 mem (off + 2) - sizeof_ike_payload_t) arg hx
    rcases hcb : check_payload pt (rd8 mem (off + 1)) mem (off + sizeof_ike_payload_t)
        (rd16 mem (off + 2) - sizeof_ike_payload_t) arg with ⟨r0, c1⟩
    rw [hcb] at h he hc
    dsimp only at he hc
    cases r0 with
    | PKT_WALK_OK =>
      dsimp only at h
      obtain ⟨hx1, hcnt⟩ := ih _ _ _ _ _ _ (by rw [he]; exact hx) h
      refine ⟨hx1, fun k hk1 hk2 => ?_⟩
      rw [hcnt k hk1 hk2, hc k hk1 hk2, List.map_cons, List.count_cons]
      simp only [beq_iff_eq]
      omega
    | PKT_WALK_ERROR =>
      dsimp only at h
      cases h

theorem check_payload_cleartext (pt resv : Nat) (mem : List Nat) (b bl : Nat)
    (arg : validate_data)
    (h : arg.exch_type = IKEV2_EXCH_IKE_AUTH ∨ arg.exch_type = IKEV2_EXCH_CREATE_CHILD_SA ∨
      arg.exch_type = IKEV2_EXCH_INFORMATIONAL) :
    check_payload pt resv mem b bl arg =
      (if IKEV2_PAYLOAD_MIN ≤ pt ∧ pt ≤ IKEV2_PAYLOAD_MAX ∧ pt ≠ IKEV2_PAYLOAD_SK
        then PKT_WALK_ERROR else PKT_WALK_OK, arg) := by
  unfold check_payload
  dsimp only
  by_cases hr : pt < IKEV2_PAYLOAD_MIN ∨ pt > IKEV2_PAYLOAD_MAX
  · rw [if_pos hr, if_neg (by omega)]
  · rw [if_neg hr, if_pos h]
    by_cases hs : pt = IKEV2_PAYLOAD_SK
    · rw [if_neg (by simpa using hs), if_neg (by simp [hs])]
    · rw [if_pos hs, if_pos ⟨by omega, by omega, hs⟩]

theorem walk_rejects_cleartext :
    ∀ (fuel : Nat) (mem : List Nat) (off len pt : Nat) (arg : validate_data)
      (r : pkt_walk_ret_t) (arg1 : validate_data),
      (arg.exch_type = IKEV2_EXCH_IKE_AUTH ∨ arg.exch_type = IKEV2_EXCH_CREATE_CHILD_SA ∨
        arg.exch_type = IKEV2_EXCH_INFORMATIONAL) →
      (∃ k ∈ (chain_links_loop fuel mem off len pt).map pkt_payload_t.pp_type,
        IKEV2_PAYLOAD_MIN ≤ k ∧ k ≤ IKEV2_PAYLOAD_MAX ∧ k ≠ IKEV2_PAYLOAD_SK) →
      pkt_payload_walk_loop check_payload fuel mem off len pt arg = some (r, arg1) →
      r = PKT_WALK_ERROR := by
  intro fuel
  induction fuel with
  | zero => intro mem off len pt arg r arg1 _ _ h; simp [pkt_payload_walk_loop] at h
  | succ n ih =>
    intro mem off len pt arg r arg1 hx hk h
    rw [pkt_payload_walk_loop] at h
    rw [chain_links_loop] at hk
    dsimp only at h hk
    by_cases h1 : pt = IKEV2_PAYLOAD_NONE
    · rw [if_pos h1] at hk; simp at hk
    rw [if_neg h1] at h hk
    by_cases h2 : len < sizeof_ike_payload_t
    · rw [if_pos h2] at h; cases h; rfl
    rw [if_neg h2] at h hk
    by_cases h3 : rd16 mem (off + 2) < sizeof_ike_payload_t ∨ rd16 mem (off + 2) > len
    · rw [if_pos h3] at h; cases h; rfl
    rw [if_neg h3] at h hk
    rw [check_payload_cleartext _ _ _ _ _ _ hx] at h
    by_cases hb : IKEV2_PAYLOAD_MIN ≤ pt ∧ pt ≤ IKEV2_PAYLOAD_MAX ∧ pt ≠ IKEV2_PAYLOAD_SK
    · rw [if_pos hb] at h
      dsimp only at h
      cases h; rfl
    · rw [if_neg hb] at h
      dsimp only at h
      obtain ⟨k, hkm, hk1, hk2, hk3⟩ := hk
      rw [List.map_cons, List.mem_cons] at hkm
      rcases hkm with hkm | hkm
      · have hkp : k = pt := hkm
        subst hkp
        exact absurd ⟨hk1, hk2, hk3⟩ hb
      · exact ih _ _ _ _ _ _ _ hx ⟨k, hkm, hk1, hk2, hk3⟩ h

theorem sa_init_loop_iff (counts : Nat → Nat) :
    sa_init_loop counts = true ↔
      (∀ k ∈ sa_init_never, PAYCOUNT counts k = 0) ∧
      (PAYCOUNT counts IKEV2_PAYLOAD_SA = 1 ∨ 0 < PAYCOUNT counts IKEV2_PAYLOAD_NOTIFY) ∧
      (if PAYCOUNT counts IKEV2_PAYLOAD_KE = 1 then PAYCOUNT counts IKEV2_PAYLOAD_SA = 1
        else 0 < PAYCOUNT counts IKEV2_PAYLOAD_NOTIFY) ∧
      (if PAYCOUNT counts IKEV2_PAYLOAD_NONCE = 1 then PAYCOUNT counts IKEV2_PAYLOAD_SA = 1
        else 0 < PAYCOUNT counts IKEV2_PAYLOAD_NOTIFY) := by
  simp only [sa_init_loop, IKEV2_NUM_PAYLOADS, IKEV2_PAYLOAD_MIN, IKEV2_PAYLOAD_MAX,
    IKEV2_PAYLOAD_SA, IKEV2_PAYLOAD_GSPM, List.range', List.all_cons, List.all_nil,
    sa_init_switch, sa_init_never, HAS_NOTIFY, PAYCOUNT, IKEV2_PAYLOAD_KE,
    IKEV2_PAYLOAD_IDi, IKEV2_PAYLOAD_IDr, IKEV2_PAYLOAD_CERT, IKEV2_PAYLOAD_CERTREQ,
    IKEV2_PAYLOAD_AUTH, IKEV2_PAYLOAD_NONCE, IKEV2_PAYLOAD_NOTIFY, IKEV2_PAYLOAD_DELETE,
    IKEV2_PAYLOAD_VENDOR, IKEV2_PAYLOAD_TSi, IKEV2_PAYLOAD_TSr, IKEV2_PAYLOAD_SK,
    IKEV2_PAYLOAD_CP, IKEV2_PAYLOAD_EAP]
  norm_num
  by_cases h1 : counts 1 = 1 <;> by_cases h7 : counts 7 = 1 <;>
    simp only [h1, h7, if_true, if_false] <;> omega

theorem pkt_payload_walk_ok {σ : Type}
    (cb : Nat → Nat → List Nat → Nat → Nat → σ → pkt_walk_ret_t × σ)
    (mem : List Nat) (data len first : Nat) (c c1 : σ)
    (h : pkt_payload_walk mem data len cb first c = (PKT_WALK_OK, c1)) :
    pkt_payload_walk_loop cb (len + 1) mem data len first c = some (PKT_WALK_OK, c1) := by
  unfold pkt_payload_walk at h
  cases hl : pkt_payload_walk_loop cb (len + 1) mem data len first c with
  | none => rw [hl] at h; cases h
  | some r => rw [hl] at h; dsimp only at h; rw [h]

theorem pkt_payload_walk_eq {σ : Type}
    (cb : Nat → Nat → List Nat → Nat → Nat → σ → pkt_walk_ret_t × σ)
    (mem : List Nat) (data len first : Nat) (c : σ) :
    pkt_payload_walk_loop cb (len + 1) mem data len first c =
      some (pkt_payload_walk mem data len cb first c) := by
  obtain ⟨r, hr⟩ := pkt_payload_walk_loop_total cb (len + 1) mem data len first c
    (Nat.lt_succ_self len)
  unfold pkt_payload_walk
  rw [hr]

theorem inbound_walk_counts_init (buf : List Nat) (pkt : pkt_t) (arg : validate_data)
    (hexch : (read_ike_header buf).exch_type = IKEV2_EXCH_IKE_SA_INIT)
    (hwalk : inbound_walk buf pkt = (PKT_WALK_OK, arg)) :
    arg.exch_type = IKEV2_EXCH_IKE_SA_INIT ∧
    ∀ k, IKEV2_PAYLOAD_MIN ≤ k → k ≤ IKEV2_PAYLOAD_MAX →
      PAYCOUNT arg.payload_count k = (outer_kinds buf).count k := by
  have h := pkt_payload_walk_ok _ _ _ _ _ _ _ hwalk
  obtain ⟨h1, h2⟩ := walk_counts_init _ _ _ _ _ _ _ hexch h
  refine ⟨h1, fun k hk1 hk2 => ?_⟩
  have := h2 k hk1 hk2
  simpa [PAYCOUNT, validate_start, outer_kinds, outer_links, read_ike_header] using this

theorem inbound_walk_counts_other (buf : List Nat) (pkt : pkt_t)
    (hexch : (read_ike_header buf).exch_type ≠ IKEV2_EXCH_IKE_SA_INIT) :
    (inbound_walk buf pkt).2.payload_count = (fun _ => 0) ∧
    (inbound_walk buf pkt).2.exch_type = (read_ike_header buf).exch_type := by
  have h := pkt_payload_walk_eq check_payload buf sizeof_ike_header_t
    (buf.length - sizeof_ike_header_t) (read_ike_header buf).next_payload
    (validate_start pkt (read_ike_header buf))
  exact walk_counts_other _ _ _ _ _ _ _ _ hexch h

theorem inbound_walk_cleartext (buf : List Nat) (pkt : pkt_t)
    (hexch : (read_ike_header buf).exch_type = IKEV2_EXCH_IKE_AUTH ∨
      (read_ike_header buf).exch_type = IKEV2_EXCH_CREATE_CHILD_SA ∨
      (read_ike_header buf).exch_type = IKEV2_EXCH_INFORMATIONAL)
    (hk : ∃ k ∈ outer_kinds buf,
      IKEV2_PAYLOAD_MIN ≤ k ∧ k ≤ IKEV2_PAYLOAD_MAX ∧ k ≠ IKEV2_PAYLOAD_SK) :
    (inbound_walk buf pkt).1 = PKT_WALK_ERROR := by
  have h := pkt_payload_walk_eq check_payload buf sizeof_ike_header_t
    (buf.length - sizeof_ike_header_t) (read_ike_header buf).next_payload
    (validate_start pkt (read_ike_header buf))
  exact walk_rejects_cleartext _ _ _ _ _ _ _ _ hexch hk h

/-- What `ikev2_pkt_new_inbound` does once the header tests are behind it and the packet
is allocated: the walk and the switch on the exchange type. -/
theorem ikev2_pkt_new_inbound_eq (alloc : List Nat → Option pkt_t) (debug : Bool)
    (buf : List Nat) (pkt : pkt_t)
    (hver : version_assert_holds debug buf) (hflags : flags_pass buf) (halloc : alloc buf = some pkt) :
    ikev2_pkt_new_inbound alloc debug buf =
      match inbound_walk buf pkt with
      | (PKT_WALK_ERROR, _) => .ok none
      | (PKT_WALK_OK, arg) =>
        if arg.exch_type = IKEV2_EXCH_IKE_AUTH ∨
            arg.exch_type = IKEV2_EXCH_CREATE_CHILD_SA ∨
            arg.exch_type = IKEV2_EXCH_INFORMATIONAL then
          if PAYCOUNT arg.payload_count IKEV2_PAYLOAD_SK = 1 then .ok (some arg.pkt)
          else .ok none
        else if arg.exch_type = IKEV2_EXCH_IKE_SESSION_RESUME then
          .error Fault.invalid
        else if sa_init_loop arg.payload_count = true then .ok (some arg.pkt)
        else .ok none := by
  unfold ikev2_pkt_new_inbound
  unfold version_assert_holds version_is_v2 at hver
  unfold flags_pass at hflags
  dsimp only
  rw [if_neg (fun hc => hc.2 (hver hc.1)), if_neg hflags, halloc]

theorem ikev2_pkt_new_inbound_null_of_not_pass (alloc : List Nat → Option pkt_t)
    (debug : Bool) (buf : List Nat) (hver : version_assert_holds debug buf) (hflags : ¬ flags_pass buf) :
    ikev2_pkt_new_inbound alloc debug buf = .ok none := by
  unfold ikev2_pkt_new_inbound
  unfold version_assert_holds version_is_v2 at hver
  unfold flags_pass at hflags
  dsimp only
  rw [if_neg (fun hc => hc.2 (hver hc.1)), if_pos (by simpa using hflags)]

theorem ikev2_pkt_new_inbound_null_of_alloc (alloc : List Nat → Option pkt_t)
    (debug : Bool) (buf : List Nat) (hver : version_assert_holds debug buf) (halloc : alloc buf = none) :
    ikev2_pkt_new_inbound alloc debug buf = .ok none := by
  unfold ikev2_pkt_new_inbound
  unfold version_assert_holds version_is_v2 at hver
  dsimp only
  rw [if_neg (fun hc => hc.2 (hver hc.1)), halloc]
  split_ifs <;> rfl

theorem both_flags_fail_test (f : Nat) (hf : f < 256)
    (hi : f &&& IKEV2_FLAG_INITIATOR ≠ 0) (hr : f &&& IKEV2_FLAG_RESPONSE ≠ 0) :
    (f &&& (IKEV2_FLAG_INITIATOR ||| IKEV2_FLAG_RESPONSE)) ^^^
      (IKEV2_FLAG_INITIATOR ||| IKEV2_FLAG_RESPONSE) = 0 := by
  revert hi hr
  revert f
  decide

/-- The half of the flags rule that the code does enforce: a header with both INITIATOR
and RESPONSE set gives NULL. -/
theorem both_flags_set_is_discarded (alloc : List Nat → Option pkt_t) (debug : Bool)
    (buf : List Nat) (hver : version_assert_holds debug buf)
    (hi : (read_ike_header buf).flags &&& IKEV2_FLAG_INITIATOR ≠ 0)
    (hr : (read_ike_header buf).flags &&& IKEV2_FLAG_RESPONSE ≠ 0) :
    ikev2_pkt_new_inbound alloc debug buf = .ok none := by
  apply ikev2_pkt_new_inbound_null_of_not_pass alloc debug buf hver
  have hlt : (read_ike_header buf).flags < 256 := Nat.mod_lt _ (by decide)
  have := both_flags_fail_test _ hlt hi hr
  simpa [flags_pass] using this

/-- In the exchanges whose payloads are all inside SK, `check_payload` never counts a
payload, so the test `PAYCOUNT(counts, IKEV2_PAYLOAD_SK) == 1` cannot pass: no datagram of
an IKE_AUTH, CREATE_CHILD_SA or INFORMATIONAL exchange is ever returned as a packet. -/
theorem encrypted_exchange_never_accepted (alloc : List Nat → Option pkt_t) (debug : Bool)
    (buf : List Nat)
    (hexch : (read_ike_header buf).exch_type = IKEV2_EXCH_IKE_AUTH ∨
      (read_ike_header buf).exch_type = IKEV2_EXCH_CREATE_CHILD_SA ∨
      (read_ike_header buf).exch_type = IKEV2_EXCH_INFORMATIONAL) :
    ¬ Accepted (ikev2_pkt_new_inbound alloc debug buf) := by
  have h1 : (read_ike_header buf).exch_type ≠ IKEV2_EXCH_IKE_SA_INIT := by
    rcases hexch with h | h | h <;> rw [h] <;> decide
  rintro ⟨p, hp⟩
  unfold ikev2_pkt_new_inbound at hp
  dsimp only at hp
  split_ifs at hp with ha hb
  · cases hp
  · cases halloc : alloc buf with
    | none => rw [halloc] at hp; cases hp
    | some pkt =>
      rw [halloc] at hp
      dsimp only at hp
      obtain ⟨hc, hx⟩ := inbound_walk_counts_other buf pkt h1
      rcases hiw : inbound_walk buf pkt with ⟨r, arg⟩
      rw [hiw] at hp hc hx
      dsimp only at hc hx
      cases r with
      | PKT_WALK_ERROR => cases hp
      | PKT_WALK_OK =>
        dsimp only at hp
        rw [if_pos (by rw [hx]; exact hexch), hc] at hp
        rw [if_neg (by decide)] at hp
        cases hp

/-! ## Claims about inbound validation -/

/-- C1, at a failing input. The IKE_AUTH datagram `dgram_auth_sk` is well formed and its
outer chain is exactly one SK payload, yet `ikev2_pkt_new_inbound` returns NULL in both
build flavours: `check_payload` returns for SK before it reaches the counter update, so
the count tested against 1 is still 0. -/
theorem c1_single_sk_is_discarded :
    version_is_v2 dgram_auth_sk ∧ flags_pass dgram_auth_sk ∧
    (read_ike_header dgram_auth_sk).exch_type = IKEV2_EXCH_IKE_AUTH ∧
    outer_kinds dgram_auth_sk = [IKEV2_PAYLOAD_SK] ∧
    (∃ pkt, pkt_in_alloc dgram_auth_sk = some pkt ∧
      (inbound_walk dgram_auth_sk pkt).1 = PKT_WALK_OK ∧
      PAYCOUNT (inbound_walk dgram_auth_sk pkt).2.payload_count IKEV2_PAYLOAD_SK = 0) ∧
    ikev2_pkt_new_inbound pkt_in_alloc true dgram_auth_sk = .ok none ∧
    ikev2_pkt_new_inbound pkt_in_alloc false dgram_auth_sk = .ok none := by
  refine ⟨by decide, by decide, by decide, by decide, ⟨_, rfl, by decide, by decide⟩, rfl, rfl⟩

/-- C2. For an IKE_AUTH, CREATE_CHILD_SA or INFORMATIONAL datagram whose outer chain has a
payload of a kind in `[MIN..MAX]` other than SK, `ikev2_pkt_new_inbound` returns NULL
(the version `ASSERT` aside: major version 2 wherever assertions are compiled in), and
whenever the packet could be allocated it is the payload walk that fails. -/
theorem c2_cleartext_payload_is_discarded (alloc : List Nat → Option pkt_t) (debug : Bool)
    (buf : List Nat) (hver : version_assert_holds debug buf)
    (hexch : (read_ike_header buf).exch_type = IKEV2_EXCH_IKE_AUTH ∨
      (read_ike_header buf).exch_type = IKEV2_EXCH_CREATE_CHILD_SA ∨
      (read_ike_header buf).exch_type = IKEV2_EXCH_INFORMATIONAL)
    (hk : ∃ k ∈ outer_kinds buf,
      IKEV2_PAYLOAD_MIN ≤ k ∧ k ≤ IKEV2_PAYLOAD_MAX ∧ k ≠ IKEV2_PAYLOAD_SK) :
    ikev2_pkt_new_inbound alloc debug buf = .ok none ∧
    ∀ pkt, alloc buf = some pkt → (inbound_walk buf pkt).1 = PKT_WALK_ERROR := by
  refine ⟨?_, fun pkt _ => inbound_walk_cleartext buf pkt hexch hk⟩
  by_cases hflags : flags_pass buf
  · cases halloc : alloc buf with
    | none => exact ikev2_pkt_new_inbound_null_of_alloc alloc debug buf hver halloc
    | some pkt =>
      rw [ikev2_pkt_new_inbound_eq alloc debug buf pkt hver hflags halloc]
      have hw := inbound_walk_cleartext buf pkt hexch hk
      rcases hiw : inbound_walk buf pkt with ⟨r, arg⟩
      rw [hiw] at hw
      dsimp only at hw
      subst hw
      rfl
  · exact ikev2_pkt_new_inbound_null_of_not_pass alloc debug buf hver hflags

/-- Witness of C2: the IKE_AUTH datagram with a NOTIFY in front of its SK. -/
theorem c2_cleartext_payload_is_discarded_witness :
    ikev2_pkt_new_inbound pkt_in_alloc true dgram_auth_notify_sk = .ok none ∧
    ∀ pkt, pkt_in_alloc dgram_auth_notify_sk = some pkt →
      (inbound_walk dgram_auth_notify_sk pkt).1 = PKT_WALK_ERROR :=
  c2_cleartext_payload_is_discarded pkt_in_alloc true dgram_auth_notify_sk (by decide)
    (Or.inl (by decide)) ⟨IKEV2_PAYLOAD_NOTIFY, by decide, by decide, by decide, by decide⟩

/-- C3, at a failing input. The IKE_SA_INIT datagram `dgram_sa_init IKEV2_VERSION 0` has
neither INITIATOR nor RESPONSE set in its header flags, and `ikev2_pkt_new_inbound` returns
it as a packet in both build flavours: the test `(flags ^ (I|R)) == 0` only catches the
header with both flags set. -/
theorem c3_neither_flag_is_accepted :
    (read_ike_header (dgram_sa_init IKEV2_VERSION 0)).flags &&& IKEV2_FLAG_INITIATOR = 0 ∧
    (read_ike_header (dgram_sa_init IKEV2_VERSION 0)).flags &&& IKEV2_FLAG_RESPONSE = 0 ∧
    Accepted (ikev2_pkt_new_inbound pkt_in_alloc true (dgram_sa_init IKEV2_VERSION 0)) ∧
    Accepted (ikev2_pkt_new_inbound pkt_in_alloc false (dgram_sa_init IKEV2_VERSION 0)) :=
  ⟨by decide, by decide, ⟨_, rfl⟩, ⟨_, rfl⟩⟩

/-- C4. For an IKE_SA_INIT datagram that gets through the payload walk (version `ASSERT`
and flags test passed, packet allocated, walk OK) and has no NOTIFY and none of the
payload kinds that are never allowed, `ikev2_pkt_new_inbound` returns the packet if and
only if the chain has exactly one SA, exactly one KE and exactly one NONCE. -/
theorem c4_sa_init_without_notify (alloc : List Nat → Option pkt_t) (debug : Bool)
    (buf : List Nat) (pkt : pkt_t)
    (hver : version_assert_holds debug buf) (hflags : flags_pass buf)
    (hexch : (read_ike_header buf).exch_type = IKEV2_EXCH_IKE_SA_INIT)
    (halloc : alloc buf = some pkt)
    (hwalk : (inbound_walk buf pkt).1 = PKT_WALK_OK)
    (hnotify : IKEV2_PAYLOAD_NOTIFY ∉ outer_kinds buf)
    (hnever : ∀ k ∈ sa_init_never, k ∉ outer_kinds buf) :
    Accepted (ikev2_pkt_new_inbound alloc debug buf) ↔
      (outer_kinds buf).count IKEV2_PAYLOAD_SA = 1 ∧
      (outer_kinds buf).count IKEV2_PAYLOAD_KE = 1 ∧
      (outer_kinds buf).count IKEV2_PAYLOAD_NONCE = 1 := by
  rw [ikev2_pkt_new_inbound_eq alloc debug buf pkt hver hflags halloc]
  rcases hiw : inbound_walk buf pkt with ⟨r, arg⟩
  rw [hiw] at hwalk
  dsimp only at hwalk
  subst hwalk
  obtain ⟨hx, hc⟩ := inbound_walk_counts_init buf pkt arg hexch hiw
  dsimp only
  rw [if_neg (by rw [hx]; decide), if_neg (by rw [hx]; decide)]
  have hloop := sa_init_loop_iff arg.payload_count
  have hzero : ∀ k ∈ sa_init_never, PAYCOUNT arg.payload_count k = 0 := by
    intro k hk
    have hk' := hk
    simp only [sa_init_never, List.mem_cons, List.mem_singleton, List.mem_nil_iff,
      or_false] at hk'
    rw [hc k (by rcases hk' with h | h | h | h | h | h | h | h | h | h | h <;> rw [h] <;> decide)
      (by rcases hk' with h | h | h | h | h | h | h | h | h | h | h <;> rw [h] <;> decide)]
    exact List.count_eq_zero_of_not_mem (hnever k hk)
  have hn : PAYCOUNT arg.payload_count IKEV2_PAYLOAD_NOTIFY = 0 := by
    rw [hc _ (by decide) (by decide)]
    exact List.count_eq_zero_of_not_mem hnotify
  rw [hc _ (by decide) (by decide)] at hloop
  rw [hc IKEV2_PAYLOAD_KE (by decide) (by decide)] at hloop
  rw [hc IKEV2_PAYLOAD_NONCE (by decide) (by decide)] at hloop
  rw [hn] at hloop
  constructor
  · rintro ⟨p, hp⟩
    by_cases hl : sa_init_loop arg.payload_count = true
    · obtain ⟨_, h1, h2, h3⟩ := hloop.mp hl
      have hsa : List.count IKEV2_PAYLOAD_SA (outer_kinds buf) = 1 := by omega
      refine ⟨hsa, ?_, ?_⟩
      · by_contra hke
        rw [if_neg hke] at h2
        omega
      · by_contra hno
        rw [if_neg hno] at h3
        omega
    · rw [if_neg hl] at hp
      cases hp
  · rintro ⟨h1, h2, h3⟩
    have hl : sa_init_loop arg.payload_count = true := by
      rw [hloop]
      refine ⟨hzero, Or.inl h1, ?_, ?_⟩
      · rw [if_pos h2]; exact h1
      · rw [if_pos h3]; exact h1
    rw [if_pos hl]
    exact ⟨_, rfl⟩

/-- Witness of C4: the IKE_SA_INIT request with SA, KE and NONCE. -/
theorem c4_sa_init_without_notify_witness :
    Accepted (ikev2_pkt_new_inbound pkt_in_alloc true
        (dgram_sa_init IKEV2_VERSION IKEV2_FLAG_INITIATOR)) ↔
      (outer_kinds (dgram_sa_init IKEV2_VERSION IKEV2_FLAG_INITIATOR)).count
          IKEV2_PAYLOAD_SA = 1 ∧
      (outer_kinds (dgram_sa_init IKEV2_VERSION IKEV2_FLAG_INITIATOR)).count
          IKEV2_PAYLOAD_KE = 1 ∧
      (outer_kinds (dgram_sa_init IKEV2_VERSION IKEV2_FLAG_INITIATOR)).count
          IKEV2_PAYLOAD_NONCE = 1 :=
  c4_sa_init_without_notify pkt_in_alloc true (dgram_sa_init IKEV2_VERSION IKEV2_FLAG_INITIATOR)
    _ (by decide) (by decide) (by decide) rfl (by decide) (by decide) (by decide)

/-- C5 as stated fails. The IKE_SA_INIT datagram `dgram_sa_init_notify_ke` gets through
the payload walk, holds one NOTIFY and one KE, no SA and none of the kinds that are never
allowed, and `ikev2_pkt_new_inbound` returns NULL for it in both build flavours. -/
theorem c5_notify_with_single_ke_is_discarded :
    version_is_v2 dgram_sa_init_notify_ke ∧ flags_pass dgram_sa_init_notify_ke ∧
    (read_ike_header dgram_sa_init_notify_ke).exch_type = IKEV2_EXCH_IKE_SA_INIT ∧
    (∃ pkt, pkt_in_alloc dgram_sa_init_notify_ke = some pkt ∧
      (inbound_walk dgram_sa_init_notify_ke pkt).1 = PKT_WALK_OK) ∧
    outer_kinds dgram_sa_init_notify_ke = [IKEV2_PAYLOAD_NOTIFY, IKEV2_PAYLOAD_KE] ∧
    (∀ k ∈ sa_init_never, k ∉ outer_kinds dgram_sa_init_notify_ke) ∧
    ikev2_pkt_new_inbound pkt_in_alloc true dgram_sa_init_notify_ke = .ok none ∧
    ikev2_pkt_new_inbound pkt_in_alloc false dgram_sa_init_notify_ke = .ok none :=
  ⟨by decide, by decide, by decide, ⟨_, rfl, by decide⟩, by decide, by decide, rfl, rfl⟩

/-- C5 as amended. For an IKE_SA_INIT datagram that gets through the payload walk, has at
least one NOTIFY and none of the payload kinds that are never allowed,
`ikev2_pkt_new_inbound` returns the packet if and only if a KE or NONCE that occurs
exactly once comes with exactly one SA; the numbers of SA, KE and NONCE are free
otherwise. -/
theorem c5_sa_init_with_notify (alloc : List Nat → Option pkt_t) (debug : Bool)
    (buf : List Nat) (pkt : pkt_t)
    (hver : version_assert_holds debug buf) (hflags : flags_pass buf)
    (hexch : (read_ike_header buf).exch_type = IKEV2_EXCH_IKE_SA_INIT)
    (halloc : alloc buf = some pkt)
    (hwalk : (inbound_walk buf pkt).1 = PKT_WALK_OK)
    (hnotify : IKEV2_PAYLOAD_NOTIFY ∈ outer_kinds buf)
    (hnever : ∀ k ∈ sa_init_never, k ∉ outer_kinds buf) :
    Accepted (ikev2_pkt_new_inbound alloc debug buf) ↔
      ((outer_kinds buf).count IKEV2_PAYLOAD_KE = 1 ∨
          (outer_kinds buf).count IKEV2_PAYLOAD_NONCE = 1 →
        (outer_kinds buf).count IKEV2_PAYLOAD_SA = 1) := by
  rw [ikev2_pkt_new_inbound_eq alloc debug buf pkt hver hflags halloc]
  rcases hiw : inbound_walk buf pkt with ⟨r, arg⟩
  rw [hiw] at hwalk
  dsimp only at hwalk
  subst hwalk
  obtain ⟨hx, hc⟩ := inbound_walk_counts_init buf pkt arg hexch hiw
  dsimp only
  rw [if_neg (by rw [hx]; decide), if_neg (by rw [hx]; decide)]
  have hloop := sa_init_loop_iff arg.payload_count
  have hzero : ∀ k ∈ sa_init_never, PAYCOUNT arg.payload_count k = 0 := by
    intro k hk
    have hk' := hk
    simp only [sa_init_never, List.mem_cons, List.mem_singleton, List.mem_nil_iff,
      or_false] at hk'
    rw [hc k (by rcases hk' with h | h | h | h | h | h | h | h | h | h | h <;> rw [h] <;> decide)
      (by rcases hk' with h | h | h | h | h | h | h | h | h | h | h <;> rw [h] <;> decide)]
    exact List.count_eq_zero_of_not_mem (hnever k hk)
  have hn : 0 < PAYCOUNT arg.payload_count IKEV2_PAYLOAD_NOTIFY := by
    rw [hc _ (by decide) (by decide)]
    exact List.count_pos_iff.mpr hnotify
  rw [hc IKEV2_PAYLOAD_SA (by decide) (by decide)] at hloop
  rw [hc IKEV2_PAYLOAD_KE (by decide) (by decide)] at hloop
  rw [hc IKEV2_PAYLOAD_NONCE (by decide) (by decide)] at hloop
  constructor
  · rintro ⟨p, hp⟩ hor
    by_cases hl : sa_init_loop arg.payload_count = true
    · obtain ⟨_, _, h2, h3⟩ := hloop.mp hl
      rcases hor with hke | hno
      · rw [if_pos hke] at h2; exact h2
      · rw [if_pos hno] at h3; exact h3
    · rw [if_neg hl] at hp
      cases hp
  · intro h
    have hl : sa_init_loop arg.payload_count = true := by
      rw [hloop]
      refine ⟨hzero, Or.inr hn, ?_, ?_⟩
      · split_ifs with hke
        · exact h (Or.inl hke)
        · exact hn
      · split_ifs with hno
        · exact h (Or.inr hno)
        · exact hn
    rw [if_pos hl]
    exact ⟨_, rfl⟩

/-- Witness of the amended C5: the response that carries nothing but one NOTIFY. -/
theorem c5_sa_init_with_notify_witness :
    Accepted (ikev2_pkt_new_inbound pkt_in_alloc true dgram_sa_init_notify) ↔
      ((outer_kinds dgram_sa_init_notify).count IKEV2_PAYLOAD_KE = 1 ∨
          (outer_kinds dgram_sa_init_notify).count IKEV2_PAYLOAD_NONCE = 1 →
        (outer_kinds dgram_sa_init_notify).count IKEV2_PAYLOAD_SA = 1) :=
  c5_sa_init_with_notify pkt_in_alloc true dgram_sa_init_notify _ (by decide) (by decide)
    (by decide) rfl (by decide) (by decide) (by decide)

/-- C6. An IKE_SA_INIT datagram whose outer chain has a payload of kind IDi, IDr, CERT,
AUTH, DELETE, TSi, TSr, SK, CP, EAP or GSPM makes `ikev2_pkt_new_inbound` return NULL,
whatever else the chain holds (the version `ASSERT` aside: major version 2 wherever
assertions are compiled in). -/
theorem c6_sa_init_never_allowed (alloc : List Nat → Option pkt_t) (debug : Bool)
    (buf : List Nat) (hver : version_assert_holds debug buf)
    (hexch : (read_ike_header buf).exch_type = IKEV2_EXCH_IKE_SA_INIT)
    (hk : ∃ k ∈ sa_init_never, k ∈ outer_kinds buf) :
    ikev2_pkt_new_inbound alloc debug buf = .ok none := by
  by_cases hflags : flags_pass buf
  · cases halloc : alloc buf with
    | none => exact ikev2_pkt_new_inbound_null_of_alloc alloc debug buf hver halloc
    | some pkt =>
      rw [ikev2_pkt_new_inbound_eq alloc debug buf pkt hver hflags halloc]
      rcases hiw : inbound_walk buf pkt with ⟨r, arg⟩
      cases r with
      | PKT_WALK_ERROR => rfl
      | PKT_WALK_OK =>
        obtain ⟨hx, hc⟩ := inbound_walk_counts_init buf pkt arg hexch hiw
        dsimp only
        rw [if_neg (by rw [hx]; decide), if_neg (by rw [hx]; decide)]
        have hl : ¬ sa_init_loop arg.payload_count = true := by
          intro hl
          obtain ⟨hzero, _⟩ := (sa_init_loop_iff arg.payload_count).mp hl
          obtain ⟨k, hk1, hk2⟩ := hk
          have h0 := hzero k hk1
          have hk' := hk1
          simp only [sa_init_never, List.mem_cons, List.mem_singleton, List.mem_nil_iff,
            or_false] at hk'
          rw [hc k
            (by rcases hk' with h | h | h | h | h | h | h | h | h | h | h <;> rw [h] <;> decide)
            (by rcases hk' with h | h | h | h | h | h | h | h | h | h | h <;> rw [h] <;> decide)]
            at h0
          exact absurd (List.count_pos_iff.mpr hk2) (by omega)
        rw [if_neg hl]
  · exact ikev2_pkt_new_inbound_null_of_not_pass alloc debug buf hver hflags

/-- Witness of C6: the IKE_SA_INIT request whose chain is IDi, SA, KE, NONCE. -/
theorem c6_sa_init_never_allowed_witness :
    ikev2_pkt_new_inbound pkt_in_alloc true dgram_sa_init_idi = .ok none :=
  c6_sa_init_never_allowed pkt_in_alloc true dgram_sa_init_idi (by decide) (by decide)
    ⟨IKEV2_PAYLOAD_IDi, by decide, by decide⟩

/-- C7. For an exchange type other than IKE_SA_INIT, IKE_AUTH, CREATE_CHILD_SA and
INFORMATIONAL (IKE_SESSION_RESUME and every unassigned value), `ikev2_pkt_new_inbound`
never returns a packet, whatever the chain, the build flavour and the allocator are. -/
theorem c7_unknown_exchange_never_accepted (alloc : List Nat → Option pkt_t) (debug : Bool)
    (buf : List Nat)
    (h1 : (read_ike_header buf).exch_type ≠ IKEV2_EXCH_IKE_SA_INIT)
    (h2 : (read_ike_header buf).exch_type ≠ IKEV2_EXCH_IKE_AUTH)
    (h3 : (read_ike_header buf).exch_type ≠ IKEV2_EXCH_CREATE_CHILD_SA)
    (h4 : (read_ike_header buf).exch_type ≠ IKEV2_EXCH_INFORMATIONAL) :
    ¬ Accepted (ikev2_pkt_new_inbound alloc debug buf) := by
  rintro ⟨p, hp⟩
  unfold ikev2_pkt_new_inbound at hp
  dsimp only at hp
  split_ifs at hp with ha hb
  · cases hp
  · cases halloc : alloc buf with
    | none => rw [halloc] at hp; cases hp
    | some pkt =>
      rw [halloc] at hp
      dsimp only at hp
      obtain ⟨hc, hx⟩ := inbound_walk_counts_other buf pkt h1
      rcases hiw : inbound_walk buf pkt with ⟨r, arg⟩
      rw [hiw] at hp hc hx
      dsimp only at hc hx
      cases r with
      | PKT_WALK_ERROR => cases hp
      | PKT_WALK_OK =>
        dsimp only at hp
        rw [if_neg (by rw [hx]; tauto)] at hp
        split_ifs at hp with hr hl
        · rw [hc] at hl
          revert hl
          decide
        · cases hp

/-- Witness of C7: the datagram with the unassigned exchange type 99 whose chain is a
single payload of the unknown kind 200. -/
theorem c7_unknown_exchange_never_accepted_witness :
    ¬ Accepted (ikev2_pkt_new_inbound pkt_in_alloc false dgram_unknown_exch) :=
  c7_unknown_exchange_never_accepted pkt_in_alloc false dgram_unknown_exch
    (by decide) (by decide) (by decide) (by decide)

/-- C8 as stated fails. The IKE_SA_INIT datagram `dgram_sa_init 0x10 IKEV2_FLAG_INITIATOR`
says major version 1; a DEBUG build stops at the version `ASSERT` and a build without
assertions returns the packet. Neither returns NULL. -/
theorem c8_major_version_1_not_discarded :
    ¬ version_is_v2 (dgram_sa_init 0x10 IKEV2_FLAG_INITIATOR) ∧
    ikev2_pkt_new_inbound pkt_in_alloc true (dgram_sa_init 0x10 IKEV2_FLAG_INITIATOR) =
      .error Fault.assertion ∧
    Accepted (ikev2_pkt_new_inbound pkt_in_alloc false
      (dgram_sa_init 0x10 IKEV2_FLAG_INITIATOR)) :=
  ⟨by decide, rfl, ⟨_, rfl⟩⟩

/-- C8 as amended. Major version 2 is an asserted precondition of `ikev2_pkt_new_inbound`,
not a parse error: in a build with assertions every buffer whose header says another
major version stops at the `ASSERT`, so nothing is returned for it. -/
theorem c8_major_version_is_asserted (alloc : List Nat → Option pkt_t) (buf : List Nat)
    (h : ¬ version_is_v2 buf) :
    ikev2_pkt_new_inbound alloc true buf = .error Fault.assertion := by
  unfold ikev2_pkt_new_inbound
  dsimp only
  rw [if_pos ⟨rfl, h⟩]

/-- Witness of the amended C8: the IKE_SA_INIT datagram that says major version 1. -/
theorem c8_major_version_is_asserted_witness :
    ikev2_pkt_new_inbound pkt_in_alloc true (dgram_sa_init 0x10 IKEV2_FLAG_RESPONSE) =
      .error Fault.assertion :=
  c8_major_version_is_asserted pkt_in_alloc (dgram_sa_init 0x10 IKEV2_FLAG_RESPONSE)
    (by decide)

/-! ## Claims about the SK envelope -/

/-- With any inner octet behind the IV the sanity check of `encrypt_payloads`,
`VERIFY3P(data, >=, pkt->pkt_ptr)`, fails: the function stops the process. -/
theorem encrypt_payloads_stops_on_plaintext (tok : Token) (debug : Bool) (pkt : pkt_t)
    (buf : Nat) (sa : ikev2_sa_t) (icvlen : Nat) (hsa : pkt.pkt_sa = some sa)
    (hicv : ikev2_auth_icv_size debug sa.encr sa.auth = .ok icvlen)
    (h : buf + sizeof_ike_payload_t + ikev2_encr_iv_size sa.encr < pkt.pkt_ptr) :
    encrypt_payloads tok debug pkt buf = .error Fault.verify := by
  unfold encrypt_payloads
  rw [hsa]
  dsimp only
  rw [hicv]
  dsimp only
  rw [if_pos (by omega)]

/-- C9, at a failing input. An SK container under AES-CBC with HMAC-SHA1-96 that holds one
inner IDi payload of 12 octets cannot be closed: `encrypt_payloads` stops at its sanity
check in both build flavours, so there is no packet to hand to `ikev2_pkt_decrypt`. -/
theorem c9_close_of_nonempty_sk_aborts :
    encrypt_payloads toy_token true
        (sample_out_pkt (sample_sa IKEV2_ENCR_AES_CBC IKEV2_XF_AUTH_HMAC_SHA1_96)
          sample_inner_idi) 28 = .error Fault.verify ∧
    encrypt_payloads toy_token false
        (sample_out_pkt (sample_sa IKEV2_ENCR_AES_CBC IKEV2_XF_AUTH_HMAC_SHA1_96)
          sample_inner_idi) 28 = .error Fault.verify :=
  ⟨rfl, rfl⟩

/-- C10, at a failing input. Closing an empty SK container under AES-CBC (block length 16,
IV at offset 32, first octet behind the IV at offset 48) pads with 15 octets and puts the
pad-length octet at offset 63, and the token is asked to encrypt the 15 octets at offsets
48 to 62: the pad-length octet is left out and 15 is not a multiple of 16. -/
theorem c10_cipher_range_omits_pad_length :
    (encrypt_payloads toy_token true
        (sample_out_pkt (sample_sa IKEV2_ENCR_AES_CBC IKEV2_XF_AUTH_HMAC_SHA1_96) []) 28).map
      (fun r => (r.1, r.2.calls, rd8 r.2.pkt.pkt_raw 63)) =
      .ok (true,
        [p11_call.EncryptInit ⟨CKM_AES_ECB, mech_param.null⟩ 1,
         p11_call.Encrypt none 16,
         p11_call.EncryptInit
           ⟨CKM_AES_CBC, mech_param.iv [1, 1, 1, 1, 1, 1, 1, 1, 1, 1, 1, 1, 1, 1, 1, 1]⟩ 1,
         p11_call.Encrypt (some 48) 15,
         p11_call.SignInit ⟨CKM_SHA_1_HMAC, mech_param.null⟩ 3,
         p11_call.Sign 0 64 64], 15) ∧
    sk_padlen (ikev2_encr_block_size IKEV2_ENCR_AES_CBC) 0 = 15 ∧
    15 % ikev2_encr_block_size IKEV2_ENCR_AES_CBC ≠ 0 :=
  ⟨rfl, rfl, by decide⟩

/-! ## Claims about the padding and the registry -/

theorem sk_padlen_eq (b n : Nat) (hb : b = 8 ∨ b = 16) :
    sk_padlen b n = (b - (n + 1) % b) % b := by
  have hmod : (n + 1) % ULONG_MOD % b = (n + 1) % b := by
    apply Nat.mod_mod_of_dvd
    rcases hb with h | h <;> subst h <;> decide
  unfold sk_padlen
  rw [hmod]
  have hlt : (n + 1) % b < b := Nat.mod_lt _ (by omega)
  by_cases h0 : (n + 1) % b = 0
  · rw [if_neg (by simpa using h0), h0]
    simp
  · rw [if_pos h0]
    have h1 : b - (n + 1) % b < b := by omega
    rw [Nat.mod_eq_of_lt h1]
    apply Nat.mod_eq_of_lt
    omega

/-- C11. For a block size of 8 or 16 and every plaintext length `n`, the pad length that
`encrypt_payloads` computes is `(b - (n + 1) mod b) mod b`; it is below `b`, so it fits
the pad-length octet and, together with that octet, the block that `ikev2_add_sk` asked
room for, and `n + padlen + 1` is a multiple of `b`. -/
theorem c11_padlen_formula (b n : Nat) (hb : b = 8 ∨ b = 16) :
    sk_padlen b n = (b - (n + 1) % b) % b ∧
    sk_padlen b n < b ∧ sk_padlen b n < 256 ∧ sk_padlen b n + 1 ≤ b ∧
    (n + sk_padlen b n + 1) % b = 0 := by
  have he := sk_padlen_eq b n hb
  have hlt : sk_padlen b n < b := by
    rw [he]; exact Nat.mod_lt _ (by omega)
  refine ⟨he, hlt, by omega, by omega, ?_⟩
  rw [he]
  rcases hb with h | h <;> subst h <;> omega

/-- Witness of C11: block size 16 and a plaintext of 27 octets. -/
theorem c11_padlen_formula_witness :
    sk_padlen 16 27 = (16 - (27 + 1) % 16) % 16 ∧
    sk_padlen 16 27 < 16 ∧ sk_padlen 16 27 < 256 ∧ sk_padlen 16 27 + 1 ≤ 16 ∧
    (27 + sk_padlen 16 27 + 1) % 16 = 0 :=
  c11_padlen_formula 16 27 (Or.inr rfl)

/-- C19, at the failing inputs. `ikev2_encr_iv_size` has no arm for the counter-mode and
AEAD ciphers, so its `default:` arm answers with the block size: 16 for each of the eleven
ciphers, not 8. -/
theorem c19_iv_size_of_ctr_and_aead_is_16 :
    ikev2_encr_iv_size IKEV2_ENCR_AES_CTR = 16 ∧
    ikev2_encr_iv_size IKEV2_ENCR_CAMELLIA_CTR = 16 ∧
    ikev2_encr_iv_size IKEV2_ENCR_AES_CCM_8 = 16 ∧
    ikev2_encr_iv_size IKEV2_ENCR_AES_CCM_12 = 16 ∧
    ikev2_encr_iv_size IKEV2_ENCR_AES_CCM_16 = 16 ∧
    ikev2_encr_iv_size IKEV2_ENCR_CAMELLIA_CCM_8 = 16 ∧
    ikev2_encr_iv_size IKEV2_ENCR_CAMELLIA_CCM_12 = 16 ∧
    ikev2_encr_iv_size IKEV2_ENCR_CAMELLIA_CCM_16 = 16 ∧
    ikev2_encr_iv_size IKEV2_ENCR_AES_GCM_8 = 16 ∧
    ikev2_encr_iv_size IKEV2_ENCR_AES_GCM_12 = 16 ∧
    ikev2_encr_iv_size IKEV2_ENCR_AES_GCM_16 = 16 := by
  decide

/-- C20, at the failing inputs. For each of the six ciphers of mode CCM the nonce length
`ikev2_encr_saltlen (encr) + ikev2_encr_iv_size (encr)` is 3 + 16 = 19, and for each of the
three ciphers of mode GCM it is 4 + 16 = 20: above 16 in every case. -/
theorem c20_aead_nonce_is_longer_than_16 :
    (ikev2_encr_mode IKEV2_ENCR_AES_CCM_8 = MODE_CCM ∧
      ikev2_encr_saltlen IKEV2_ENCR_AES_CCM_8 + ikev2_encr_iv_size IKEV2_ENCR_AES_CCM_8 = 19) ∧
    (ikev2_encr_mode IKEV2_ENCR_AES_CCM_12 = MODE_CCM ∧
      ikev2_encr_saltlen IKEV2_ENCR_AES_CCM_12 + ikev2_encr_iv_size IKEV2_ENCR_AES_CCM_12 = 19) ∧
    (ikev2_encr_mode IKEV2_ENCR_AES_CCM_16 = MODE_CCM ∧
      ikev2_encr_saltlen IKEV2_ENCR_AES_CCM_16 + ikev2_encr_iv_size IKEV2_ENCR_AES_CCM_16 = 19) ∧
    (ikev2_encr_mode IKEV2_ENCR_CAMELLIA_CCM_8 = MODE_CCM ∧
      ikev2_encr_saltlen IKEV2_ENCR_CAMELLIA_CCM_8 +
        ikev2_encr_iv_size IKEV2_ENCR_CAMELLIA_CCM_8 = 19) ∧
    (ikev2_encr_mode IKEV2_ENCR_CAMELLIA_CCM_12 = MODE_CCM ∧
      ikev2_encr_saltlen IKEV2_ENCR_CAMELLIA_CCM_12 +
        ikev2_encr_iv_size IKEV2_ENCR_CAMELLIA_CCM_12 = 19) ∧
    (ikev2_encr_mode IKEV2_ENCR_CAMELLIA_CCM_16 = MODE_CCM ∧
      ikev2_encr_saltlen IKEV2_ENCR_CAMELLIA_CCM_16 +
        ikev2_encr_iv_size IKEV2_ENCR_CAMELLIA_CCM_16 = 19) ∧
    (ikev2_encr_mode IKEV2_ENCR_AES_GCM_8 = MODE_GCM ∧
      ikev2_encr_saltlen IKEV2_ENCR_AES_GCM_8 + ikev2_encr_iv_size IKEV2_ENCR_AES_GCM_8 = 20) ∧
    (ikev2_encr_mode IKEV2_ENCR_AES_GCM_12 = MODE_GCM ∧
      ikev2_encr_saltlen IKEV2_ENCR_AES_GCM_12 + ikev2_encr_iv_size IKEV2_ENCR_AES_GCM_12 = 20) ∧
    (ikev2_encr_mode IKEV2_ENCR_AES_GCM_16 = MODE_GCM ∧
      ikev2_encr_saltlen IKEV2_ENCR_AES_GCM_16 + ikev2_encr_iv_size IKEV2_ENCR_AES_GCM_16 = 20) := by
  decide

theorem wrN_length (mem : List Nat) (off : Nat) (src : List Nat) :
    (wrN mem off src).length = mem.length := by
  unfold wrN
  simp only [List.length_append, List.length_take, List.length_drop]
  omega

theorem wrN_getElem? (mem : List Nat) (off : Nat) (src : List Nat) (i : Nat) :
    (wrN mem off src)[i]? =
      if off ≤ i ∧ i < off + src.length ∧ i < mem.length then src[i - off]? else mem[i]? := by
  unfold wrN
  by_cases h1 : i < off
  · rw [if_neg (by omega)]
    by_cases h2 : i < mem.length
    · rw [List.append_assoc, List.getElem?_append_left (by simp; omega)]
      simp [List.getElem?_take, h1]
    · have : (mem.take off ++ src.take (mem.length - off) ++ mem.drop (off + src.length)).length
          ≤ i := by
        simp only [List.length_append, List.length_take, List.length_drop]; omega
      rw [List.getElem?_eq_none this, List.getElem?_eq_none (by omega)]
  · by_cases h2 : i < mem.length
    · by_cases h3 : i < off + src.length
      · rw [if_pos ⟨by omega, h3, h2⟩]
        rw [List.append_assoc, List.getElem?_append_right (by simp; omega)]
        rw [List.getElem?_append_left (by simp; omega)]
        simp only [List.length_take]
        rw [List.getElem?_take]
        have : min off mem.length = off := by omega
        rw [this, if_pos (by omega)]
      · rw [if_neg (by omega)]
        rw [List.getElem?_append_right (by simp; omega)]
        simp only [List.length_append, List.length_take, List.getElem?_drop]
        congr 1
        omega
    · rw [if_neg (by omega)]
      have : (mem.take off ++ src.take (mem.length - off) ++ mem.drop (off + src.length)).length
          ≤ i := by
        simp only [List.length_append, List.length_take, List.length_drop]; omega
      rw [List.getElem?_eq_none this, List.getElem?_eq_none (by omega)]

theorem encrypt_payloads_staged (tok : Token) (debug : Bool) (pkt : pkt_t) (buf : Nat) :
    encrypt_payloads tok debug pkt buf =
      match encrypt_payloads_to_cipher tok debug pkt buf with
      | .error e => .error e
      | .ok (sk_close_progress.gave_up st) => .ok (false, st)
      | .ok (sk_close_progress.at_cipher fr) =>
        match pkt.pkt_sa with
        | none => .error Fault.null_deref
        | some sa => encrypt_payloads_from_cipher tok debug sa fr := by
  obtain ⟨psa, raw, ptr, hdr, pl, pc, nl, nc⟩ := pkt
  unfold encrypt_payloads encrypt_payloads_to_cipher encrypt_payloads_from_cipher
  cases psa with
  | none => rfl
  | some sa =>
    dsimp only
    cases hicv : ikev2_auth_icv_size debug sa.encr sa.auth with
    | error e => rfl
    | ok icvlen =>
      dsimp only
      by_cases h1 : ¬ (buf + sizeof_ike_payload_t + ikev2_encr_iv_size sa.encr ≥ ptr)
      · rw [if_pos h1, if_pos h1]
      rw [if_neg h1, if_neg h1]
      by_cases h2 : ikev2_encr_block_size sa.encr = 0
      · rw [if_pos h2, if_pos h2]
      rw [if_neg h2, if_neg h2]
      split
      · rfl
      split
      · rfl
      split <;> rfl

theorem cbc_iv_true_inv (tok : Token) (sa : ikev2_sa_t) (st st1 : crypt_st) (ivp : Nat)
    (h : cbc_iv tok sa st ivp = .ok (true, st1)) :
    ∃ bytes : List Nat, bytes.length ≤ ikev2_encr_iv_size sa.encr ∧
      st1.pkt = { st.pkt with pkt_raw := wrN st.pkt.pkt_raw ivp bytes } := by
  unfold cbc_iv at h
  dsimp only at h
  split at h
  · cases h
  · rename_i mech blocklen hsel
    split_ifs at h with h1 h2 h3 h4
    · cases h
    · cases h
    · cases h
    · simp only [Except.ok.injEq, Prod.mk.injEq, true_and] at h
      refine ⟨_, ?_, by rw [← h]⟩
      simp only [List.length_take]
      omega

/-- What is known when `encrypt_payloads` arrives at its call of `crypt_common`: the tests
it passed, and its locals in terms of the packet it was given. `ivbytes` are the octets
stored into the IV field. -/
theorem encrypt_payloads_to_cipher_inv (tok : Token) (debug : Bool) (pkt : pkt_t) (buf : Nat)
    (fr : sk_close_t)
    (h : encrypt_payloads_to_cipher tok debug pkt buf = .ok (sk_close_progress.at_cipher fr)) :
    ∃ (sa : ikev2_sa_t) (ivbytes : List Nat),
      pkt.pkt_sa = some sa ∧
      ikev2_auth_icv_size debug sa.encr sa.auth = .ok fr.icvlen ∧
      fr.ivlen = ikev2_encr_iv_size sa.encr ∧
      fr.iv = buf + sizeof_ike_payload_t ∧
      fr.data = buf + sizeof_ike_payload_t + fr.ivlen ∧
      fr.data ≥ pkt.pkt_ptr ∧
      ikev2_encr_block_size sa.encr ≠ 0 ∧
      fr.padlen = sk_padlen (ikev2_encr_block_size sa.encr)
        ((pkt.pkt_ptr + ULONG_MOD - fr.data) % ULONG_MOD) ∧
      fr.padlen + 1 + fr.icvlen ≤ pkt_write_left pkt ∧
      4 ≤ fr.ivlen ∧
      fr.datalen = ((pkt.pkt_ptr + ULONG_MOD - fr.data) % ULONG_MOD + fr.padlen) % ULONG_MOD ∧
      fr.icv = (fr.data + fr.datalen) % ULONG_MOD + 1 ∧
      fr.raw_padded = wrN (wrN pkt.pkt_raw pkt.pkt_ptr (List.replicate (fr.padlen + 1) fr.padlen))
        ((fr.data + fr.datalen) % ULONG_MOD) [fr.padlen] ∧
      ivbytes.length ≤ fr.ivlen ∧
      fr.st.pkt.pkt_raw = wrN (wrN fr.raw_padded fr.iv ivbytes) (buf + 2)
        [(fr.icv + fr.icvlen + ULONG_MOD - buf) % 65536 / 256,
         (fr.icv + fr.icvlen + ULONG_MOD - buf) % 65536 % 256] ∧
      fr.st.pkt.pkt_ptr = fr.icv + fr.icvlen := by
  obtain ⟨psa, raw, ptr, hdr, pl, pc, nl, nc⟩ := pkt
  unfold encrypt_payloads_to_cipher at h
  cases psa with
  | none => cases h
  | some sa =>
    dsimp only at h
    cases hicv : ikev2_auth_icv_size debug sa.encr sa.auth with
    | error e => rw [hicv] at h; cases h
    | ok icvlen =>
      rw [hicv] at h
      dsimp only at h
      by_cases h1 : ¬ (buf + sizeof_ike_payload_t + ikev2_encr_iv_size sa.encr ≥ ptr)
      · rw [if_pos h1] at h; cases h
      rw [if_neg h1] at h
      by_cases h2 : ikev2_encr_block_size sa.encr = 0
      · rw [if_pos h2] at h; cases h
      rw [if_neg h2] at h
      split at h
      · cases h
      rename_i h3
      split at h
      · cases h
      rename_i h4
      by_cases h5 : ikev2_encr_mode sa.encr = MODE_CBC
      · rw [if_pos h5] at h
        split at h
        · cases h
        · cases h
        · rename_i st1 hiv
          obtain ⟨bytes, hb1, hb2⟩ := cbc_iv_true_inv _ _ _ _ _ hiv
          simp only [Except.ok.injEq, sk_close_progress.at_cipher.injEq] at h
          subst h
          refine ⟨sa, bytes, rfl, hicv, rfl, rfl, rfl, by simpa using h1, h2, rfl,
            by dsimp only; omega, by dsimp only; omega, rfl, rfl, rfl, hb1, ?_, rfl⟩
          dsimp only
          rw [hb2]
      · rw [if_neg h5] at h
        dsimp only at h
        simp only [Except.ok.injEq, sk_close_progress.at_cipher.injEq] at h
        subst h
        refine ⟨sa, hdr.msgid.take 4, rfl, hicv, rfl, rfl, rfl, by simpa using h1, h2, rfl,
          by dsimp only; omega, by dsimp only; omega, rfl, rfl, rfl, ?_, rfl, rfl⟩
        simp only [List.length_take]
        omega

theorem sk_icv_offset (data ptr padlen : Nat) (_h1 : ptr ≤ data) (h2 : data < ULONG_MOD)
    (h3 : ptr + padlen < ULONG_MOD) :
    (data + ((ptr + ULONG_MOD - data) % ULONG_MOD + padlen) % ULONG_MOD) % ULONG_MOD =
      ptr + padlen := by
  unfold ULONG_MOD at *
  omega

theorem getElem?_replicate_lt (n a i : Nat) (h : i < n) : (List.replicate n a)[i]? = some a := by
  rw [List.getElem?_eq_getElem (by simpa using h)]
  simp

/-- C12. When `encrypt_payloads` gets as far as the cipher call, then right after its
padding step the `padlen` octets from the old cursor on hold `padlen`, the octet behind
them (the pad-length octet) holds `padlen` too, and every octet in front of the old
cursor, the plaintext included, is what it was; `padlen` is the value of `sk_padlen`. When
the SK body starts at or in front of the cursor, the padding and the pad-length octet are
still so when the cipher is called. The buffer and the SK body are taken to lie in the
address space. -/
theorem c12_padding_octets (tok : Token) (debug : Bool) (pkt : pkt_t) (buf : Nat)
    (fr : sk_close_t)
    (hreach : encrypt_payloads_to_cipher tok debug pkt buf =
      .ok (sk_close_progress.at_cipher fr))
    (hraw : pkt.pkt_raw.length < ULONG_MOD) (hdata : fr.data < ULONG_MOD) :
    (∀ i, i ≤ fr.padlen → fr.raw_padded[pkt.pkt_ptr + i]? = some fr.padlen) ∧
    (∀ j, j < pkt.pkt_ptr → fr.raw_padded[j]? = pkt.pkt_raw[j]?) ∧
    (fr.data ≤ pkt.pkt_ptr →
      ∀ i, i ≤ fr.padlen → fr.st.pkt.pkt_raw[pkt.pkt_ptr + i]? = some fr.padlen) := by
  obtain ⟨sa, ivbytes, hsa, hicv, hivlen, hiv, hd, hge, hblk, hpad, hleft, hiv4, hdl, hicvo,
    hrp, hivb, hraw3, hptr⟩ := encrypt_payloads_to_cipher_inv tok debug pkt buf fr hreach
  unfold pkt_write_left at hleft
  have hoff : (fr.data + fr.datalen) % ULONG_MOD = pkt.pkt_ptr + fr.padlen := by
    rw [hdl]
    exact sk_icv_offset _ _ _ hge hdata (by omega)
  rw [hoff] at hrp
  have hpadded : ∀ i, i ≤ fr.padlen → fr.raw_padded[pkt.pkt_ptr + i]? = some fr.padlen := by
    intro i hi
    rw [hrp, wrN_getElem?]
    simp only [List.length_singleton, wrN_length]
    by_cases hlast : i = fr.padlen
    · subst hlast
      rw [if_pos ⟨le_refl _, by omega, by omega⟩]
      simp
    · rw [if_neg (by omega), wrN_getElem?]
      simp only [List.length_replicate]
      rw [if_pos ⟨by omega, by omega, by omega⟩]
      have : pkt.pkt_ptr + i - pkt.pkt_ptr = i := by omega
      rw [this]
      exact getElem?_replicate_lt _ _ _ (by omega)
  refine ⟨hpadded, ?_, ?_⟩
  · intro j hj
    rw [hrp, wrN_getElem?, if_neg (by omega), wrN_getElem?, if_neg (by omega)]
  · intro hle i hi
    have h4 : sizeof_ike_payload_t = 4 := rfl
    rw [hraw3, wrN_getElem?]
    simp only [List.length_cons, List.length_nil, wrN_length]
    rw [if_neg (by omega), wrN_getElem?, if_neg (by omega)]
    exact hpadded i hi

/-- Witness of C12: the outbound sample packet with no inner payload under AES-CBC; the
pad length is 15, and the sixteen octets from offset 48 on hold 15. -/
theorem c12_padding_octets_witness :
    encrypt_payloads_to_cipher toy_token true (sample_out_pkt sample_sa_cbc []) 28 =
      .ok (sk_close_progress.at_cipher sample_close_frame) ∧
    sample_close_frame.padlen = 15 ∧ (sample_out_pkt sample_sa_cbc []).pkt_ptr = 48 ∧
    ((∀ i, i ≤ sample_close_frame.padlen →
        sample_close_frame.raw_padded[(sample_out_pkt sample_sa_cbc []).pkt_ptr + i]? =
          some sample_close_frame.padlen) ∧
      (∀ j, j < (sample_out_pkt sample_sa_cbc []).pkt_ptr →
        sample_close_frame.raw_padded[j]? = (sample_out_pkt sample_sa_cbc []).pkt_raw[j]?) ∧
      (sample_close_frame.data ≤ (sample_out_pkt sample_sa_cbc []).pkt_ptr →
        ∀ i, i ≤ sample_close_frame.padlen →
          sample_close_frame.st.pkt.pkt_raw[(sample_out_pkt sample_sa_cbc []).pkt_ptr + i]? =
            some sample_close_frame.padlen)) :=
  ⟨rfl, rfl, rfl,
    c12_padding_octets toy_token true (sample_out_pkt sample_sa_cbc []) 28 sample_close_frame
      rfl (by decide) (by decide)⟩

theorem rd16_wrN_pair (mem : List Nat) (off v : Nat) (hv : v < 65536)
    (hoff : off + 2 ≤ mem.length) :
    rd16 (wrN mem off [v / 256, v % 256]) off = v := by
  have h0 : (wrN mem off [v / 256, v % 256])[off]? = some (v / 256) := by
    rw [wrN_getElem?, if_pos ⟨le_refl _, by simp, by omega⟩]
    simp
  have h1 : (wrN mem off [v / 256, v % 256])[off + 1]? = some (v % 256) := by
    rw [wrN_getElem?, if_pos ⟨by omega, by simp, by omega⟩]
    simp
  unfold rd16 rd8
  rw [List.getD_eq_getElem?_getD, List.getD_eq_getElem?_getD, h0, h1]
  simp only [Option.getD_some]
  omega

/-- C13. When `encrypt_payloads` arrives at the cipher call (the SK body starting at or in
front of the cursor, the buffer inside the address space), the Length field of the SK
generic header holds `4 + iv_len + plaintext_len + padlen + 1 + icv_len` modulo 2^16 in
network order, and the cursor is that many octets behind the start of the SK header. -/
theorem c13_sk_length_field (tok : Token) (debug : Bool) (pkt : pkt_t) (buf : Nat)
    (fr : sk_close_t)
    (hreach : encrypt_payloads_to_cipher tok debug pkt buf =
      .ok (sk_close_progress.at_cipher fr))
    (hraw : pkt.pkt_raw.length < ULONG_MOD)
    (hbody : buf + sizeof_ike_payload_t + fr.ivlen ≤ pkt.pkt_ptr) :
    rd16 fr.st.pkt.pkt_raw (buf + 2) =
      (sizeof_ike_payload_t + fr.ivlen +
        (pkt.pkt_ptr - (buf + sizeof_ike_payload_t + fr.ivlen)) + fr.padlen + 1 + fr.icvlen)
        % 65536 ∧
    fr.st.pkt.pkt_ptr = buf +
      (sizeof_ike_payload_t + fr.ivlen +
        (pkt.pkt_ptr - (buf + sizeof_ike_payload_t + fr.ivlen)) + fr.padlen + 1 + fr.icvlen) := by
  obtain ⟨sa, ivbytes, hsa, hicv, hivlen, hiv, hd, hge, hblk, hpad, hleft, hiv4, hdl, hicvo,
    hrp, hivb, hraw3, hptr⟩ := encrypt_payloads_to_cipher_inv tok debug pkt buf fr hreach
  unfold pkt_write_left at hleft
  have h4 : sizeof_ike_payload_t = 4 := rfl
  have hdlt : fr.data < ULONG_MOD := by omega
  have hoff : (fr.data + fr.datalen) % ULONG_MOD = pkt.pkt_ptr + fr.padlen := by
    rw [hdl]
    exact sk_icv_offset _ _ _ hge hdlt (by omega)
  rw [hoff] at hicvo
  have hp : fr.st.pkt.pkt_ptr = buf +
      (sizeof_ike_payload_t + fr.ivlen +
        (pkt.pkt_ptr - (buf + sizeof_ike_payload_t + fr.ivlen)) + fr.padlen + 1 + fr.icvlen) := by
    rw [hptr, hicvo]; omega
  refine ⟨?_, hp⟩
  rw [hraw3]
  have hlen : buf + 2 + 2 ≤ (wrN fr.raw_padded fr.iv ivbytes).length := by
    rw [wrN_length, hrp, wrN_length, wrN_length]; omega
  rw [rd16_wrN_pair _ _ _ (Nat.mod_lt _ (by decide)) hlen]
  rw [← hptr, hp]
  unfold ULONG_MOD
  omega

/-- Witness of C13: the outbound sample packet with no inner payload under AES-CBC with
HMAC-SHA1-96; the Length field holds 4 + 16 + 0 + 15 + 1 + 12 = 48 and the cursor is at
28 + 48. -/
theorem c13_sk_length_field_witness :
    encrypt_payloads_to_cipher toy_token true (sample_out_pkt sample_sa_cbc []) 28 =
      .ok (sk_close_progress.at_cipher sample_close_frame) ∧
    rd16 sample_close_frame.st.pkt.pkt_raw (28 + 2) = 48 ∧
    (rd16 sample_close_frame.st.pkt.pkt_raw (28 + 2) =
      (sizeof_ike_payload_t + sample_close_frame.ivlen +
        ((sample_out_pkt sample_sa_cbc []).pkt_ptr -
          (28 + sizeof_ike_payload_t + sample_close_frame.ivlen)) +
        sample_close_frame.padlen + 1 + sample_close_frame.icvlen) % 65536 ∧
    sample_close_frame.st.pkt.pkt_ptr = 28 +
      (sizeof_ike_payload_t + sample_close_frame.ivlen +
        ((sample_out_pkt sample_sa_cbc []).pkt_ptr -
          (28 + sizeof_ike_payload_t + sample_close_frame.ivlen)) +
        sample_close_frame.padlen + 1 + sample_close_frame.icvlen)) :=
  ⟨rfl, rfl,
    c13_sk_length_field toy_token true (sample_out_pkt sample_sa_cbc []) 28 sample_close_frame
      rfl (by decide) (by decide)⟩

/-! ## Claims about opening the SK payload -/

/-- The size test of `ikev2_pkt_decrypt` as the code has it: with an SK entry of body
length `n` in the index, `B_FALSE` is returned exactly when `2 * icvlen + 1 >= n`; the IV
length has no part in it. -/
theorem ikev2_pkt_decrypt_layout_none_iff (debug : Bool) (pkt : pkt_t) (sa : ikev2_sa_t)
    (d n icvlen : Nat)
    (hfound : find_sk_payload pkt pkt.pkt_payload_count 0 = some (d, n))
    (hicv : ikev2_auth_icv_size debug sa.encr sa.auth = .ok icvlen) :
    ikev2_pkt_decrypt_layout debug pkt sa = .ok none ↔ icvlen + icvlen + 1 ≥ n := by
  unfold ikev2_pkt_decrypt_layout
  rw [hfound, hicv]
  dsimp only
  rw [if_neg (by simp)]
  split_ifs with h
  · simp [h]
  · simp [h]

/-- C14, at two failing inputs. Under AES-CBC with HMAC-SHA1-96 (IV 16, ICV 12) an SK body
of 26 octets is below 16 + 12 + 1, yet the size test lets it pass and the two subtractions
wrap around to 2^64 - 2. Under 3DES with HMAC-SHA2-512-256 (IV 8, ICV 32) an SK body of 41
octets is not below 8 + 32 + 1, yet it is rejected. The test compares with
`icvlen + icvlen + 1`. -/
theorem c14_size_test_takes_icvlen_twice :
    ikev2_encr_iv_size IKEV2_ENCR_AES_CBC = 16 ∧
    ikev2_auth_icv_size true IKEV2_ENCR_AES_CBC IKEV2_XF_AUTH_HMAC_SHA1_96 = .ok 12 ∧
    ikev2_pkt_decrypt_layout true
        (sample_in_pkt_body (sample_sa IKEV2_ENCR_AES_CBC IKEV2_XF_AUTH_HMAC_SHA1_96)
          IKEV2_PAYLOAD_IDi (List.replicate 26 7))
        (sample_sa IKEV2_ENCR_AES_CBC IKEV2_XF_AUTH_HMAC_SHA1_96) =
      .ok (some ⟨32, 16, 48, 18446744073709551614, 46, 12⟩) ∧
    ikev2_encr_iv_size IKEV2_ENCR_3DES = 8 ∧
    ikev2_auth_icv_size true IKEV2_ENCR_3DES IKEV2_XF_AUTH_HMAC_SHA2_512_256 = .ok 32 ∧
    ikev2_pkt_decrypt_layout true
        (sample_in_pkt_body (sample_sa IKEV2_ENCR_3DES IKEV2_XF_AUTH_HMAC_SHA2_512_256)
          IKEV2_PAYLOAD_IDi (List.replicate 41 7))
        (sample_sa IKEV2_ENCR_3DES IKEV2_XF_AUTH_HMAC_SHA2_512_256) = .ok none :=
  ⟨rfl, rfl, rfl, rfl, rfl, rfl⟩

/-- The test in front of the MAC verification as the code has it: it asks for the
verification exactly when the mode is neither CCM nor GCM and the cipher is not
`IKEV2_ENCR_NONE`; the integrity algorithm has no part in it. -/
theorem decrypt_checks_mac_iff (sa : ikev2_sa_t) :
    decrypt_checks_mac sa = true ↔
      ikev2_encr_mode sa.encr ≠ MODE_CCM ∧ ikev2_encr_mode sa.encr ≠ MODE_GCM ∧
        sa.encr ≠ IKEV2_ENCR_NONE := by
  unfold decrypt_checks_mac
  cases sa.encr <;> simp [ikev2_encr_mode, encr_id, auth_id]

/-- C15, at a failing input. Under AES-CBC with the integrity algorithm NONE the test in
front of the MAC verification is true, so `auth_common` is entered: with assertions its
`ASSERT3S(sa->auth, !=, IKEV2_XF_AUTH_NONE)` stops the process, without them the token is
asked to verify with the mechanism 0. -/
theorem c15_mac_verified_with_auth_none :
    decrypt_checks_mac (sample_sa IKEV2_ENCR_AES_CBC IKEV2_XF_AUTH_NONE) = true ∧
    ikev2_pkt_decrypt toy_token true
        (sample_in_pkt (sample_sa IKEV2_ENCR_AES_CBC IKEV2_XF_AUTH_NONE) IKEV2_PAYLOAD_IDi
          (sample_inner_idi ++ [3, 3, 3, 3])) = .error Fault.assertion ∧
    (ikev2_pkt_decrypt toy_token false
        (sample_in_pkt (sample_sa IKEV2_ENCR_AES_CBC IKEV2_XF_AUTH_NONE) IKEV2_PAYLOAD_IDi
          (sample_inner_idi ++ [3, 3, 3, 3]))).map (fun r => r.2.calls.take 2) =
      .ok [p11_call.VerifyInit ⟨CKM_0, mech_param.null⟩ 3, p11_call.Verify 0 64 64 0] :=
  ⟨rfl, rfl, rfl⟩

theorem auth_common_verify_inv (tok : Token) (debug : Bool) (sa : ikev2_sa_t)
    (st st1 : crypt_st) (icv icvlen : Nat) (b : Bool)
    (h : auth_common tok debug sa st false icv icvlen = .ok (b, st1)) :
    st1.pkt = st.pkt ∧
    ∃ cs, st1.calls = st.calls ++ cs ∧
      (∀ m k, p11_call.DecryptInit m k ∉ cs) ∧ (∀ d n, p11_call.Decrypt d n ∉ cs) := by
  unfold auth_common at h
  dsimp only at h
  by_cases h1 : debug = true ∧ ¬ (sa.auth ≠ IKEV2_XF_AUTH_NONE)
  · rw [if_pos h1] at h; cases h
  rw [if_neg h1, if_neg (by decide)] at h
  by_cases h2 : tok.C_VerifyInit ⟨ikev2_auth_to_p11 sa.auth, mech_param.null⟩ (auth_key sa)
      ≠ CKR_OK
  · rw [if_pos h2] at h
    simp only [Except.ok.injEq, Prod.mk.injEq] at h
    obtain ⟨_, rfl⟩ := h
    exact ⟨rfl, _, rfl, by simp, by simp⟩
  rw [if_neg h2] at h
  split_ifs at h with h3
  · simp only [Except.ok.injEq, Prod.mk.injEq] at h
    obtain ⟨_, rfl⟩ := h
    refine ⟨rfl, _, List.append_assoc _ _ _, by simp, by simp⟩
  · simp only [Except.ok.injEq, Prod.mk.injEq] at h
    obtain ⟨_, rfl⟩ := h
    refine ⟨rfl, _, List.append_assoc _ _ _, by simp, by simp⟩

theorem crypt_common_decrypt_inv (tok : Token) (sa : ikev2_sa_t) (st st1 : crypt_st)
    (iv ivlen data datalen icvlen : Nat) (b : Bool)
    (h : crypt_common tok sa st false iv ivlen data datalen icvlen = .ok (b, st1)) :
    ∃ raw, st1.pkt = { st.pkt with pkt_raw := raw } := by
  unfold crypt_common at h
  dsimp only at h
  split at h
  · cases h
  · rw [if_neg (by decide)] at h
    split_ifs at h with h2
    · simp only [Except.ok.injEq, Prod.mk.injEq] at h
      obtain ⟨_, rfl⟩ := h
      exact ⟨st.pkt.pkt_raw, rfl⟩
    · simp only [Except.ok.injEq, Prod.mk.injEq] at h
      obtain ⟨_, rfl⟩ := h
      exact ⟨_, rfl⟩

/-- C16. When the MAC verification of `ikev2_pkt_decrypt` fails, or when it passes (or is
not asked for) and the cipher then fails, `ikev2_pkt_decrypt` returns `B_FALSE` and the
payload index, the notify index and their counts are those of the packet before the call.
On a MAC failure the token is not asked to decrypt and the buffer is unchanged as well. -/
theorem c16_failure_keeps_index (tok : Token) (debug : Bool) (pkt : pkt_t) (sa : ikev2_sa_t)
    (fr : sk_open_t) (st1 st2 : crypt_st)
    (hsa : pkt.pkt_sa = some sa)
    (hlay : ikev2_pkt_decrypt_layout debug pkt sa = .ok (some fr))
    (hfail : ikev2_pkt_decrypt_auth tok debug sa pkt fr = .ok (false, st2) ∨
      (ikev2_pkt_decrypt_auth tok debug sa pkt fr = .ok (true, st1) ∧
        crypt_common tok sa st1 false fr.iv fr.ivlen fr.data fr.datalen fr.icvlen =
          .ok (false, st2))) :
    ikev2_pkt_decrypt tok debug pkt = .ok (false, st2) ∧
    st2.pkt.pkt_payloads = pkt.pkt_payloads ∧
    st2.pkt.pkt_payload_count = pkt.pkt_payload_count ∧
    st2.pkt.pkt_notifies = pkt.pkt_notifies ∧
    st2.pkt.pkt_notify_count = pkt.pkt_notify_count ∧
    (ikev2_pkt_decrypt_auth tok debug sa pkt fr = .ok (false, st2) →
      st2.pkt.pkt_raw = pkt.pkt_raw ∧
      (∀ m k, p11_call.DecryptInit m k ∉ st2.calls) ∧
      (∀ d n, p11_call.Decrypt d n ∉ st2.calls)) := by
  have hauth_inv : ∀ (b : Bool) (st : crypt_st),
      ikev2_pkt_decrypt_auth tok debug sa pkt fr = .ok (b, st) →
      st.pkt = pkt ∧ (∀ m k, p11_call.DecryptInit m k ∉ st.calls) ∧
        (∀ d n, p11_call.Decrypt d n ∉ st.calls) := by
    intro b st h
    unfold ikev2_pkt_decrypt_auth at h
    split_ifs at h with hg
    · obtain ⟨hp, cs, hcs, hn1, hn2⟩ := auth_common_verify_inv _ _ _ _ _ _ _ _ h
      rw [hcs]
      exact ⟨hp, by simpa using hn1, by simpa using hn2⟩
    · simp only [Except.ok.injEq, Prod.mk.injEq] at h
      obtain ⟨_, rfl⟩ := h
      exact ⟨rfl, by simp, by simp⟩
  have hres : ikev2_pkt_decrypt tok debug pkt = .ok (false, st2) := by
    unfold ikev2_pkt_decrypt
    rw [hsa]
    dsimp only
    rw [hlay]
    dsimp only
    rcases hfail with h | ⟨h1, h2⟩
    · rw [h]
    · rw [h1]
      dsimp only
      rw [h2]
  rcases hfail with h | ⟨h1, h2⟩
  · obtain ⟨hp, hn1, hn2⟩ := hauth_inv _ _ h
    refine ⟨hres, by rw [hp], by rw [hp], by rw [hp], by rw [hp], fun _ => ⟨by rw [hp], hn1, hn2⟩⟩
  · obtain ⟨hp, _, _⟩ := hauth_inv _ _ h1
    obtain ⟨raw, hraw⟩ := crypt_common_decrypt_inv _ _ _ _ _ _ _ _ _ _ h2
    rw [hp] at hraw
    refine ⟨hres, by rw [hraw], by rw [hraw], by rw [hraw], by rw [hraw], ?_⟩
    intro h
    rw [h1] at h
    cases h

/-- Witness of C16: the packet whose last ICV octet was changed; the MAC verification of
`toy_token` fails, after the two calls `C_VerifyInit` and `C_Verify`. -/
theorem c16_failure_keeps_index_witness :
    ikev2_pkt_decrypt toy_token true sample_tampered_pkt =
      .ok (false, ⟨sample_tampered_pkt,
        [p11_call.VerifyInit ⟨CKM_SHA_1_HMAC, mech_param.null⟩ 3,
         p11_call.Verify 0 64 64 12]⟩) ∧
    sample_tampered_pkt.pkt_payloads = sample_tampered_pkt.pkt_payloads ∧
    sample_tampered_pkt.pkt_payload_count = sample_tampered_pkt.pkt_payload_count ∧
    sample_tampered_pkt.pkt_notifies = sample_tampered_pkt.pkt_notifies ∧
    sample_tampered_pkt.pkt_notify_count = sample_tampered_pkt.pkt_notify_count ∧
    (ikev2_pkt_decrypt_auth toy_token true sample_sa_cbc sample_tampered_pkt
        ⟨32, 16, 48, 16, 64, 12⟩ =
        .ok (false, ⟨sample_tampered_pkt,
          [p11_call.VerifyInit ⟨CKM_SHA_1_HMAC, mech_param.null⟩ 3,
           p11_call.Verify 0 64 64 12]⟩) →
      sample_tampered_pkt.pkt_raw = sample_tampered_pkt.pkt_raw ∧
      (∀ m k, p11_call.DecryptInit m k ∉
        [p11_call.VerifyInit ⟨CKM_SHA_1_HMAC, mech_param.null⟩ 3,
         p11_call.Verify 0 64 64 12]) ∧
      (∀ d n, p11_call.Decrypt d n ∉
        [p11_call.VerifyInit ⟨CKM_SHA_1_HMAC, mech_param.null⟩ 3,
         p11_call.Verify 0 64 64 12])) :=
  c16_failure_keeps_index toy_token true sample_tampered_pkt sample_sa_cbc
    ⟨32, 16, 48, 16, 64, 12⟩ ⟨sample_tampered_pkt, []⟩
    ⟨sample_tampered_pkt,
      [p11_call.VerifyInit ⟨CKM_SHA_1_HMAC, mech_param.null⟩ 3, p11_call.Verify 0 64 64 12]⟩
    rfl rfl (Or.inl rfl)

/-- The padding validation as the code has it: it passes exactly when the pad length is 0
or the one octet at `padp` holds the pad length. -/
theorem pad_validate_iff (raw : List Nat) (padp padlen : Nat) :
    pad_validate raw padp padlen = true ↔ padlen = 0 ∨ rd8 raw padp = padlen := by
  unfold pad_validate
  rw [List.all_eq_true]
  constructor
  · intro h
    by_cases h0 : padlen = 0
    · exact Or.inl h0
    · right
      have := h 0 (by simp; omega)
      simpa using this
  · rintro (h | h) i hi
    · subst h; simp at hi
    · simpa using h

/-- C17, at a failing input. The peer is of our own kind, the decrypted region ends with
the padding octets 3, 9, 3 and the pad length 3, so the second padding octet is not the pad
length; `ikev2_pkt_decrypt` still returns `B_TRUE` and indexes the inner IDi payload. The
loop compares the octet at `padp` in every round and never moves `padp`. -/
theorem c17_second_padding_octet_not_checked :
    sample_sa_cbc.vendor = VENDOR_ILLUMOS_1 ∧
    (ikev2_pkt_decrypt toy_token true
        (sample_in_pkt sample_sa_cbc IKEV2_PAYLOAD_IDi (sample_inner_idi ++ [3, 9, 3, 3]))).map
      (fun r => (r.1, rdN r.2.pkt.pkt_raw 60 4, r.2.pkt.pkt_payloads)) =
      .ok (true, [3, 9, 3, 3],
        [⟨IKEV2_PAYLOAD_SK, 32, 44⟩, ⟨IKEV2_PAYLOAD_IDi, 52, 8⟩]) ∧
    (ikev2_pkt_decrypt toy_token false
        (sample_in_pkt sample_sa_cbc IKEV2_PAYLOAD_IDi (sample_inner_idi ++ [3, 9, 3, 3]))).map
      (fun r => r.1) = .ok true :=
  ⟨rfl, rfl, rfl⟩

theorem rdN_getElem? (mem : List Nat) (off n i : Nat) :
    (rdN mem off n)[i]? = if i < n then mem[off + i]? else none := by
  unfold rdN
  rw [List.getElem?_take]
  split_ifs with h
  · rw [List.getElem?_drop]
  · rfl

theorem rdN_congr (raw raw1 : List Nat) (off n : Nat)
    (h : ∀ j, off ≤ j → j < off + n → raw1[j]? = raw[j]?) :
    rdN raw1 off n = rdN raw off n := by
  apply List.ext_getElem?
  intro i
  rw [rdN_getElem?, rdN_getElem?]
  split_ifs with hi
  · exact h _ (by omega) (by omega)
  · rfl

theorem rd8_congr (raw raw1 : List Nat) (j : Nat) (h : raw1[j]? = raw[j]?) :
    rd8 raw1 j = rd8 raw j := by
  unfold rd8
  rw [List.getD_eq_getElem?_getD, List.getD_eq_getElem?_getD, h]

theorem rd16_congr (raw raw1 : List Nat) (j : Nat) (h0 : raw1[j]? = raw[j]?)
    (h1 : raw1[j + 1]? = raw[j + 1]?) : rd16 raw1 j = rd16 raw j := by
  unfold rd16
  rw [rd8_congr _ _ _ h0, rd8_congr _ _ _ h1]

theorem chain_links_bounds :
    ∀ (fuel : Nat) (mem : List Nat) (off len first : Nat) (p : pkt_payload_t),
      p ∈ chain_links_loop fuel mem off len first →
      off + sizeof_ike_payload_t ≤ p.pp_ptr ∧ p.pp_ptr + p.pp_len ≤ off + len := by
  intro fuel
  induction fuel with
  | zero => intro mem off len first p h; simp [chain_links_loop] at h
  | succ n ih =>
    intro mem off len first p h
    rw [chain_links_loop] at h
    dsimp only at h
    by_cases h1 : first = IKEV2_PAYLOAD_NONE
    · rw [if_pos h1] at h; simp at h
    rw [if_neg h1] at h
    by_cases h2 : len < sizeof_ike_payload_t
    · rw [if_pos h2] at h; simp at h
    rw [if_neg h2] at h
    by_cases h3 : rd16 mem (off + 2) < sizeof_ike_payload_t ∨ rd16 mem (off + 2) > len
    · rw [if_pos h3] at h; simp at h
    rw [if_neg h3] at h
    rw [List.mem_cons] at h
    have h4 : sizeof_ike_payload_t = 4 := rfl
    rcases h with h | h
    · subst h
      dsimp only
      omega
    · have := ih _ _ _ _ _ h
      omega

theorem count_walk_notify_len :
    ∀ (fuel : Nat) (mem : List Nat) (off len first : Nat) (c c1 : Nat × Nat)
      (p : pkt_payload_t),
      pkt_payload_walk_loop count_cb fuel mem off len first c = some (PKT_WALK_OK, c1) →
      p ∈ chain_links_loop fuel mem off len first →
      p.pp_type = IKEV2_PAYLOAD_NOTIFY → sizeof_ikev2_notify_t ≤ p.pp_len := by
  intro fuel
  induction fuel with
  | zero => intro mem off len first c c1 p h; simp [pkt_payload_walk_loop] at h
  | succ n ih =>
    intro mem off len first c c1 p h hp hty
    rw [pkt_payload_walk_loop] at h
    rw [chain_links_loop] at hp
    dsimp only at h hp
    by_cases h1 : first = IKEV2_PAYLOAD_NONE
    · rw [if_pos h1] at hp; simp at hp
    rw [if_neg h1] at h hp
    by_cases h2 : len < sizeof_ike_payload_t
    · rw [if_pos h2] at hp; simp at hp
    rw [if_neg h2] at h hp
    by_cases h3 : rd16 mem (off + 2) < sizeof_ike_payload_t ∨ rd16 mem (off + 2) > len
    · rw [if_pos h3] at hp; simp at hp
    rw [if_neg h3] at h hp
    rcases hcb : count_cb first (rd8 mem (off + 1)) mem (off + sizeof_ike_payload_t)
        (rd16 mem (off + 2) - sizeof_ike_payload_t) c with ⟨r0, c2⟩
    rw [hcb] at h
    cases r0 with
    | PKT_WALK_ERROR => dsimp only at h; cases h
    | PKT_WALK_OK =>
      dsimp only at h
      rw [List.mem_cons] at hp
      rcases hp with hp | hp
      · subst hp
        dsimp only at hty ⊢
        unfold count_cb at hcb
        have hk : is_indexed_kind first = true := by
          rw [hty]; decide
        rw [if_neg (by simp [hk]), if_pos hty] at hcb
        by_cases hl : rd16 mem (off + 2) - sizeof_ike_payload_t < sizeof_ikev2_notify_t
        · rw [if_pos hl] at hcb; cases hcb
        · omega
      · exact ih _ _ _ _ _ _ _ h hp hty

theorem mem_store_entries :
    ∀ (es tbl : List pkt_payload_t) (start : Nat) (x : pkt_payload_t),
      x ∈ store_entries tbl start es → x ∈ tbl ∨ x ∈ es := by
  intro es
  induction es with
  | nil => intro tbl start x h; exact Or.inl h
  | cons e es ih =>
    intro tbl start x h
    rw [store_entries] at h
    rcases ih _ _ _ h with h1 | h1
    · rcases List.mem_or_eq_of_mem_set h1 with h2 | h2
      · exact Or.inl h2
      · exact Or.inr (by rw [h2]; exact List.mem_cons_self _ _)
    · exact Or.inr (List.mem_cons_of_mem _ h1)

theorem mem_resize_table {α : Type} (l : List α) (n : Nat) (d x : α)
    (h : x ∈ resize_table l n d) : x ∈ l ∨ x = d := by
  unfold resize_table at h
  rw [List.mem_append] at h
  rcases h with h | h
  · exact Or.inl (List.mem_of_mem_take h)
  · exact Or.inr (List.eq_of_mem_replicate h)

theorem pkt_payload_mem_or_default (pkt : pkt_t) (i : Nat) :
    pkt_payload pkt i ∈ pkt.pkt_payloads ∨ pkt_payload pkt i = ⟨0, 0, 0⟩ := by
  unfold pkt_payload
  by_cases h : i < pkt.pkt_payloads.length
  · left
    rw [List.getD_eq_getElem _ _ h]
    exact List.getElem_mem _
  · right
    rw [List.getD_eq_default _ _ (by omega)]

theorem decrypt_notify_loop_congr (debug : Bool) (raw1 : List Nat) :
    ∀ (is : List Nat) (ncount : Nat) (pkt : pkt_t),
      (∀ p ∈ pkt.pkt_payloads, p.pp_type = IKEV2_PAYLOAD_NOTIFY →
        rd16 raw1 (p.pp_ptr + 2) = rd16 pkt.pkt_raw (p.pp_ptr + 2)) →
      decrypt_notify_loop debug is ncount { pkt with pkt_raw := raw1 } =
        (decrypt_notify_loop debug is ncount pkt).map (fun q => { q with pkt_raw := raw1 }) := by
  intro is
  induction is with
  | nil => intro ncount pkt _; rfl
  | cons i is ih =>
    intro ncount pkt h
    rw [decrypt_notify_loop, decrypt_notify_loop]
    have hpp : pkt_payload { pkt with pkt_raw := raw1 } i = pkt_payload pkt i := rfl
    rw [hpp]
    dsimp only
    by_cases h1 : (pkt_payload pkt i).pp_type ≠ IKEV2_PAYLOAD_NOTIFY
    · rw [if_pos h1, if_pos h1]
      exact ih _ _ h
    rw [if_neg h1, if_neg h1]
    by_cases h2 : debug = true ∧ ¬ ((pkt_payload pkt i).pp_len ≥ sizeof_ikev2_notify_t)
    · rw [if_pos h2, if_pos h2]; rfl
    rw [if_neg h2, if_neg h2]
    have hmem : pkt_payload pkt i ∈ pkt.pkt_payloads := by
      rcases pkt_payload_mem_or_default pkt i with hm | hm
      · exact hm
      · exfalso
        apply h1
        rw [hm]
        decide
    rw [h _ hmem (by simpa using h1)]
    exact ih (ncount + 1) (pkt_notify_store pkt ncount _) h

/-- C18. The peer is not of our own kind. Let two packets have come out of the cipher that
differ in nothing but the values of the padding octets of the decrypted region (the SK
header and IV in front of the region, the region inside the address space, the pad length
not beyond the region, no NOTIFY indexed so far). Then what `ikev2_pkt_decrypt` does from
there on has the same outcome for both: the same `B_TRUE` or `B_FALSE` (or the same failed
assertion), the same payload and notify index and the same counts. -/
theorem c18_padding_values_ignored (debug : Bool) (sa : ikev2_sa_t) (st : crypt_st)
    (fr : sk_open_t) (raw1 : List Nat)
    (hvendor : sa.vendor ≠ VENDOR_ILLUMOS_1)
    (hiv : sizeof_ike_payload_t ≤ fr.iv) (hdata : fr.iv ≤ fr.data)
    (hicv : fr.icv = fr.data + fr.datalen) (hfit : fr.icv < ULONG_MOD)
    (hpad : rd8 st.pkt.pkt_raw (fr.icv - 1) + 1 ≤ fr.datalen)
    (hagree : ∀ j, ¬ (fr.icv - 1 - rd8 st.pkt.pkt_raw (fr.icv - 1) ≤ j ∧ j < fr.icv - 1) →
      raw1[j]? = st.pkt.pkt_raw[j]?)
    (hold : ∀ p ∈ st.pkt.pkt_payloads, p.pp_type ≠ IKEV2_PAYLOAD_NOTIFY) :
    ikev2_pkt_decrypt_index debug sa ⟨{ st.pkt with pkt_raw := raw1 }, st.calls⟩ fr =
      (ikev2_pkt_decrypt_index debug sa st fr).map
        (fun r => (r.1, ⟨{ r.2.pkt with pkt_raw := raw1 }, r.2.calls⟩)) := by
  obtain ⟨pkt, calls⟩ := st
  dsimp only at hpad hagree hold ⊢
  have h4 : sizeof_ike_payload_t = 4 := rfl
  have hM : ULONG_MOD = 18446744073709551616 := by unfold ULONG_MOD; norm_num
  have hp1 : (fr.icv + ULONG_MOD - 1) % ULONG_MOD = fr.icv - 1 := by
    rw [hM] at hfit ⊢; omega
  have hpl : rd8 raw1 (fr.icv - 1) = rd8 pkt.pkt_raw (fr.icv - 1) :=
    rd8_congr _ _ _ (hagree _ (by omega))
  have hdl : (fr.datalen + ULONG_MOD - (rd8 pkt.pkt_raw (fr.icv - 1) + 1)) % ULONG_MOD =
      fr.datalen - (rd8 pkt.pkt_raw (fr.icv - 1) + 1) := by
    rw [hM] at hfit ⊢; omega
  have hnext : rd8 raw1 (fr.iv - sizeof_ike_payload_t) =
      rd8 pkt.pkt_raw (fr.iv - sizeof_ike_payload_t) :=
    rd8_congr _ _ _ (hagree _ (by omega))
  have hreg : rdN raw1 fr.data (fr.datalen - (rd8 pkt.pkt_raw (fr.icv - 1) + 1)) =
      rdN pkt.pkt_raw fr.data (fr.datalen - (rd8 pkt.pkt_raw (fr.icv - 1) + 1)) :=
    rdN_congr _ _ _ _ (fun j hj1 hj2 => hagree _ (by omega))
  unfold ikev2_pkt_decrypt_index
  dsimp only
  rw [hp1, hpl, hdl, hnext, hreg]
  rw [if_neg (fun hc => hvendor hc.1), if_neg (fun hc => hvendor hc.1)]
  generalize hrg : rdN pkt.pkt_raw fr.data (fr.datalen - (rd8 pkt.pkt_raw (fr.icv - 1) + 1))
    = region at *
  generalize hnx : rd8 pkt.pkt_raw (fr.iv - sizeof_ike_payload_t) = next at *
  cases hcnt : pkt_count_payloads region
      (fr.datalen - (rd8 pkt.pkt_raw (fr.icv - 1) + 1)) next with
  | none => rfl
  | some c =>
    obtain ⟨paycount, ncount⟩ := c
    dsimp only
    unfold pkt_size_index pkt_index_payloads
    dsimp only
    rw [hcnt]
    dsimp only
    generalize htbl : store_entries
      (resize_table pkt.pkt_payloads (pkt.pkt_payload_count + paycount)
        { pp_type := 0, pp_ptr := 0, pp_len := 0 })
      pkt.pkt_payload_count
      (List.map (fun p => { pp_type := p.pp_type, pp_ptr := fr.data + p.pp_ptr, pp_len := p.pp_len })
        (List.filter (fun p => is_indexed_kind p.pp_type)
          (chain_links_loop (fr.datalen - (rd8 pkt.pkt_raw (fr.icv - 1) + 1) + 1) region 0
            (fr.datalen - (rd8 pkt.pkt_raw (fr.icv - 1) + 1)) next))) = tbl
    generalize resize_table pkt.pkt_notifies (pkt.pkt_notify_count + ncount)
      { pn_type := 0, pn_ptr := 0, pn_len := 0 } = ntbl
    have key := decrypt_notify_loop_congr debug raw1
      (List.range (pkt.pkt_payload_count + paycount)) pkt.pkt_notify_count
      ⟨pkt.pkt_sa, pkt.pkt_raw, pkt.pkt_ptr, pkt.pkt_header, tbl,
        pkt.pkt_payload_count + paycount, ntbl, pkt.pkt_notify_count + ncount⟩
    dsimp only at key
    rw [key]
    · cases decrypt_notify_loop debug _ _ _ <;> rfl
    · intro p hp hty
      rw [← htbl] at hp
      rcases mem_store_entries _ _ _ _ hp with hp1' | hp1'
      · rcases mem_resize_table _ _ _ _ hp1' with hp2 | hp2
        · exact absurd hty (hold p hp2)
        · rw [hp2] at hty
          exact absurd hty (by decide)
      · rw [List.mem_map] at hp1'
        obtain ⟨q, hq, rfl⟩ := hp1'
        dsimp only at hty ⊢
        have hq1 := List.mem_of_mem_filter hq
        obtain ⟨hb1, hb2⟩ := chain_links_bounds _ _ _ _ _ _ hq1
        have hwalk : pkt_payload_walk_loop count_cb
            (fr.datalen - (rd8 pkt.pkt_raw (fr.icv - 1) + 1) + 1) region 0
            (fr.datalen - (rd8 pkt.pkt_raw (fr.icv - 1) + 1)) next (0, 0) =
            some (PKT_WALK_OK, (paycount, ncount)) := by
          apply pkt_payload_walk_ok
          unfold pkt_count_payloads at hcnt
          split at hcnt
          · rename_i c2 hc2
            simp only [Option.some.injEq] at hcnt
            rw [hc2, hcnt]
          · cases hcnt
        have hlen4 := count_walk_notify_len _ _ _ _ _ _ _ _ hwalk hq1 hty
        have hs4 : sizeof_ikev2_notify_t = 4 := rfl
        apply rd16_congr
        · exact hagree _ (by omega)
        · exact hagree _ (by omega)

/-- Witness of C18: the opened sample packet whose padding octets are 9, 8, ..., 1, 0, 0 and
the same packet with eleven zero octets as padding; both are accepted with the same index
of three payloads and one notification. -/
theorem c18_padding_values_ignored_witness :
    sample_repadded_raw ≠ sample_open_pkt.pkt_raw ∧
    ikev2_pkt_decrypt_layout true sample_open_pkt sample_sa_other =
      .ok (some sample_open_frame) ∧
    (ikev2_pkt_decrypt_index true sample_sa_other ⟨sample_open_pkt, []⟩
        sample_open_frame).map
      (fun r => (r.1, r.2.pkt.pkt_payloads, r.2.pkt.pkt_notifies)) =
      .ok (true, [⟨46, 32, 60⟩, ⟨41, 52, 4⟩, ⟨35, 60, 8⟩], [⟨16388, 52, 4⟩]) ∧
    ikev2_pkt_decrypt_index true sample_sa_other
        ⟨{ sample_open_pkt with pkt_raw := sample_repadded_raw }, []⟩ sample_open_frame =
      (ikev2_pkt_decrypt_index true sample_sa_other ⟨sample_open_pkt, []⟩
        sample_open_frame).map
        (fun r => (r.1, ⟨{ r.2.pkt with pkt_raw := sample_repadded_raw }, r.2.calls⟩)) :=
  ⟨by decide, rfl, rfl,
    c18_padding_values_ignored true sample_sa_other ⟨sample_open_pkt, []⟩ sample_open_frame
      sample_repadded_raw (by decide) (by decide) (by decide) rfl (by decide) (by decide)
      (by
        intro j hj
        have h79 : rd8 sample_open_pkt.pkt_raw (sample_open_frame.icv - 1) = 11 := rfl
        have hlen : sample_open_pkt.pkt_raw.length = 92 := rfl
        have hicv : sample_open_frame.icv = 80 := rfl
        dsimp only at hj ⊢
        rw [h79, hicv] at hj
        unfold sample_repadded_raw
        rw [wrN_getElem?, List.length_replicate]
        exact if_neg (by omega))
      (by decide)⟩

/-! ## Claims about the registry table -/

/-- C25. `ikev2_encr_block_size` agrees with the Block column of the registry table: 8 for
DES, DES_IV32, DES_IV64, 3DES, IDEA, RC5, CAST and Blowfish, 16 for every AES and Camellia
cipher of mode CBC, CTR, CCM or GCM, and 0 for NULL and NULL_AES_GMAC. -/
theorem c25_block_size_table :
    ikev2_encr_block_size IKEV2_ENCR_DES = 8 ∧
    ikev2_encr_block_size IKEV2_ENCR_DES_IV32 = 8 ∧
    ikev2_encr_block_size IKEV2_ENCR_DES_IV64 = 8 ∧
    ikev2_encr_block_size IKEV2_ENCR_3DES = 8 ∧
    ikev2_encr_block_size IKEV2_ENCR_IDEA = 8 ∧
    ikev2_encr_block_size IKEV2_ENCR_RC5 = 8 ∧
    ikev2_encr_block_size IKEV2_ENCR_CAST = 8 ∧
    ikev2_encr_block_size IKEV2_ENCR_BLOWFISH = 8 ∧
    ikev2_encr_block_size IKEV2_ENCR_AES_CBC = 16 ∧
    ikev2_encr_block_size IKEV2_ENCR_AES_CTR = 16 ∧
    ikev2_encr_block_size IKEV2_ENCR_AES_CCM_8 = 16 ∧
    ikev2_encr_block_size IKEV2_ENCR_AES_CCM_12 = 16 ∧
    ikev2_encr_block_size IKEV2_ENCR_AES_CCM_16 = 16 ∧
    ikev2_encr_block_size IKEV2_ENCR_AES_GCM_8 = 16 ∧
    ikev2_encr_block_size IKEV2_ENCR_AES_GCM_12 = 16 ∧
    ikev2_encr_block_size IKEV2_ENCR_AES_GCM_16 = 16 ∧
    ikev2_encr_block_size IKEV2_ENCR_CAMELLIA_CBC = 16 ∧
    ikev2_encr_block_size IKEV2_ENCR_CAMELLIA_CTR = 16 ∧
    ikev2_encr_block_size IKEV2_ENCR_CAMELLIA_CCM_8 = 16 ∧
    ikev2_encr_block_size IKEV2_ENCR_CAMELLIA_CCM_12 = 16 ∧
    ikev2_encr_block_size IKEV2_ENCR_CAMELLIA_CCM_16 = 16 ∧
    ikev2_encr_block_size IKEV2_ENCR_NULL = 0 ∧
    ikev2_encr_block_size IKEV2_ENCR_NULL_AES_GMAC = 0 := by
  decide

/-- C26. For the CBC and null cipher families `ikev2_encr_iv_size` agrees with the IV column
of the registry table: 8 for DES, 3DES, IDEA, RC5, CAST, Blowfish and DES_IV64, 4 for
DES_IV32, 16 for AES-CBC and Camellia-CBC, and 0 for NULL and NULL_AES_GMAC. -/
theorem c26_iv_size_table_cbc_and_null :
    ikev2_encr_iv_size IKEV2_ENCR_DES = 8 ∧
    ikev2_encr_iv_size IKEV2_ENCR_3DES = 8 ∧
    ikev2_encr_iv_size IKEV2_ENCR_IDEA = 8 ∧
    ikev2_encr_iv_size IKEV2_ENCR_RC5 = 8 ∧
    ikev2_encr_iv_size IKEV2_ENCR_CAST = 8 ∧
    ikev2_encr_iv_size IKEV2_ENCR_BLOWFISH = 8 ∧
    ikev2_encr_iv_size IKEV2_ENCR_DES_IV64 = 8 ∧
    ikev2_encr_iv_size IKEV2_ENCR_DES_IV32 = 4 ∧
    ikev2_encr_iv_size IKEV2_ENCR_AES_CBC = 16 ∧
    ikev2_encr_iv_size IKEV2_ENCR_CAMELLIA_CBC = 16 ∧
    ikev2_encr_iv_size IKEV2_ENCR_NULL = 0 ∧
    ikev2_encr_iv_size IKEV2_ENCR_NULL_AES_GMAC = 0 := by
  decide

/-- C27. `ikev2_encr_mode` and `ikev2_encr_saltlen` agree with the Mode and Salt columns of
the registry table for every cipher it lists: CBC and 0 for DES, 3DES, IDEA, RC5, CAST,
Blowfish, AES-CBC and Camellia-CBC; CTR and 0 for AES-CTR and Camellia-CTR; CCM and 3 for
the AES-CCM and Camellia-CCM ciphers; GCM and 4 for the AES-GCM ciphers; NONE and 0 for
NULL and NULL_AES_GMAC. -/
theorem c27_mode_and_salt_table :
    (ikev2_encr_mode IKEV2_ENCR_DES = MODE_CBC ∧ ikev2_encr_saltlen IKEV2_ENCR_DES = 0) ∧
    (ikev2_encr_mode IKEV2_ENCR_3DES = MODE_CBC ∧ ikev2_encr_saltlen IKEV2_ENCR_3DES = 0) ∧
    (ikev2_encr_mode IKEV2_ENCR_IDEA = MODE_CBC ∧ ikev2_encr_saltlen IKEV2_ENCR_IDEA = 0) ∧
    (ikev2_encr_mode IKEV2_ENCR_RC5 = MODE_CBC ∧ ikev2_encr_saltlen IKEV2_ENCR_RC5 = 0) ∧
    (ikev2_encr_mode IKEV2_ENCR_CAST = MODE_CBC ∧ ikev2_encr_saltlen IKEV2_ENCR_CAST = 0) ∧
    (ikev2_encr_mode IKEV2_ENCR_BLOWFISH = MODE_CBC ∧ ikev2_encr_saltlen IKEV2_ENCR_BLOWFISH = 0) ∧
    (ikev2_encr_mode IKEV2_ENCR_AES_CBC = MODE_CBC ∧ ikev2_encr_saltlen IKEV2_ENCR_AES_CBC = 0) ∧
    (ikev2_encr_mode IKEV2_ENCR_CAMELLIA_CBC = MODE_CBC ∧ ikev2_encr_saltlen IKEV2_ENCR_CAMELLIA_CBC = 0) ∧
    (ikev2_encr_mode IKEV2_ENCR_AES_CTR = MODE_CTR ∧ ikev2_encr_saltlen IKEV2_ENCR_AES_CTR = 0) ∧
    (ikev2_encr_mode IKEV2_ENCR_CAMELLIA_CTR = MODE_CTR ∧ ikev2_encr_saltlen IKEV2_ENCR_CAMELLIA_CTR = 0) ∧
    (ikev2_encr_mode IKEV2_ENCR_AES_CCM_8 = MODE_CCM ∧ ikev2_encr_saltlen IKEV2_ENCR_AES_CCM_8 = 3) ∧
    (ikev2_encr_mode IKEV2_ENCR_AES_CCM_12 = MODE_CCM ∧ ikev2_encr_saltlen IKEV2_ENCR_AES_CCM_12 = 3) ∧
    (ikev2_encr_mode IKEV2_ENCR_AES_CCM_16 = MODE_CCM ∧ ikev2_encr_saltlen IKEV2_ENCR_AES_CCM_16 = 3) ∧
    (ikev2_encr_mode IKEV2_ENCR_CAMELLIA_CCM_8 = MODE_CCM ∧ ikev2_encr_saltlen IKEV2_ENCR_CAMELLIA_CCM_8 = 3) ∧
    (ikev2_encr_mode IKEV2_ENCR_CAMELLIA_CCM_12 = MODE_CCM ∧ ikev2_encr_saltlen IKEV2_ENCR_CAMELLIA_CCM_12 = 3) ∧
    (ikev2_encr_mode IKEV2_ENCR_CAMELLIA_CCM_16 = MODE_CCM ∧ ikev2_encr_saltlen IKEV2_ENCR_CAMELLIA_CCM_16 = 3) ∧
    (ikev2_encr_mode IKEV2_ENCR_AES_GCM_8 = MODE_GCM ∧ ikev2_encr_saltlen IKEV2_ENCR_AES_GCM_8 = 4) ∧
    (ikev2_encr_mode IKEV2_ENCR_AES_GCM_12 = MODE_GCM ∧ ikev2_encr_saltlen IKEV2_ENCR_AES_GCM_12 = 4) ∧
    (ikev2_encr_mode IKEV2_ENCR_AES_GCM_16 = MODE_GCM ∧ ikev2_encr_saltlen IKEV2_ENCR_AES_GCM_16 = 4) ∧
    (ikev2_encr_mode IKEV2_ENCR_NULL = MODE_NONE ∧ ikev2_encr_saltlen IKEV2_ENCR_NULL = 0) ∧
    (ikev2_encr_mode IKEV2_ENCR_NULL_AES_GMAC = MODE_NONE ∧ ikev2_encr_saltlen IKEV2_ENCR_NULL_AES_GMAC = 0) := by
  decide

/-- C28. `ikev2_auth_icv_size` returns the ICV length of the table. For a cipher that is
neither CCM nor GCM the length depends on the integrity algorithm only: 12 for SHA1-96,
MD5-96, AES-XCBC-96 and AES-CMAC-96, 16 for MD5-128, AES-128-GMAC and SHA2-256-128, 20 for
SHA1-160, 24 for AES-192-GMAC and SHA2-384-192, 32 for AES-256-GMAC and SHA2-512-256, 0 for
NONE. For a CCM or GCM cipher with the integrity algorithm NONE it is the 8, 12 or 16 of
the name of the cipher. Both hold with and without assertions. -/
theorem c28_icv_size_table (debug : Bool) (encr : ikev2_xf_encr_t)
    (hccm : ikev2_encr_mode encr ≠ MODE_CCM) (hgcm : ikev2_encr_mode encr ≠ MODE_GCM) :
    ikev2_auth_icv_size debug encr IKEV2_XF_AUTH_HMAC_SHA1_96 = .ok 12 ∧
    ikev2_auth_icv_size debug encr IKEV2_XF_AUTH_HMAC_MD5_96 = .ok 12 ∧
    ikev2_auth_icv_size debug encr IKEV2_XF_AUTH_AES_XCBC_96 = .ok 12 ∧
    ikev2_auth_icv_size debug encr IKEV2_XF_AUTH_AES_CMAC_96 = .ok 12 ∧
    ikev2_auth_icv_size debug encr IKEV2_XF_AUTH_HMAC_MD5_128 = .ok 16 ∧
    ikev2_auth_icv_size debug encr IKEV2_XF_AUTH_AES_128_GMAC = .ok 16 ∧
    ikev2_auth_icv_size debug encr IKEV2_XF_AUTH_HMAC_SHA2_256_128 = .ok 16 ∧
    ikev2_auth_icv_size debug encr IKEV2_XF_AUTH_HMAC_SHA1_160 = .ok 20 ∧
    ikev2_auth_icv_size debug encr IKEV2_XF_AUTH_AES_192_GMAC = .ok 24 ∧
    ikev2_auth_icv_size debug encr IKEV2_XF_AUTH_HMAC_SHA2_384_192 = .ok 24 ∧
    ikev2_auth_icv_size debug encr IKEV2_XF_AUTH_AES_256_GMAC = .ok 32 ∧
    ikev2_auth_icv_size debug encr IKEV2_XF_AUTH_HMAC_SHA2_512_256 = .ok 32 ∧
    ikev2_auth_icv_size debug encr IKEV2_XF_AUTH_NONE = .ok 0 ∧
    ikev2_auth_icv_size debug IKEV2_ENCR_AES_CCM_8 IKEV2_XF_AUTH_NONE = .ok 8 ∧
    ikev2_auth_icv_size debug IKEV2_ENCR_AES_GCM_8 IKEV2_XF_AUTH_NONE = .ok 8 ∧
    ikev2_auth_icv_size debug IKEV2_ENCR_CAMELLIA_CCM_8 IKEV2_XF_AUTH_NONE = .ok 8 ∧
    ikev2_auth_icv_size debug IKEV2_ENCR_AES_CCM_12 IKEV2_XF_AUTH_NONE = .ok 12 ∧
    ikev2_auth_icv_size debug IKEV2_ENCR_AES_GCM_12 IKEV2_XF_AUTH_NONE = .ok 12 ∧
    ikev2_auth_icv_size debug IKEV2_ENCR_CAMELLIA_CCM_12 IKEV2_XF_AUTH_NONE = .ok 12 ∧
    ikev2_auth_icv_size debug IKEV2_ENCR_AES_CCM_16 IKEV2_XF_AUTH_NONE = .ok 16 ∧
    ikev2_auth_icv_size debug IKEV2_ENCR_AES_GCM_16 IKEV2_XF_AUTH_NONE = .ok 16 ∧
    ikev2_auth_icv_size debug IKEV2_ENCR_CAMELLIA_CCM_16 IKEV2_XF_AUTH_NONE = .ok 16 := by
  have hgen : ∀ auth, ikev2_auth_icv_size debug encr auth = .ok (auth_icv_size_of_auth auth) := by
    intro auth
    cases encr <;> first | rfl | exact absurd rfl hccm | exact absurd rfl hgcm
  have haead : ∀ n, aead_icv_size debug IKEV2_XF_AUTH_NONE n = .ok n := by
    intro n
    unfold aead_icv_size
    rw [if_neg (fun h => h.2 rfl)]
  refine ⟨hgen _, hgen _, hgen _, hgen _, hgen _, hgen _, hgen _, hgen _, hgen _, hgen _, hgen _, hgen _, hgen _, haead _, haead _, haead _, haead _, haead _, haead _, haead _, haead _, haead _⟩

/-- Witness of C28: AES-CBC in a build with assertions. -/
theorem c28_icv_size_table_witness :
    ikev2_auth_icv_size true IKEV2_ENCR_AES_CBC IKEV2_XF_AUTH_HMAC_SHA1_96 = .ok 12 ∧
    ikev2_auth_icv_size true IKEV2_ENCR_AES_CBC IKEV2_XF_AUTH_HMAC_MD5_96 = .ok 12 ∧
    ikev2_auth_icv_size true IKEV2_ENCR_AES_CBC IKEV2_XF_AUTH_AES_XCBC_96 = .ok 12 ∧
    ikev2_auth_icv_size true IKEV2_ENCR_AES_CBC IKEV2_XF_AUTH_AES_CMAC_96 = .ok 12 ∧
    ikev2_auth_icv_size true IKEV2_ENCR_AES_CBC IKEV2_XF_AUTH_HMAC_MD5_128 = .ok 16 ∧
    ikev2_auth_icv_size true IKEV2_ENCR_AES_CBC IKEV2_XF_AUTH_AES_128_GMAC = .ok 16 ∧
    ikev2_auth_icv_size true IKEV2_ENCR_AES_CBC IKEV2_XF_AUTH_HMAC_SHA2_256_128 = .ok 16 ∧
    ikev2_auth_icv_size true IKEV2_ENCR_AES_CBC IKEV2_XF_AUTH_HMAC_SHA1_160 = .ok 20 ∧
    ikev2_auth_icv_size true IKEV2_ENCR_AES_CBC IKEV2_XF_AUTH_AES_192_GMAC = .ok 24 ∧
    ikev2_auth_icv_size true IKEV2_ENCR_AES_CBC IKEV2_XF_AUTH_HMAC_SHA2_384_192 = .ok 24 ∧
    ikev2_auth_icv_size true IKEV2_ENCR_AES_CBC IKEV2_XF_AUTH_AES_256_GMAC = .ok 32 ∧
    ikev2_auth_icv_size true IKEV2_ENCR_AES_CBC IKEV2_XF_AUTH_HMAC_SHA2_512_256 = .ok 32 ∧
    ikev2_auth_icv_size true IKEV2_ENCR_AES_CBC IKEV2_XF_AUTH_NONE = .ok 0 ∧
    ikev2_auth_icv_size true IKEV2_ENCR_AES_CCM_8 IKEV2_XF_AUTH_NONE = .ok 8 ∧
    ikev2_auth_icv_size true IKEV2_ENCR_AES_GCM_8 IKEV2_XF_AUTH_NONE = .ok 8 ∧
    ikev2_auth_icv_size true IKEV2_ENCR_CAMELLIA_CCM_8 IKEV2_XF_AUTH_NONE = .ok 8 ∧
    ikev2_auth_icv_size true IKEV2_ENCR_AES_CCM_12 IKEV2_XF_AUTH_NONE = .ok 12 ∧
    ikev2_auth_icv_size true IKEV2_ENCR_AES_GCM_12 IKEV2_XF_AUTH_NONE = .ok 12 ∧
    ikev2_auth_icv_size true IKEV2_ENCR_CAMELLIA_CCM_12 IKEV2_XF_AUTH_NONE = .ok 12 ∧
    ikev2_auth_icv_size true IKEV2_ENCR_AES_CCM_16 IKEV2_XF_AUTH_NONE = .ok 16 ∧
    ikev2_auth_icv_size true IKEV2_ENCR_AES_GCM_16 IKEV2_XF_AUTH_NONE = .ok 16 ∧
    ikev2_auth_icv_size true IKEV2_ENCR_CAMELLIA_CCM_16 IKEV2_XF_AUTH_NONE = .ok 16 :=
  c28_icv_size_table true IKEV2_ENCR_AES_CBC (by decide) (by decide)

/-! ## Claims about the closing of the SK container, continued -/

/-- With a cipher of block size 0 `encrypt_payloads` never returns: it stops at the
`VERIFY3P` in front of the padding or at the `% blocklen`. -/
theorem encrypt_payloads_block_size_0 (tok : Token) (debug : Bool) (pkt : pkt_t) (buf : Nat)
    (sa : ikev2_sa_t) (hsa : pkt.pkt_sa = some sa) (hblk : ikev2_encr_block_size sa.encr = 0) :
    encrypt_payloads tok debug pkt buf = .error Fault.verify ∨
    encrypt_payloads tok debug pkt buf = .error Fault.div_by_zero ∨
    encrypt_payloads tok debug pkt buf = .error Fault.assertion := by
  obtain ⟨psa, raw, ptr, hdr, pl, pc, nl, nc⟩ := pkt
  dsimp only at hsa
  subst hsa
  unfold encrypt_payloads
  dsimp only
  cases hicv : ikev2_auth_icv_size debug sa.encr sa.auth with
  | error e =>
    right; right
    dsimp only
    unfold ikev2_auth_icv_size at hicv
    have haead : ∀ n, aead_icv_size debug sa.auth n = .error e → e = Fault.assertion := by
      intro n h
      unfold aead_icv_size at h
      split at h
      · cases h; rfl
      · cases h
    split at hicv <;> first | (rw [haead _ hicv]) | cases hicv
  | ok icvlen =>
    dsimp only
    by_cases h1 : buf + sizeof_ike_payload_t + ikev2_encr_iv_size sa.encr ≥ ptr
    · right; left
      rw [if_neg (not_not.mpr h1), if_pos hblk]
    · left
      rw [if_pos h1]

/-- C21, at the failing inputs. For NULL and for NULL_AES_GMAC (block size 0, IV size 0,
mode NONE) `ikev2_add_sk` opens the SK container of a fresh packet, and closing it right
away with `encrypt_payloads` stops at the modulus by the block size 0, with and without
assertions. -/
theorem c21_null_cipher_close_divides_by_zero :
    ikev2_encr_block_size IKEV2_ENCR_NULL = 0 ∧
    ikev2_encr_iv_size IKEV2_ENCR_NULL = 0 ∧
    ikev2_encr_mode IKEV2_ENCR_NULL = MODE_NONE ∧
    (ikev2_add_sk true (sample_build (sample_sa IKEV2_ENCR_NULL IKEV2_XF_AUTH_HMAC_SHA1_96)
        [0, 0, 0, 1])).map (fun r => (r.1, r.2.pkt.pkt_ptr, r.2.stack.map (fun e => e.stk_ptr))) =
      .ok (true, 32, [28]) ∧
    (ikev2_add_sk true (sample_build (sample_sa IKEV2_ENCR_NULL IKEV2_XF_AUTH_HMAC_SHA1_96)
        [0, 0, 0, 1])).bind (fun r => encrypt_payloads toy_token true r.2.pkt 28) =
      .error Fault.div_by_zero ∧
    (ikev2_add_sk false (sample_build (sample_sa IKEV2_ENCR_NULL IKEV2_XF_AUTH_HMAC_SHA1_96)
        [0, 0, 0, 1])).bind (fun r => encrypt_payloads toy_token false r.2.pkt 28) =
      .error Fault.div_by_zero ∧
    ikev2_encr_block_size IKEV2_ENCR_NULL_AES_GMAC = 0 ∧
    ikev2_encr_iv_size IKEV2_ENCR_NULL_AES_GMAC = 0 ∧
    ikev2_encr_mode IKEV2_ENCR_NULL_AES_GMAC = MODE_NONE ∧
    (ikev2_add_sk true (sample_build
        (sample_sa IKEV2_ENCR_NULL_AES_GMAC IKEV2_XF_AUTH_HMAC_SHA1_96) [0, 0, 0, 1])).bind
      (fun r => encrypt_payloads toy_token true r.2.pkt 28) = .error Fault.div_by_zero :=
  ⟨rfl, rfl, rfl, rfl, rfl, rfl, rfl, rfl, rfl, rfl⟩

theorem wrN_getElem?_lt (mem : List Nat) (off : Nat) (src : List Nat) (j : Nat) (h : j < off) :
    (wrN mem off src)[j]? = mem[j]? := by
  rw [wrN_getElem?, if_neg (by omega)]

/-- What a return of `crypt_common` tells: the mechanism is known, the token was asked to
initialise with the parameter block of `crypt_param` and then at most once to work on the
`datalen` octets at `data`; of the packet only buffer octets at and behind `data` can have
changed. -/
theorem crypt_common_inv (tok : Token) (sa : ikev2_sa_t) (st st1 : crypt_st) (encrypt : Bool)
    (iv ivlen data datalen icvlen : Nat) (b : Bool)
    (h : crypt_common tok sa st encrypt iv ivlen data datalen icvlen = .ok (b, st1)) :
    ∃ m raw, ikev2_encr_to_p11 sa.encr = .ok m ∧
      (st1.calls = st.calls ++
          [crypt_init_call encrypt ⟨m, crypt_param sa st.pkt.pkt_raw iv ivlen icvlen⟩ (encr_key sa)] ∨
        st1.calls = st.calls ++
          [crypt_init_call encrypt ⟨m, crypt_param sa st.pkt.pkt_raw iv ivlen icvlen⟩ (encr_key sa),
           crypt_data_call encrypt data datalen]) ∧
      st1.pkt = { st.pkt with pkt_raw := raw } ∧
      raw.length = st.pkt.pkt_raw.length ∧
      ∀ j, j < data → raw[j]? = st.pkt.pkt_raw[j]? := by
  unfold crypt_common at h
  dsimp only at h
  cases hm : ikev2_encr_to_p11 sa.encr with
  | error e => rw [hm] at h; cases h
  | ok m =>
    rw [hm] at h
    dsimp only at h
    cases encrypt with
    | true =>
      rw [if_pos rfl] at h
      by_cases h2 : tok.C_EncryptInit ⟨m, crypt_param sa st.pkt.pkt_raw iv ivlen icvlen⟩
          (encr_key sa) ≠ CKR_OK
      · rw [if_pos h2] at h
        simp only [Except.ok.injEq, Prod.mk.injEq] at h
        obtain ⟨_, rfl⟩ := h
        exact ⟨m, st.pkt.pkt_raw, rfl, Or.inl rfl, rfl, rfl, fun _ _ => rfl⟩
      · rw [if_neg h2] at h
        simp only [Except.ok.injEq, Prod.mk.injEq] at h
        obtain ⟨_, rfl⟩ := h
        exact ⟨m, _, rfl, Or.inr (List.append_assoc _ _ _), rfl, wrN_length _ _ _,
          fun j hj => wrN_getElem?_lt _ _ _ _ hj⟩
    | false =>
      rw [if_neg (by decide)] at h
      by_cases h2 : tok.C_DecryptInit ⟨m, crypt_param sa st.pkt.pkt_raw iv ivlen icvlen⟩
          (encr_key sa) ≠ CKR_OK
      · rw [if_pos h2] at h
        simp only [Except.ok.injEq, Prod.mk.injEq] at h
        obtain ⟨_, rfl⟩ := h
        exact ⟨m, st.pkt.pkt_raw, rfl, Or.inl rfl, rfl, rfl, fun _ _ => rfl⟩
      · rw [if_neg h2] at h
        simp only [Except.ok.injEq, Prod.mk.injEq] at h
        obtain ⟨_, rfl⟩ := h
        exact ⟨m, _, rfl, Or.inr (List.append_assoc _ _ _), rfl, wrN_length _ _ _,
          fun j hj => wrN_getElem?_lt _ _ _ _ hj⟩

/-- What a return of `auth_common` tells: the token was asked to initialise and then at
most once to sign or verify the octets from the start of the buffer up to `icv`; of the
packet only buffer octets at and behind `icv` can have changed. -/
theorem auth_common_inv (tok : Token) (debug : Bool) (sa : ikev2_sa_t) (st st1 : crypt_st)
    (encrypt : Bool) (icv icvlen : Nat) (b : Bool)
    (h : auth_common tok debug sa st encrypt icv icvlen = .ok (b, st1)) :
    ∃ raw,
      (st1.calls = st.calls ++
          [auth_init_call encrypt ⟨ikev2_auth_to_p11 sa.auth, mech_param.null⟩ (auth_key sa)] ∨
        st1.calls = st.calls ++
          [auth_init_call encrypt ⟨ikev2_auth_to_p11 sa.auth, mech_param.null⟩ (auth_key sa),
           auth_data_call encrypt icv icvlen]) ∧
      st1.pkt = { st.pkt with pkt_raw := raw } ∧
      raw.length = st.pkt.pkt_raw.length ∧
      ∀ j, j < icv → raw[j]? = st.pkt.pkt_raw[j]? := by
  unfold auth_common at h
  dsimp only at h
  by_cases h1 : debug = true ∧ ¬ (sa.auth ≠ IKEV2_XF_AUTH_NONE)
  · rw [if_pos h1] at h; cases h
  rw [if_neg h1] at h
  cases encrypt with
  | true =>
    rw [if_pos rfl] at h
    by_cases h2 : tok.C_SignInit ⟨ikev2_auth_to_p11 sa.auth, mech_param.null⟩ (auth_key sa)
        ≠ CKR_OK
    · rw [if_pos h2] at h
      simp only [Except.ok.injEq, Prod.mk.injEq] at h
      obtain ⟨_, rfl⟩ := h
      exact ⟨st.pkt.pkt_raw, Or.inl rfl, rfl, rfl, fun _ _ => rfl⟩
    · rw [if_neg h2] at h
      simp only [Except.ok.injEq, Prod.mk.injEq] at h
      obtain ⟨_, rfl⟩ := h
      exact ⟨_, Or.inr (List.append_assoc _ _ _), rfl, wrN_length _ _ _,
        fun j hj => wrN_getElem?_lt _ _ _ _ hj⟩
  | false =>
    rw [if_neg (by decide)] at h
    by_cases h2 : tok.C_VerifyInit ⟨ikev2_auth_to_p11 sa.auth, mech_param.null⟩ (auth_key sa)
        ≠ CKR_OK
    · rw [if_pos h2] at h
      simp only [Except.ok.injEq, Prod.mk.injEq] at h
      obtain ⟨_, rfl⟩ := h
      exact ⟨st.pkt.pkt_raw, Or.inl rfl, rfl, rfl, fun _ _ => rfl⟩
    · rw [if_neg h2] at h
      split_ifs at h with h3
      · simp only [Except.ok.injEq, Prod.mk.injEq] at h
        obtain ⟨_, rfl⟩ := h
        exact ⟨st.pkt.pkt_raw, Or.inr (List.append_assoc _ _ _), rfl, rfl, fun _ _ => rfl⟩
      · simp only [Except.ok.injEq, Prod.mk.injEq] at h
        obtain ⟨_, rfl⟩ := h
        exact ⟨st.pkt.pkt_raw, Or.inr (List.append_assoc _ _ _), rfl, rfl, fun _ _ => rfl⟩

/-- C24. When `crypt_common` returns for a cipher of mode CCM or GCM, the parameter block it
gave to `C_EncryptInit` or `C_DecryptInit` has as associated data the `iv` octets from the
start of the buffer, that is everything from the first octet of the IKE header up to the
octet in front of the IV; the CCM MAC length is `icvlen` and the GCM tag length is
`icvlen * 8` bits. The nonce is the salt followed by the IV field. -/
theorem c24_aead_associated_data (tok : Token) (sa : ikev2_sa_t) (st st1 : crypt_st)
    (encrypt : Bool) (iv ivlen data datalen icvlen : Nat) (b : Bool)
    (hmode : ikev2_encr_mode sa.encr = MODE_CCM ∨ ikev2_encr_mode sa.encr = MODE_GCM)
    (h : crypt_common tok sa st encrypt iv ivlen data datalen icvlen = .ok (b, st1)) :
    ∃ m rest, ikev2_encr_to_p11 sa.encr = .ok m ∧
      st1.calls = st.calls ++
        crypt_init_call encrypt
          ⟨m, if ikev2_encr_mode sa.encr = MODE_CCM then
              mech_param.ccm 0 iv (st.pkt.pkt_raw.take iv)
                (sa.salt.take sa.saltlen ++ rdN st.pkt.pkt_raw iv ivlen) icvlen
            else
              mech_param.gcm 0 iv (st.pkt.pkt_raw.take iv)
                (sa.salt.take sa.saltlen ++ rdN st.pkt.pkt_raw iv ivlen) (icvlen * 8)⟩
          (encr_key sa) :: rest := by
  obtain ⟨m, raw, hm, hcalls, _, _, _⟩ := crypt_common_inv _ _ _ _ _ _ _ _ _ _ _ h
  have hparam : crypt_param sa st.pkt.pkt_raw iv ivlen icvlen =
      if ikev2_encr_mode sa.encr = MODE_CCM then
        mech_param.ccm 0 iv (st.pkt.pkt_raw.take iv)
          (sa.salt.take sa.saltlen ++ rdN st.pkt.pkt_raw iv ivlen) icvlen
      else
        mech_param.gcm 0 iv (st.pkt.pkt_raw.take iv)
          (sa.salt.take sa.saltlen ++ rdN st.pkt.pkt_raw iv ivlen) (icvlen * 8) := by
    unfold crypt_param
    rcases hmode with hc | hg
    · rw [hc, if_pos rfl]
      simp [rdN]
    · rw [hg, if_neg (by decide)]
      simp [rdN]
  rw [hparam] at hcalls
  rcases hcalls with hc | hc
  · exact ⟨m, [], hm, hc⟩
  · exact ⟨m, _, hm, hc⟩

/-- Witness of C24: `sample_open_pkt` opened under AES-GCM-16 with `yes_token`; the
associated data are the 32 octets of the IKE header and the SK generic header, the tag has
128 bits. -/
theorem c24_aead_associated_data_witness :
    crypt_common yes_token sample_sa_gcm ⟨sample_open_pkt, []⟩ false 32 16 48 32 16 =
      .ok (true, sample_gcm_opened) ∧
    sample_gcm_opened.calls.head? = some (p11_call.DecryptInit
      ⟨CKM_AES_GCM, mech_param.gcm 0 32 (sample_open_pkt.pkt_raw.take 32)
        ([9, 8, 7, 6] ++ List.replicate 16 0) 128⟩ 1) ∧
    ∃ m rest, ikev2_encr_to_p11 sample_sa_gcm.encr = .ok m ∧
      sample_gcm_opened.calls = ([] : List p11_call) ++
        crypt_init_call false
          ⟨m, if ikev2_encr_mode sample_sa_gcm.encr = MODE_CCM then
              mech_param.ccm 0 32 (sample_open_pkt.pkt_raw.take 32)
                (sample_sa_gcm.salt.take sample_sa_gcm.saltlen ++
                  rdN sample_open_pkt.pkt_raw 32 16) 16
            else
              mech_param.gcm 0 32 (sample_open_pkt.pkt_raw.take 32)
                (sample_sa_gcm.salt.take sample_sa_gcm.saltlen ++
                  rdN sample_open_pkt.pkt_raw 32 16) (16 * 8)⟩
          (encr_key sample_sa_gcm) :: rest :=
  ⟨rfl, rfl,
    c24_aead_associated_data yes_token sample_sa_gcm ⟨sample_open_pkt, []⟩ sample_gcm_opened
      false 32 16 48 32 16 true (Or.inr rfl) rfl⟩

/-- The token calls of `cbc_iv` are `C_EncryptInit` and `C_Encrypt` on its local block; it
does not sign. -/
theorem cbc_iv_calls (tok : Token) (sa : ikev2_sa_t) (st st1 : crypt_st) (ivp : Nat) (b : Bool)
    (h : cbc_iv tok sa st ivp = .ok (b, st1)) :
    ∃ cs, st1.calls = st.calls ++ cs ∧ ∀ d n i, p11_call.Sign d n i ∉ cs := by
  unfold cbc_iv at h
  dsimp only at h
  split at h
  · cases h
  · rename_i mech blocklen hsel
    split_ifs at h with h1 h2 h3 h4
    all_goals simp only [Except.ok.injEq, Prod.mk.injEq] at h
    · obtain ⟨_, rfl⟩ := h
      exact ⟨[], by simp, by simp⟩
    · obtain ⟨_, rfl⟩ := h
      exact ⟨_, rfl, by simp⟩
    · obtain ⟨_, rfl⟩ := h
      exact ⟨_, List.append_assoc _ _ _, by simp⟩
    · obtain ⟨_, rfl⟩ := h
      exact ⟨_, List.append_assoc _ _ _, by simp⟩

/-- In front of its call of `crypt_common`, `encrypt_payloads` does not ask the token to
sign. -/
theorem encrypt_payloads_to_cipher_no_sign (tok : Token) (debug : Bool) (pkt : pkt_t)
    (buf : Nat) (p : sk_close_progress)
    (h : encrypt_payloads_to_cipher tok debug pkt buf = .ok p) :
    ∀ d n i, p11_call.Sign d n i ∉ p.state.calls := by
  obtain ⟨psa, raw, ptr, hdr, pl, pc, nl, nc⟩ := pkt
  unfold encrypt_payloads_to_cipher at h
  cases psa with
  | none => cases h
  | some sa =>
    dsimp only at h
    cases hicv : ikev2_auth_icv_size debug sa.encr sa.auth with
    | error e => rw [hicv] at h; cases h
    | ok icvlen =>
      rw [hicv] at h
      dsimp only at h
      by_cases h1 : ¬ (buf + sizeof_ike_payload_t + ikev2_encr_iv_size sa.encr ≥ ptr)
      · rw [if_pos h1] at h; cases h
      rw [if_neg h1] at h
      by_cases h2 : ikev2_encr_block_size sa.encr = 0
      · rw [if_pos h2] at h; cases h
      rw [if_neg h2] at h
      split at h
      · simp only [Except.ok.injEq] at h
        subst h
        simp [sk_close_progress.state]
      split at h
      · cases h
      by_cases h5 : ikev2_encr_mode sa.encr = MODE_CBC
      · rw [if_pos h5] at h
        split at h
        · cases h
        · rename_i st1 hiv
          obtain ⟨cs, hcs, hno⟩ := cbc_iv_calls _ _ _ _ _ _ hiv
          simp only [Except.ok.injEq] at h
          subst h
          intro d n i
          simp only [sk_close_progress.state, hcs, List.nil_append]
          exact hno d n i
        · rename_i st1 hiv
          obtain ⟨cs, hcs, hno⟩ := cbc_iv_calls _ _ _ _ _ _ hiv
          simp only [Except.ok.injEq] at h
          subst h
          intro d n i
          simp only [sk_close_progress.state, hcs, List.nil_append]
          exact hno d n i
      · rw [if_neg h5] at h
        dsimp only at h
        simp only [Except.ok.injEq] at h
        subst h
        simp [sk_close_progress.state]

/-- From its call of `crypt_common` on, `encrypt_payloads` leaves the cursor where it is
and the buffer in front of the plaintext as it is, and the only request to sign that it
makes is over the octets from the start of the buffer up to the ICV. -/
theorem encrypt_payloads_from_cipher_inv (tok : Token) (debug : Bool) (sa : ikev2_sa_t)
    (fr : sk_close_t) (r : Bool) (st : crypt_st)
    (h : encrypt_payloads_from_cipher tok debug sa fr = .ok (r, st)) :
    st.pkt.pkt_ptr = fr.st.pkt.pkt_ptr ∧
    st.pkt.pkt_header = fr.st.pkt.pkt_header ∧
    st.pkt.pkt_raw.length = fr.st.pkt.pkt_raw.length ∧
    (∀ j, j < fr.data → j < fr.icv → st.pkt.pkt_raw[j]? = fr.st.pkt.pkt_raw[j]?) ∧
    (∀ d n i, p11_call.Sign d n i ∈ st.calls →
      p11_call.Sign d n i ∈ fr.st.calls ∨ (d = 0 ∧ n = fr.icv ∧ i = fr.icv)) := by
  unfold encrypt_payloads_from_cipher at h
  have hnoS : ∀ (e : Bool) m k d n i, p11_call.Sign d n i ≠ crypt_init_call e m k := by
    intro e m k d n i; cases e <;> simp [crypt_init_call]
  have hnoD : ∀ (e : Bool) a c d n i, p11_call.Sign d n i ≠ crypt_data_call e a c := by
    intro e a c d n i; cases e <;> simp [crypt_data_call]
  have hcrypt : ∀ b st3,
      crypt_common tok sa fr.st true fr.iv fr.ivlen fr.data fr.datalen fr.icvlen = .ok (b, st3) →
      st3.pkt.pkt_ptr = fr.st.pkt.pkt_ptr ∧ st3.pkt.pkt_header = fr.st.pkt.pkt_header ∧
      st3.pkt.pkt_raw.length = fr.st.pkt.pkt_raw.length ∧
      (∀ j, j < fr.data → st3.pkt.pkt_raw[j]? = fr.st.pkt.pkt_raw[j]?) ∧
      (∀ d n i, p11_call.Sign d n i ∈ st3.calls → p11_call.Sign d n i ∈ fr.st.calls) := by
    intro b st3 hc
    obtain ⟨m, raw, _, hcalls, hpkt, hlen, hraw⟩ := crypt_common_inv _ _ _ _ _ _ _ _ _ _ _ hc
    refine ⟨by rw [hpkt], by rw [hpkt], by rw [hpkt]; exact hlen, by rw [hpkt]; exact hraw, ?_⟩
    intro d n i hmem
    rcases hcalls with hc1 | hc1
    · rw [hc1] at hmem
      simp only [List.mem_append, List.mem_singleton] at hmem
      rcases hmem with hm | hm
      · exact hm
      · exact absurd hm (hnoS _ _ _ _ _ _)
    · rw [hc1] at hmem
      simp only [List.mem_append, List.mem_cons, List.mem_singleton, List.not_mem_nil,
        or_false] at hmem
      rcases hmem with hm | hm | hm
      · exact hm
      · exact absurd hm (hnoS _ _ _ _ _ _)
      · exact absurd hm (hnoD _ _ _ _ _ _)
  have hauth : ∀ b st3 st4, auth_common tok debug sa st3 true fr.icv fr.icvlen = .ok (b, st4) →
      st4.pkt.pkt_ptr = st3.pkt.pkt_ptr ∧ st4.pkt.pkt_header = st3.pkt.pkt_header ∧
      st4.pkt.pkt_raw.length = st3.pkt.pkt_raw.length ∧
      (∀ j, j < fr.icv → st4.pkt.pkt_raw[j]? = st3.pkt.pkt_raw[j]?) ∧
      (∀ d n i, p11_call.Sign d n i ∈ st4.calls →
        p11_call.Sign d n i ∈ st3.calls ∨ (d = 0 ∧ n = fr.icv ∧ i = fr.icv)) := by
    intro b st3 st4 ha
    obtain ⟨raw, hcalls, hpkt, hlen, hraw⟩ := auth_common_inv _ _ _ _ _ _ _ _ _ ha
    refine ⟨by rw [hpkt], by rw [hpkt], by rw [hpkt]; exact hlen, by rw [hpkt]; exact hraw, ?_⟩
    intro d n i hmem
    rcases hcalls with hc1 | hc1
    · rw [hc1] at hmem
      simp only [List.mem_append, List.mem_singleton, auth_init_call, if_true] at hmem
      rcases hmem with hm | hm
      · exact Or.inl hm
      · cases hm
    · rw [hc1] at hmem
      simp only [List.mem_append, List.mem_cons, List.mem_singleton, List.not_mem_nil,
        or_false, auth_init_call, auth_data_call, if_true] at hmem
      rcases hmem with hm | hm | hm
      · exact Or.inl hm
      · cases hm
      · simp only [p11_call.Sign.injEq] at hm
        exact Or.inr hm
  split at h
  · cases h
  · rename_i st3 hc
    simp only [Except.ok.injEq, Prod.mk.injEq] at h
    obtain ⟨_, rfl⟩ := h
    obtain ⟨h1, h2, h3, h4, h5⟩ := hcrypt _ _ hc
    exact ⟨h1, h2, h3, fun j hj _ => h4 j hj, fun d n i hm => Or.inl (h5 d n i hm)⟩
  · rename_i st3 hc
    obtain ⟨h1, h2, h3, h4, h5⟩ := hcrypt _ _ hc
    split_ifs at h with hmode
    · simp only [Except.ok.injEq, Prod.mk.injEq] at h
      obtain ⟨_, rfl⟩ := h
      exact ⟨h1, h2, h3, fun j hj _ => h4 j hj, fun d n i hm => Or.inl (h5 d n i hm)⟩
    · split at h
      · cases h
      · rename_i st4 ha
        simp only [Except.ok.injEq, Prod.mk.injEq] at h
        obtain ⟨_, rfl⟩ := h
        obtain ⟨g1, g2, g3, g4, g5⟩ := hauth _ _ _ ha
        refine ⟨g1.trans h1, g2.trans h2, g3.trans h3,
          fun j hj hj2 => (g4 j hj2).trans (h4 j hj), ?_⟩
        intro d n i hm
        rcases g5 d n i hm with hh | hh
        · exact Or.inl (h5 d n i hh)
        · exact Or.inr hh
      · rename_i st4 ha
        simp only [Except.ok.injEq, Prod.mk.injEq] at h
        obtain ⟨_, rfl⟩ := h
        obtain ⟨g1, g2, g3, g4, g5⟩ := hauth _ _ _ ha
        refine ⟨g1.trans h1, g2.trans h2, g3.trans h3,
          fun j hj hj2 => (g4 j hj2).trans (h4 j hj), ?_⟩
        intro d n i hm
        rcases g5 d n i hm with hh | hh
        · exact Or.inl (h5 d n i hh)
        · exact Or.inr hh

theorem ikev2_encr_iv_size_le (encr : ikev2_xf_encr_t) : ikev2_encr_iv_size encr ≤ 16 := by
  cases encr <;> decide

theorem ikev2_auth_icv_size_le (debug : Bool) (encr : ikev2_xf_encr_t) (auth : ikev2_xf_auth_t)
    (n : Nat) (h : ikev2_auth_icv_size debug encr auth = .ok n) : n ≤ 32 := by
  have haead : ∀ k, k ≤ 32 → aead_icv_size debug auth k = .ok n → n ≤ 32 := by
    intro k hk hh
    unfold aead_icv_size at hh
    split at hh
    · cases hh
    · cases hh; exact hk
  have hauth : auth_icv_size_of_auth auth ≤ 32 := by cases auth <;> decide
  unfold ikev2_auth_icv_size at h
  split at h
  all_goals first
    | exact haead _ (by decide) h
    | (cases h; exact hauth)

/-- The indexing at the end of `ikev2_pkt_decrypt` makes no token call. -/
theorem ikev2_pkt_decrypt_index_calls (debug : Bool) (sa : ikev2_sa_t) (st st1 : crypt_st)
    (fr : sk_open_t) (r : Bool) (h : ikev2_pkt_decrypt_index debug sa st fr = .ok (r, st1)) :
    st1.calls = st.calls := by
  unfold ikev2_pkt_decrypt_index at h
  dsimp only at h
  split_ifs at h
  · simp only [Except.ok.injEq, Prod.mk.injEq] at h
    rw [← h.2]
  · split at h
    · simp only [Except.ok.injEq, Prod.mk.injEq] at h
      rw [← h.2]
    · split at h
      · simp only [Except.ok.injEq, Prod.mk.injEq] at h
        rw [← h.2]
      · split at h
        · simp only [Except.ok.injEq, Prod.mk.injEq] at h
          rw [← h.2]
        · split at h
          · cases h
          · simp only [Except.ok.injEq, Prod.mk.injEq] at h
            rw [← h.2]

/-- What the split of the SK body in `ikev2_pkt_decrypt` yields: the IV starts the body of
the first SK entry of the index, and the ICV ends where that body ends. -/
theorem ikev2_pkt_decrypt_layout_inv (debug : Bool) (pkt : pkt_t) (sa : ikev2_sa_t)
    (fr : sk_open_t) (h : ikev2_pkt_decrypt_layout debug pkt sa = .ok (some fr)) :
    ∃ p l, find_sk_payload pkt pkt.pkt_payload_count 0 = some (p, l) ∧
      ikev2_auth_icv_size debug sa.encr sa.auth = .ok fr.icvlen ∧
      fr.ivlen = ikev2_encr_iv_size sa.encr ∧
      fr.iv = p ∧ fr.data = p + fr.ivlen ∧
      fr.icvlen + fr.icvlen + 1 < l ∧
      (fr.icv + fr.icvlen) % ULONG_MOD = (p + l) % ULONG_MOD := by
  unfold ikev2_pkt_decrypt_layout at h
  dsimp only at h
  split_ifs at h with h1
  cases hicv : ikev2_auth_icv_size debug sa.encr sa.auth with
  | error e => rw [hicv] at h; cases h
  | ok icvlen =>
    rw [hicv] at h
    dsimp only at h
    have hiv := ikev2_encr_iv_size_le sa.encr
    have hic := ikev2_auth_icv_size_le _ _ _ _ hicv
    cases hf : find_sk_payload pkt pkt.pkt_payload_count 0 with
    | none =>
      rw [hf] at h
      dsimp only at h
      rw [if_pos (by omega)] at h
      cases h
    | some r =>
      obtain ⟨p, l⟩ := r
      rw [hf] at h
      dsimp only at h
      split_ifs at h with h2
      · cases h
      simp only [Except.ok.injEq, Option.some.injEq] at h
      subst h
      refine ⟨p, l, rfl, rfl, rfl, rfl, rfl, by dsimp only; omega, ?_⟩
      dsimp only
      unfold ULONG_MOD
      omega

/-- The only request to verify that `ikev2_pkt_decrypt` makes is over the octets from the
start of the buffer up to the ICV that the split of the SK body found. -/
theorem ikev2_pkt_decrypt_verify_call (tok : Token) (debug : Bool) (pkt : pkt_t) (r : Bool)
    (st : crypt_st) (h : ikev2_pkt_decrypt tok debug pkt = .ok (r, st))
    (d n i il : Nat) (hmem : p11_call.Verify d n i il ∈ st.calls) :
    ∃ sa fr, pkt.pkt_sa = some sa ∧ ikev2_pkt_decrypt_layout debug pkt sa = .ok (some fr) ∧
      d = 0 ∧ n = fr.icv ∧ i = fr.icv ∧ il = fr.icvlen := by
  unfold ikev2_pkt_decrypt at h
  cases hsa : pkt.pkt_sa with
  | none => rw [hsa] at h; cases h
  | some sa =>
    rw [hsa] at h
    dsimp only at h
    have hnoI : ∀ (e : Bool) m k, p11_call.Verify d n i il ≠ crypt_init_call e m k := by
      intro e m k; cases e <;> simp [crypt_init_call]
    have hnoD : ∀ (e : Bool) a c, p11_call.Verify d n i il ≠ crypt_data_call e a c := by
      intro e a c; cases e <;> simp [crypt_data_call]
    cases hlay : ikev2_pkt_decrypt_layout debug pkt sa with
    | error e => rw [hlay] at h; cases h
    | ok o =>
      cases o with
      | none =>
        rw [hlay] at h
        simp only [Except.ok.injEq, Prod.mk.injEq] at h
        obtain ⟨_, rfl⟩ := h
        simp at hmem
      | some fr =>
        rw [hlay] at h
        dsimp only at h
        refine ⟨sa, fr, rfl, hlay, ?_⟩
        have hauth : ∀ b st1, ikev2_pkt_decrypt_auth tok debug sa pkt fr = .ok (b, st1) →
            p11_call.Verify d n i il ∈ st1.calls →
            d = 0 ∧ n = fr.icv ∧ i = fr.icv ∧ il = fr.icvlen := by
          intro b st1 ha hm
          unfold ikev2_pkt_decrypt_auth at ha
          split_ifs at ha
          · obtain ⟨raw, hcalls, _, _, _⟩ := auth_common_inv _ _ _ _ _ _ _ _ _ ha
            rcases hcalls with hc | hc
            · rw [hc] at hm
              simp [auth_init_call] at hm
            · rw [hc] at hm
              simp only [List.nil_append, List.mem_cons, List.mem_singleton, List.not_mem_nil,
                or_false, auth_init_call, auth_data_call] at hm
              rcases hm with hm | hm
              · simp at hm
              · simp only [Bool.false_eq_true, if_false, p11_call.Verify.injEq] at hm
                exact hm
          · simp only [Except.ok.injEq, Prod.mk.injEq] at ha
            obtain ⟨_, rfl⟩ := ha
            simp at hm
        have hcrypt : ∀ b st1 st2,
            crypt_common tok sa st1 false fr.iv fr.ivlen fr.data fr.datalen fr.icvlen =
              .ok (b, st2) →
            p11_call.Verify d n i il ∈ st2.calls → p11_call.Verify d n i il ∈ st1.calls := by
          intro b st1 st2 hc hm
          obtain ⟨m, raw, _, hcalls, _, _, _⟩ := crypt_common_inv _ _ _ _ _ _ _ _ _ _ _ hc
          rcases hcalls with hc1 | hc1
          · rw [hc1] at hm
            simp only [List.mem_append, List.mem_singleton] at hm
            rcases hm with hm | hm
            · exact hm
            · exact absurd hm (hnoI _ _ _)
          · rw [hc1] at hm
            simp only [List.mem_append, List.mem_cons, List.mem_singleton, List.not_mem_nil,
              or_false] at hm
            rcases hm with hm | hm | hm
            · exact hm
            · exact absurd hm (hnoI _ _ _)
            · exact absurd hm (hnoD _ _ _)
        split at h
        · cases h
        · rename_i st1 ha
          simp only [Except.ok.injEq, Prod.mk.injEq] at h
          obtain ⟨_, rfl⟩ := h
          exact hauth _ _ ha hmem
        · rename_i st1 ha
          split at h
          · cases h
          · rename_i st2 hc
            simp only [Except.ok.injEq, Prod.mk.injEq] at h
            obtain ⟨_, rfl⟩ := h
            exact hauth _ _ ha (hcrypt _ _ _ hc hmem)
          · rename_i st2 hc
            have hcalls := ikev2_pkt_decrypt_index_calls _ _ _ _ _ _ h
            rw [hcalls] at hmem
            exact hauth _ _ ha (hcrypt _ _ _ hc hmem)

/-- At the cipher call of `encrypt_payloads`, with the SK body starting at or in front of
the cursor and the buffer inside the address space: the Length field of the SK header is
the distance from the SK header to the cursor, and the ICV starts behind the pad-length
octet. -/
theorem sk_extent_at_cipher (tok : Token) (debug : Bool) (pkt : pkt_t) (buf : Nat)
    (fr : sk_close_t)
    (hreach : encrypt_payloads_to_cipher tok debug pkt buf =
      .ok (sk_close_progress.at_cipher fr))
    (hraw : pkt.pkt_raw.length < ULONG_MOD)
    (hbody : buf + sizeof_ike_payload_t + fr.ivlen ≤ pkt.pkt_ptr) :
    rd16 fr.st.pkt.pkt_raw (buf + 2) = (fr.st.pkt.pkt_ptr - buf) % 65536 ∧
    fr.icv = pkt.pkt_ptr + fr.padlen + 1 := by
  obtain ⟨sa, ivbytes, hsa, hicv, hivlen, hiv, hd, hge, hblk, hpad, hleft, hiv4, hdl, hicvo,
    hrp, hivb, hraw3, hptr⟩ := encrypt_payloads_to_cipher_inv tok debug pkt buf fr hreach
  unfold pkt_write_left at hleft
  have h4 : sizeof_ike_payload_t = 4 := rfl
  have hdlt : fr.data < ULONG_MOD := by omega
  have hoff : (fr.data + fr.datalen) % ULONG_MOD = pkt.pkt_ptr + fr.padlen := by
    rw [hdl]
    exact sk_icv_offset _ _ _ hge hdlt (by omega)
  rw [hoff] at hicvo
  refine ⟨?_, hicvo⟩
  rw [hraw3]
  have hlen : buf + 2 + 2 ≤ (wrN fr.raw_padded fr.iv ivbytes).length := by
    rw [wrN_length, hrp, wrN_length, wrN_length]; omega
  rw [rd16_wrN_pair _ _ _ (Nat.mod_lt _ (by decide)) hlen]
  rw [hptr]
  unfold ULONG_MOD
  omega

/-- C23. The MAC input is the same range on send and on receipt. Every `C_Sign` that
`encrypt_payloads` asks for and every `C_Verify` that `ikev2_pkt_decrypt` asks for is over
the octets from the start of the buffer (the first octet of the IKE header) up to the
octet in front of the ICV. On send the ICV ends at the cursor, which is the end of the SK
payload as its Length field has it; on receipt the ICV ends where the body of the indexed
SK payload ends. -/
theorem c23_mac_range_is_header_to_icv (tok : Token) (debug : Bool)
    (pkt : pkt_t) (buf : Nat) (rs : Bool) (sts : crypt_st)
    (hs : encrypt_payloads tok debug pkt buf = .ok (rs, sts))
    (pkt' : pkt_t) (rr : Bool) (str : crypt_st)
    (hr : ikev2_pkt_decrypt tok debug pkt' = .ok (rr, str)) :
    (∀ d n i, p11_call.Sign d n i ∈ sts.calls →
      d = 0 ∧ n = i ∧
      ∃ sa icvlen, pkt.pkt_sa = some sa ∧
        ikev2_auth_icv_size debug sa.encr sa.auth = .ok icvlen ∧
        i + icvlen = sts.pkt.pkt_ptr ∧
        (pkt.pkt_raw.length < ULONG_MOD →
          buf + sizeof_ike_payload_t + ikev2_encr_iv_size sa.encr ≤ pkt.pkt_ptr →
          rd16 sts.pkt.pkt_raw (buf + 2) = (i + icvlen - buf) % 65536)) ∧
    (∀ d n i il, p11_call.Verify d n i il ∈ str.calls →
      d = 0 ∧ n = i ∧
      ∃ sa p l, pkt'.pkt_sa = some sa ∧
        find_sk_payload pkt' pkt'.pkt_payload_count 0 = some (p, l) ∧
        ikev2_auth_icv_size debug sa.encr sa.auth = .ok il ∧
        (i + il) % ULONG_MOD = (p + l) % ULONG_MOD) := by
  constructor
  · intro d n i hmem
    rw [encrypt_payloads_staged] at hs
    cases hp : encrypt_payloads_to_cipher tok debug pkt buf with
    | error e => rw [hp] at hs; cases hs
    | ok p =>
      have hno := encrypt_payloads_to_cipher_no_sign _ _ _ _ _ hp
      cases p with
      | gave_up st =>
        rw [hp] at hs
        simp only [Except.ok.injEq, Prod.mk.injEq] at hs
        obtain ⟨_, rfl⟩ := hs
        exact absurd hmem (hno d n i)
      | at_cipher fr =>
        rw [hp] at hs
        dsimp only at hs
        obtain ⟨sa, ivbytes, hsa, hicv, hivlen, hiv, hd, hge, hblk, hpad, hleft, hiv4, hdl,
          hicvo, hrp, hivb, hraw3, hptr⟩ := encrypt_payloads_to_cipher_inv _ _ _ _ _ hp
        rw [hsa] at hs
        dsimp only at hs
        obtain ⟨g1, _, g3, g4, g5⟩ := encrypt_payloads_from_cipher_inv _ _ _ _ _ _ hs
        rcases g5 d n i hmem with hh | ⟨hd0, hn, hi⟩
        · exact absurd hh (hno d n i)
        · refine ⟨hd0, by rw [hn, hi], sa, fr.icvlen, hsa, hicv, by rw [hi, g1, hptr], ?_⟩
          intro hraw hbody
          rw [← hivlen] at hbody
          obtain ⟨e1, e2⟩ := sk_extent_at_cipher _ _ _ _ _ hp hraw hbody
          have h4 : sizeof_ike_payload_t = 4 := rfl
          have hrd : rd16 sts.pkt.pkt_raw (buf + 2) = rd16 fr.st.pkt.pkt_raw (buf + 2) :=
            rd16_congr _ _ _ (g4 _ (by omega) (by omega)) (g4 _ (by omega) (by omega))
          rw [hrd, e1, hi, hptr]
  · intro d n i il hmem
    obtain ⟨sa, fr, hsa, hlay, hd0, hn, hi, hil⟩ :=
      ikev2_pkt_decrypt_verify_call _ _ _ _ _ hr d n i il hmem
    obtain ⟨p, l, hf, hicv, _, _, _, _, hend⟩ := ikev2_pkt_decrypt_layout_inv _ _ _ _ hlay
    exact ⟨hd0, by rw [hn, hi], sa, p, l, hsa, hf, by rw [hil]; exact hicv,
      by rw [hi, hil]; exact hend⟩

/-- Witness of C23: the sample SK container closed under AES-CBC with HMAC-SHA1-96, whose
`C_Sign` is over the 64 octets in front of the ICV at offset 64, and the inbound sample
packet, whose `C_Verify` is over the 64 octets in front of its ICV at offset 64. -/
theorem c23_mac_range_is_header_to_icv_witness :
    p11_call.Sign 0 64 64 ∈ sample_closed.calls ∧
    p11_call.Verify 0 64 64 12 ∈ sample_opened.calls ∧
    sample_closed.pkt.pkt_ptr = 76 ∧
    (∀ d n i, p11_call.Sign d n i ∈ sample_closed.calls →
      d = 0 ∧ n = i ∧
      ∃ sa icvlen, (sample_out_pkt sample_sa_cbc []).pkt_sa = some sa ∧
        ikev2_auth_icv_size true sa.encr sa.auth = .ok icvlen ∧
        i + icvlen = sample_closed.pkt.pkt_ptr ∧
        ((sample_out_pkt sample_sa_cbc []).pkt_raw.length < ULONG_MOD →
          28 + sizeof_ike_payload_t + ikev2_encr_iv_size sa.encr ≤
            (sample_out_pkt sample_sa_cbc []).pkt_ptr →
          rd16 sample_closed.pkt.pkt_raw (28 + 2) = (i + icvlen - 28) % 65536)) ∧
    (∀ d n i il, p11_call.Verify d n i il ∈ sample_opened.calls →
      d = 0 ∧ n = i ∧
      ∃ sa p l,
        (sample_in_pkt sample_sa_cbc IKEV2_PAYLOAD_IDi
          (sample_inner_idi ++ [3, 3, 3, 3])).pkt_sa = some sa ∧
        find_sk_payload
          (sample_in_pkt sample_sa_cbc IKEV2_PAYLOAD_IDi (sample_inner_idi ++ [3, 3, 3, 3]))
          (sample_in_pkt sample_sa_cbc IKEV2_PAYLOAD_IDi
            (sample_inner_idi ++ [3, 3, 3, 3])).pkt_payload_count 0 = some (p, l) ∧
        ikev2_auth_icv_size true sa.encr sa.auth = .ok il ∧
        (i + il) % ULONG_MOD = (p + l) % ULONG_MOD) :=
  ⟨by decide, by decide, rfl,
    c23_mac_range_is_header_to_icv toy_token true (sample_out_pkt sample_sa_cbc []) 28 true
      sample_closed rfl
      (sample_in_pkt sample_sa_cbc IKEV2_PAYLOAD_IDi (sample_inner_idi ++ [3, 3, 3, 3])) true
      sample_opened rfl⟩

/-- What `ikev2_add_sk` has done when it returns `B_TRUE`: there was room for the header,
the IV, the ICV and one block; the SK container is on the stack with the old cursor as its
offset; the cursor is behind the generic header and the IV field, and the IV field is
zero. -/
theorem ikev2_add_sk_inv (debug : Bool) (b b1 : build_st)
    (h : ikev2_add_sk debug b = .ok (true, b1)) :
    ∃ sa icvlen, b.pkt.pkt_sa = some sa ∧
      ikev2_auth_icv_size debug sa.encr sa.auth = .ok icvlen ∧
      b.pkt.pkt_ptr + (sizeof_ikev2_payload_t + ikev2_encr_iv_size sa.encr + icvlen +
        ikev2_encr_block_size sa.encr) ≤ b.pkt.pkt_raw.length ∧
      b1.stack = ⟨pkt_stack_item_t.PSI_SK, pkt_finish_fn.encrypt_payloads_fn, b.pkt.pkt_ptr,
        0, 0⟩ :: b.stack ∧
      b1.pkt.pkt_sa = some sa ∧
      b1.pkt.pkt_header = b.pkt.pkt_header ∧
      b1.pkt.pkt_raw.length = b.pkt.pkt_raw.length ∧
      b1.pkt.pkt_ptr = b.pkt.pkt_ptr + sizeof_ike_payload_t + ikev2_encr_iv_size sa.encr ∧
      ∀ j, j < ikev2_encr_iv_size sa.encr →
        b1.pkt.pkt_raw[b.pkt.pkt_ptr + sizeof_ike_payload_t + j]? = some 0 := by
  unfold ikev2_add_sk at h
  cases hsa : b.pkt.pkt_sa with
  | none => rw [hsa] at h; cases h
  | some sa =>
    rw [hsa] at h
    dsimp only at h
    cases hicv : ikev2_auth_icv_size debug sa.encr sa.auth with
    | error e => rw [hicv] at h; cases h
    | ok icvlen =>
      rw [hicv] at h
      dsimp only at h
      have h4 : sizeof_ike_payload_t = 4 := rfl
      have h4' : sizeof_ikev2_payload_t = 4 := rfl
      by_cases hroom : pkt_write_left b.pkt < sizeof_ikev2_payload_t +
          ikev2_encr_iv_size sa.encr + icvlen + ikev2_encr_block_size sa.encr
      · rw [if_pos hroom] at h
        simp at h
      rw [if_neg hroom] at h
      unfold pkt_write_left at hroom
      unfold ikev2_add_payload pkt_add_payload pkt_stack_push pkt_write_left at h
      dsimp only at h
      rw [if_neg (by intro hc; exact hc.2 (by decide))] at h
      rw [if_neg (by intro hc; exact hc.2 (by omega))] at h
      rw [if_neg (by omega)] at h
      dsimp only at h
      simp only [Except.ok.injEq, Prod.mk.injEq, true_and] at h
      subst h
      refine ⟨sa, icvlen, rfl, hicv, by omega, rfl, hsa, rfl, ?_, rfl, ?_⟩
      · dsimp only
        rw [wrN_length, wrN_length, wrN_length]
      · intro j hj
        dsimp only
        rw [wrN_getElem?, List.length_replicate, wrN_length, wrN_length,
          if_pos ⟨by omega, by omega, by omega⟩]
        exact getElem?_replicate_lt _ _ _ (by omega)

/-- For a cipher that is not of mode CBC, the octets that `encrypt_payloads` stores into
the IV field in front of the cipher call are the first four of the message id. -/
theorem encrypt_payloads_to_cipher_msgid (tok : Token) (debug : Bool) (pkt : pkt_t)
    (buf : Nat) (fr : sk_close_t) (sa : ikev2_sa_t) (hsa : pkt.pkt_sa = some sa)
    (hmode : ikev2_encr_mode sa.encr ≠ MODE_CBC)
    (h : encrypt_payloads_to_cipher tok debug pkt buf = .ok (sk_close_progress.at_cipher fr)) :
    fr.st.pkt.pkt_raw = wrN (wrN fr.raw_padded fr.iv (pkt.pkt_header.msgid.take 4)) (buf + 2)
      [(fr.icv + fr.icvlen + ULONG_MOD - buf) % 65536 / 256,
       (fr.icv + fr.icvlen + ULONG_MOD - buf) % 65536 % 256] := by
  obtain ⟨psa, raw, ptr, hdr, pl, pc, nl, nc⟩ := pkt
  dsimp only at hsa
  subst hsa
  unfold encrypt_payloads_to_cipher at h
  dsimp only at h
  cases hicv : ikev2_auth_icv_size debug sa.encr sa.auth with
  | error e => rw [hicv] at h; cases h
  | ok icvlen =>
    rw [hicv] at h
    dsimp only at h
    by_cases h1 : ¬ (buf + sizeof_ike_payload_t + ikev2_encr_iv_size sa.encr ≥ ptr)
    · rw [if_pos h1] at h; cases h
    rw [if_neg h1] at h
    by_cases h2 : ikev2_encr_block_size sa.encr = 0
    · rw [if_pos h2] at h; cases h
    rw [if_neg h2] at h
    split at h
    · cases h
    split at h
    · cases h
    simp only [Except.ok.injEq, sk_close_progress.at_cipher.injEq] at h
    subst h
    rfl

/-- The IV that an SK container carries when `ikev2_add_sk` opened it and
`encrypt_payloads` closed it with success, for a cipher that is not of mode CBC: the four
octets of the message id and then zero octets. -/
theorem sk_iv_of_closed_container (tok : Token) (debug : Bool) (b b1 : build_st)
    (sa : ikev2_sa_t) (st : crypt_st)
    (hsa : b.pkt.pkt_sa = some sa) (hmode : ikev2_encr_mode sa.encr ≠ MODE_CBC)
    (hadd : ikev2_add_sk debug b = .ok (true, b1))
    (hclose : encrypt_payloads tok debug b1.pkt b.pkt.pkt_ptr = .ok (true, st))
    (hraw : b.pkt.pkt_raw.length < ULONG_MOD)
    (hmsg : b.pkt.pkt_header.msgid.length = 4) :
    rdN st.pkt.pkt_raw (b.pkt.pkt_ptr + sizeof_ike_payload_t) (ikev2_encr_iv_size sa.encr) =
      b.pkt.pkt_header.msgid ++ List.replicate (ikev2_encr_iv_size sa.encr - 4) 0 := by
  obtain ⟨sa', icvlen, hsa', hicv, hroom, _, hsa1, hhdr, hlen1, hptr1, hzero⟩ :=
    ikev2_add_sk_inv _ _ _ hadd
  rw [hsa] at hsa'
  simp only [Option.some.injEq] at hsa'
  subst hsa'
  have h4 : sizeof_ike_payload_t = 4 := rfl
  have h4' : sizeof_ikev2_payload_t = 4 := rfl
  rw [encrypt_payloads_staged] at hclose
  cases hp : encrypt_payloads_to_cipher tok debug b1.pkt b.pkt.pkt_ptr with
  | error e => rw [hp] at hclose; cases hclose
  | ok p =>
    cases p with
    | gave_up st0 =>
      rw [hp] at hclose
      simp at hclose
    | at_cipher fr =>
      rw [hp, hsa1] at hclose
      dsimp only at hclose
      obtain ⟨g1, _, g3, g4, _⟩ := encrypt_payloads_from_cipher_inv _ _ _ _ _ _ hclose
      obtain ⟨sa2, ivbytes, hsa2, hicv2, hivlen, hiv, hd, hge, hblk, hpad, hleft, hiv4, hdl,
        hicvo, hrp, hivb, hraw3, hptr⟩ := encrypt_payloads_to_cipher_inv _ _ _ _ _ hp
      rw [hsa1] at hsa2
      simp only [Option.some.injEq] at hsa2
      subst hsa2
      have hraw4 := encrypt_payloads_to_cipher_msgid _ _ _ _ _ _ hsa1 hmode hp
      obtain ⟨_, hicv1⟩ := sk_extent_at_cipher _ _ _ _ _ hp (by rw [hlen1]; exact hraw)
        (by rw [hivlen, hptr1])
      have htake : b1.pkt.pkt_header.msgid.take 4 = b.pkt.pkt_header.msgid := by
        rw [hhdr]
        exact List.take_of_length_le (by omega)
      rw [htake] at hraw4
      have hoff : (fr.data + fr.datalen) % ULONG_MOD = b1.pkt.pkt_ptr + fr.padlen := by
        rw [hicvo] at hicv1; omega
      rw [hoff] at hrp
      apply List.ext_getElem?
      intro i
      rw [rdN_getElem?]
      by_cases hi : i < ikev2_encr_iv_size sa.encr
      · rw [if_pos hi, g4 _ (by omega) (by omega), hraw4, wrN_getElem?]
        simp only [List.length_cons, List.length_nil]
        rw [if_neg (by omega), wrN_getElem?, hmsg, hiv]
        by_cases hi4 : i < 4
        · rw [if_pos ⟨by omega, by omega, by rw [hrp, wrN_length, wrN_length, hlen1]; omega⟩]
          rw [List.getElem?_append_left (by omega)]
          congr 1
          omega
        · rw [if_neg (by omega), hrp, wrN_getElem?_lt _ _ _ _ (by omega),
            wrN_getElem?_lt _ _ _ _ (by omega)]
          have hz := hzero i hi
          rw [hz, List.getElem?_append_right (by omega), hmsg]
          exact (getElem?_replicate_lt _ _ _ (by omega)).symm
      · rw [if_neg hi]
        symm
        apply List.getElem?_eq_none
        rw [List.length_append, List.length_replicate, hmsg]
        have := ikev2_encr_iv_size_le sa.encr
        omega

/-- C22. For a cipher of mode CTR, CCM or GCM, the IV of an SK container that `ikev2_add_sk`
opened and `encrypt_payloads` closed with success is the four octets of the message id
followed by zero octets up to the IV length; so of two such packets with different message
ids the IVs differ. The buffers are taken to lie in the address space and the message id to
have its four octets. -/
theorem c22_iv_is_message_id (tok : Token) (debug : Bool)
    (b b1 : build_st) (sa : ikev2_sa_t) (st : crypt_st)
    (hsa : b.pkt.pkt_sa = some sa)
    (hmode : ikev2_encr_mode sa.encr = MODE_CTR ∨ ikev2_encr_mode sa.encr = MODE_CCM ∨
      ikev2_encr_mode sa.encr = MODE_GCM)
    (hadd : ikev2_add_sk debug b = .ok (true, b1))
    (hclose : encrypt_payloads tok debug b1.pkt b.pkt.pkt_ptr = .ok (true, st))
    (hraw : b.pkt.pkt_raw.length < ULONG_MOD)
    (hmsg : b.pkt.pkt_header.msgid.length = 4)
    (b' b1' : build_st) (sa' : ikev2_sa_t) (st' : crypt_st)
    (hsa' : b'.pkt.pkt_sa = some sa')
    (hmode' : ikev2_encr_mode sa'.encr = MODE_CTR ∨ ikev2_encr_mode sa'.encr = MODE_CCM ∨
      ikev2_encr_mode sa'.encr = MODE_GCM)
    (hadd' : ikev2_add_sk debug b' = .ok (true, b1'))
    (hclose' : encrypt_payloads tok debug b1'.pkt b'.pkt.pkt_ptr = .ok (true, st'))
    (hraw' : b'.pkt.pkt_raw.length < ULONG_MOD)
    (hmsg' : b'.pkt.pkt_header.msgid.length = 4) :
    rdN st.pkt.pkt_raw (b.pkt.pkt_ptr + sizeof_ike_payload_t) (ikev2_encr_iv_size sa.encr) =
      b.pkt.pkt_header.msgid ++ List.replicate (ikev2_encr_iv_size sa.encr - 4) 0 ∧
    rdN st'.pkt.pkt_raw (b'.pkt.pkt_ptr + sizeof_ike_payload_t) (ikev2_encr_iv_size sa'.encr) =
      b'.pkt.pkt_header.msgid ++ List.replicate (ikev2_encr_iv_size sa'.encr - 4) 0 ∧
    (b.pkt.pkt_header.msgid ≠ b'.pkt.pkt_header.msgid →
      rdN st.pkt.pkt_raw (b.pkt.pkt_ptr + sizeof_ike_payload_t) (ikev2_encr_iv_size sa.encr) ≠
        rdN st'.pkt.pkt_raw (b'.pkt.pkt_ptr + sizeof_ike_payload_t)
          (ikev2_encr_iv_size sa'.encr)) := by
  have hm : ikev2_encr_mode sa.encr ≠ MODE_CBC := by
    rcases hmode with h | h | h <;> rw [h] <;> decide
  have hm' : ikev2_encr_mode sa'.encr ≠ MODE_CBC := by
    rcases hmode' with h | h | h <;> rw [h] <;> decide
  have e1 := sk_iv_of_closed_container tok debug b b1 sa st hsa hm hadd hclose hraw hmsg
  have e2 := sk_iv_of_closed_container tok debug b' b1' sa' st' hsa' hm' hadd' hclose' hraw'
    hmsg'
  refine ⟨e1, e2, ?_⟩
  intro hne heq
  rw [e1, e2] at heq
  exact hne (List.append_inj heq (by rw [hmsg, hmsg'])).1

/-- Witness of C22: two fresh packets under AES-CTR with the message ids 1 and 2, each with
an SK container opened at offset 28 and closed right away with `toy_token`; the IVs at
offset 32 are the message id and twelve zero octets. -/
theorem c22_iv_is_message_id_witness :
    rdN (sample_sk_closed [0, 0, 0, 1]).pkt.pkt_raw 32 16 =
      [0, 0, 0, 1, 0, 0, 0, 0, 0, 0, 0, 0, 0, 0, 0, 0] ∧
    rdN (sample_sk_closed [0, 0, 0, 2]).pkt.pkt_raw 32 16 =
      [0, 0, 0, 2, 0, 0, 0, 0, 0, 0, 0, 0, 0, 0, 0, 0] ∧
    (rdN (sample_sk_closed [0, 0, 0, 1]).pkt.pkt_raw
        ((sample_build sample_sa_ctr [0, 0, 0, 1]).pkt.pkt_ptr + sizeof_ike_payload_t)
        (ikev2_encr_iv_size sample_sa_ctr.encr) =
      (sample_build sample_sa_ctr [0, 0, 0, 1]).pkt.pkt_header.msgid ++
        List.replicate (ikev2_encr_iv_size sample_sa_ctr.encr - 4) 0 ∧
    rdN (sample_sk_closed [0, 0, 0, 2]).pkt.pkt_raw
        ((sample_build sample_sa_ctr [0, 0, 0, 2]).pkt.pkt_ptr + sizeof_ike_payload_t)
        (ikev2_encr_iv_size sample_sa_ctr.encr) =
      (sample_build sample_sa_ctr [0, 0, 0, 2]).pkt.pkt_header.msgid ++
        List.replicate (ikev2_encr_iv_size sample_sa_ctr.encr - 4) 0 ∧
    ((sample_build sample_sa_ctr [0, 0, 0, 1]).pkt.pkt_header.msgid ≠
        (sample_build sample_sa_ctr [0, 0, 0, 2]).pkt.pkt_header.msgid →
      rdN (sample_sk_closed [0, 0, 0, 1]).pkt.pkt_raw
          ((sample_build sample_sa_ctr [0, 0, 0, 1]).pkt.pkt_ptr + sizeof_ike_payload_t)
          (ikev2_encr_iv_size sample_sa_ctr.encr) ≠
        rdN (sample_sk_closed [0, 0, 0, 2]).pkt.pkt_raw
          ((sample_build sample_sa_ctr [0, 0, 0, 2]).pkt.pkt_ptr + sizeof_ike_payload_t)
          (ikev2_encr_iv_size sample_sa_ctr.encr))) :=
  ⟨by decide, by decide,
    c22_iv_is_message_id toy_token true
      (sample_build sample_sa_ctr [0, 0, 0, 1]) (sample_sk_open [0, 0, 0, 1]) sample_sa_ctr
      (sample_sk_closed [0, 0, 0, 1]) rfl (Or.inl rfl) rfl rfl (by decide) (by decide)
      (sample_build sample_sa_ctr [0, 0, 0, 2]) (sample_sk_open [0, 0, 0, 2]) sample_sa_ctr
      (sample_sk_closed [0, 0, 0, 2]) rfl (Or.inl rfl) rfl rfl (by decide) (by decide)⟩

/-! ## Claims about the encryption transforms -/

theorem xf_encr_pairs_eq (encr : ikev2_xf_encr_t) (incr : Nat) :
    ∀ n bits, xf_encr_pairs encr incr n bits =
      (List.range n).flatMap (fun k =>
        [xf_item.xform IKEV2_XF_ENCR (encr_id encr),
         xf_item.attr_tv IKEV2_XF_ATTR_KEYLEN (bits + incr * k)]) := by
  intro n
  induction n with
  | zero => intro bits; rfl
  | succ n ih =>
    intro bits
    rw [xf_encr_pairs, ih, List.range_succ_eq_map, List.flatMap_cons, List.flatMap_map]
    simp only [Nat.mul_zero, Nat.add_zero, List.cons_append, List.nil_append, List.cons.injEq,
      true_and]
    congr 1
    funext k
    simp only [Nat.succ_eq_add_one, List.cons.injEq, xf_item.attr_tv.injEq, true_and,
      and_true]
    rw [Nat.mul_add, Nat.mul_one]
    omega

/-- One round of the loop of `ikev2_add_xf_encr` for a key length that fits 16 bits: the
transform and its KEYLEN attribute are asked for, whatever the answers are. -/
theorem xf_encr_pair_eq (ops : xf_ops) (debug : Bool) (encr : ikev2_xf_encr_t) (bits : Nat)
    (ok : Bool) (st : xf_st) (hbits : bits < 65536) :
    ∃ r1 r2 b2, xf_encr_pair ops debug encr bits ok st =
      .ok (ok && r1 && r2, ⟨b2, st.calls ++
        [(xf_item.xform IKEV2_XF_ENCR (encr_id encr), r1),
         (xf_item.attr_tv IKEV2_XF_ATTR_KEYLEN bits, r2)]⟩) := by
  unfold xf_encr_pair ikev2_add_xf_attr ikev2_add_xform
  dsimp only
  rw [if_pos rfl, if_neg (by intro hc; exact hc.2 (by omega)), Nat.mod_eq_of_lt hbits]
  exact ⟨_, _, _, by rw [List.append_assoc]; rfl⟩

/-- The loop of `ikev2_add_xf_encr` with the step 64 comes to an end: when `n` rounds are
due from `bits` on, it asks for `n` transforms with their KEYLEN attributes, the key
lengths going up in steps of 64, and it returns the conjunction of the answers. -/
theorem xf_encr_loop_64 (ops : xf_ops) (debug : Bool) (encr : ikev2_xf_encr_t)
    (maxbits : Nat) (hmax : maxbits < 65536) :
    ∀ (n fuel bits : Nat) (ok : Bool) (st : xf_st), n < fuel →
      (n = 0 → maxbits < bits) →
      (0 < n → bits + 64 * (n - 1) ≤ maxbits ∧ maxbits < bits + 64 * n) →
      ∃ (new : List (xf_item × Bool)) (b1 : build_st),
        xf_encr_loop ops debug encr 64 maxbits fuel bits ok st =
          some (.ok (ok && new.all Prod.snd, ⟨b1, st.calls ++ new⟩)) ∧
        new.map Prod.fst = xf_encr_pairs encr 64 n bits := by
  intro n
  induction n with
  | zero =>
    intro fuel bits ok st hfuel h0 _
    obtain ⟨f, rfl⟩ : ∃ f, fuel = f + 1 := ⟨fuel - 1, by omega⟩
    refine ⟨[], st.b, ?_, rfl⟩
    rw [xf_encr_loop, if_neg (by have := h0 rfl; omega)]
    simp
  | succ n ih =>
    intro fuel bits ok st hfuel _ h1
    obtain ⟨f, rfl⟩ : ∃ f, fuel = f + 1 := ⟨fuel - 1, by omega⟩
    obtain ⟨hle, hgt⟩ := h1 (by omega)
    have hb : bits ≤ maxbits := by omega
    obtain ⟨r1, r2, b2, hpair⟩ := xf_encr_pair_eq ops debug encr bits ok st (by omega)
    have hnext : (bits + 64) % ULONG_MOD = bits + 64 := by
      unfold ULONG_MOD; omega
    obtain ⟨new, b1, hloop, hnew⟩ := ih f (bits + 64) (ok && r1 && r2)
      ⟨b2, st.calls ++ [(xf_item.xform IKEV2_XF_ENCR (encr_id encr), r1),
        (xf_item.attr_tv IKEV2_XF_ATTR_KEYLEN bits, r2)]⟩ (by omega) (by omega) (by omega)
    refine ⟨(xf_item.xform IKEV2_XF_ENCR (encr_id encr), r1) ::
      (xf_item.attr_tv IKEV2_XF_ATTR_KEYLEN bits, r2) :: new, b1, ?_, ?_⟩
    · rw [xf_encr_loop, if_pos hb, hpair]
      dsimp only
      rw [hnext, hloop]
      simp only [List.all_cons, List.append_assoc, List.cons_append, List.nil_append,
        Bool.and_assoc]
    · simp only [List.map_cons, hnew, xf_encr_pairs]

/-- C29. For a cipher of the AES arm of `ikev2_add_xf_encr` and key lengths `minbits ≤
maxbits` (16 bit values) that are a multiple of 64 apart, the loop comes to an end and the
function returns; it has asked for `(maxbits - minbits) / 64 + 1` encryption transforms,
each directly followed by one KEYLEN attribute, with the key lengths `minbits`,
`minbits + 64`, ..., `maxbits` in this order, and the last of them is `maxbits`; it returns
`B_TRUE` when every one of these requests was granted (which is what enough room gives). -/
theorem c29_aes_step_expansion (ops : xf_ops) (debug : Bool) (st : xf_st)
    (encr : ikev2_xf_encr_t) (minbits maxbits : Nat)
    (haes : encr ∈ [IKEV2_ENCR_AES_CBC, IKEV2_ENCR_AES_CTR, IKEV2_ENCR_AES_CCM_8,
      IKEV2_ENCR_AES_CCM_12, IKEV2_ENCR_AES_CCM_16, IKEV2_ENCR_AES_GCM_8,
      IKEV2_ENCR_AES_GCM_12, IKEV2_ENCR_AES_GCM_16, IKEV2_ENCR_XTS_AES])
    (hle : minbits ≤ maxbits) (hstep : (maxbits - minbits) % 64 = 0)
    (hmax : maxbits < 65536) :
    ∃ (new : List (xf_item × Bool)) (b1 : build_st),
      ikev2_add_xf_encr ops debug st encr minbits maxbits =
        some (.ok (new.all Prod.snd, ⟨b1, st.calls ++ new⟩)) ∧
      new.map Prod.fst =
        (List.range ((maxbits - minbits) / 64 + 1)).flatMap (fun k =>
          [xf_item.xform IKEV2_XF_ENCR (encr_id encr),
           xf_item.attr_tv IKEV2_XF_ATTR_KEYLEN (minbits + 64 * k)]) ∧
      minbits + 64 * ((maxbits - minbits) / 64) = maxbits := by
  have hsw : xf_encr_switch ops st encr minbits maxbits = xf_switch.incr 64 := by
    simp only [List.mem_cons, List.mem_singleton, List.not_mem_nil, or_false] at haes
    rcases haes with h | h | h | h | h | h | h | h | h <;> subst h <;> rfl
  obtain ⟨new, b1, hloop, hnew⟩ := xf_encr_loop_64 ops debug encr maxbits hmax
    ((maxbits - minbits) / 64 + 1) (maxbits + 2) minbits true st (by omega) (by omega)
    (by intro _; omega)
  refine ⟨new, b1, ?_, ?_, by omega⟩
  · unfold ikev2_add_xf_encr
    rw [hsw]
    dsimp only
    rw [if_neg (by decide), hloop, Bool.true_and]
  · rw [hnew, xf_encr_pairs_eq]

/-- Witness of C29: AES-CBC with the key lengths 128 to 256 on the fresh sample packet, the
requests being granted while there is room: three transforms with the key lengths 128, 192
and 256. -/
theorem c29_aes_step_expansion_witness :
    (ikev2_add_xf_encr room_ops true ⟨sample_build sample_sa_cbc [0, 0, 0, 1], []⟩
        IKEV2_ENCR_AES_CBC 128 256).map (fun r => r.map (fun x => (x.1, x.2.calls))) =
      some (.ok (true,
        [(xf_item.xform IKEV2_XF_ENCR 12, true), (xf_item.attr_tv IKEV2_XF_ATTR_KEYLEN 128, true),
         (xf_item.xform IKEV2_XF_ENCR 12, true), (xf_item.attr_tv IKEV2_XF_ATTR_KEYLEN 192, true),
         (xf_item.xform IKEV2_XF_ENCR 12, true),
         (xf_item.attr_tv IKEV2_XF_ATTR_KEYLEN 256, true)])) ∧
    ∃ (new : List (xf_item × Bool)) (b1 : build_st),
      ikev2_add_xf_encr room_ops true ⟨sample_build sample_sa_cbc [0, 0, 0, 1], []⟩
          IKEV2_ENCR_AES_CBC 128 256 =
        some (.ok (new.all Prod.snd, ⟨b1, [] ++ new⟩)) ∧
      new.map Prod.fst =
        (List.range ((256 - 128) / 64 + 1)).flatMap (fun k =>
          [xf_item.xform IKEV2_XF_ENCR (encr_id IKEV2_ENCR_AES_CBC),
           xf_item.attr_tv IKEV2_XF_ATTR_KEYLEN (128 + 64 * k)]) ∧
      128 + 64 * ((256 - 128) / 64) = 256 :=
  ⟨rfl,
    c29_aes_step_expansion room_ops true ⟨sample_build sample_sa_cbc [0, 0, 0, 1], []⟩
      IKEV2_ENCR_AES_CBC 128 256 (by decide) (by decide) (by decide) (by decide)⟩

/-- C30, the counterexample. `ikev2_add_xf_encr (pkt, IKEV2_ENCR_CAMELLIA_CBC, 256, 128)`
passes both checks of the Camellia arm, asks for no transform at all and returns `B_TRUE`,
with and without assertions: the packet is as it was. -/
theorem c30_camellia_256_128_returns_true :
    ikev2_add_xf_encr room_ops true ⟨sample_build sample_sa_cbc [0, 0, 0, 1], []⟩
        IKEV2_ENCR_CAMELLIA_CBC 256 128 =
      some (.ok (true, ⟨sample_build sample_sa_cbc [0, 0, 0, 1], []⟩)) ∧
    ikev2_add_xf_encr room_ops false ⟨sample_build sample_sa_cbc [0, 0, 0, 1], []⟩
        IKEV2_ENCR_CAMELLIA_CBC 256 128 =
      some (.ok (true, ⟨sample_build sample_sa_cbc [0, 0, 0, 1], []⟩)) :=
  ⟨rfl, rfl⟩

/-- C30, amended. For a Camellia cipher `ikev2_add_xf_encr` checks `minbits >= 128` and
`maxbits <= 256` with `VERIFY3U`, so a call that breaks one of the two stops the program.
It does not check `minbits <= maxbits`: a call with `128 <= maxbits < minbits <= 256`
passes both checks, asks for nothing and returns `B_TRUE` with the packet unchanged. -/
theorem c30_camellia_checks (ops : xf_ops) (debug : Bool) (st : xf_st)
    (encr : ikev2_xf_encr_t) (minbits maxbits : Nat)
    (hcam : encr ∈ [IKEV2_ENCR_CAMELLIA_CBC, IKEV2_ENCR_CAMELLIA_CTR,
      IKEV2_ENCR_CAMELLIA_CCM_8, IKEV2_ENCR_CAMELLIA_CCM_12, IKEV2_ENCR_CAMELLIA_CCM_16]) :
    (minbits < 128 →
      ikev2_add_xf_encr ops debug st encr minbits maxbits = some (.error Fault.verify)) ∧
    (256 < maxbits →
      ikev2_add_xf_encr ops debug st encr minbits maxbits = some (.error Fault.verify)) ∧
    (128 ≤ minbits → maxbits ≤ 256 → maxbits < minbits →
      ikev2_add_xf_encr ops debug st encr minbits maxbits = some (.ok (true, st))) := by
  have hsw : xf_encr_switch ops st encr minbits maxbits =
      if ¬ (minbits ≥ 128) then xf_switch.fault Fault.verify
      else if ¬ (maxbits ≤ 256) then xf_switch.fault Fault.verify
      else xf_switch.incr 64 := by
    simp only [List.mem_cons, List.mem_singleton, List.not_mem_nil, or_false] at hcam
    rcases hcam with h | h | h | h | h <;> subst h <;> rfl
  unfold ikev2_add_xf_encr
  rw [hsw]
  refine ⟨?_, ?_, ?_⟩
  · intro h
    rw [if_pos (by omega)]
  · intro h
    by_cases h1 : ¬ (minbits ≥ 128)
    · rw [if_pos h1]
    · rw [if_neg h1, if_pos (by omega)]
  · intro h1 h2 h3
    rw [if_neg (by omega), if_neg (by omega)]
    dsimp only
    rw [if_neg (by decide)]
    rw [show maxbits + 2 = (maxbits + 1) + 1 from rfl, xf_encr_loop, if_neg (by omega)]

/-- Witness of C30: Camellia-CBC on the fresh sample packet; (64, 128) and (128, 512) stop
at a check, (256, 128) returns `B_TRUE` and leaves the packet as it was. -/
theorem c30_camellia_checks_witness :
    ikev2_add_xf_encr room_ops true ⟨sample_build sample_sa_cbc [0, 0, 0, 1], []⟩
      IKEV2_ENCR_CAMELLIA_CBC 64 128 = some (.error Fault.verify) ∧
    ikev2_add_xf_encr room_ops true ⟨sample_build sample_sa_cbc [0, 0, 0, 1], []⟩
      IKEV2_ENCR_CAMELLIA_CBC 128 512 = some (.error Fault.verify) ∧
    ikev2_add_xf_encr room_ops true ⟨sample_build sample_sa_cbc [0, 0, 0, 1], []⟩
      IKEV2_ENCR_CAMELLIA_CBC 256 128 =
        some (.ok (true, ⟨sample_build sample_sa_cbc [0, 0, 0, 1], []⟩)) :=
  ⟨(c30_camellia_checks room_ops true ⟨sample_build sample_sa_cbc [0, 0, 0, 1], []⟩
      IKEV2_ENCR_CAMELLIA_CBC 64 128 (by decide)).1 (by decide),
    (c30_camellia_checks room_ops true ⟨sample_build sample_sa_cbc [0, 0, 0, 1], []⟩
      IKEV2_ENCR_CAMELLIA_CBC 128 512 (by decide)).2.1 (by decide),
    (c30_camellia_checks room_ops true ⟨sample_build sample_sa_cbc [0, 0, 0, 1], []⟩
      IKEV2_ENCR_CAMELLIA_CBC 256 128 (by decide)).2.2 (by decide) (by decide) (by decide)⟩

/-! ## Claims about the other arms of `ikev2_add_xf_encr` -/

/-- C31. For RC4, RC5, Blowfish and CAST (key lengths are 16 bit values):
`ikev2_add_xf_encr` asks for one transform and no attribute when `minbits = maxbits = 0`;
for one transform followed by KEYLEN = `maxbits` when `minbits = maxbits` is not 0; and
otherwise for two transforms, the first followed by KEYLEN = `minbits` and the second by
KEYLEN = `maxbits`. It returns the conjunction of the answers, and in no case are there
more than two transforms. -/
theorem c31_arbitrary_key_size_expansion (ops : xf_ops) (debug : Bool) (st : xf_st)
    (encr : ikev2_xf_encr_t) (minbits maxbits : Nat)
    (hrc : encr ∈ [IKEV2_ENCR_RC4, IKEV2_ENCR_RC5, IKEV2_ENCR_BLOWFISH, IKEV2_ENCR_CAST])
    (hmin : minbits < 65536) (hmax : maxbits < 65536) :
    (minbits = 0 → maxbits = 0 →
      ∃ r b1, ikev2_add_xf_encr ops debug st encr minbits maxbits =
        some (.ok (r, ⟨b1, st.calls ++ [(xf_item.xform IKEV2_XF_ENCR (encr_id encr), r)]⟩))) ∧
    (minbits = maxbits → maxbits ≠ 0 →
      ∃ r1 r2 b1, ikev2_add_xf_encr ops debug st encr minbits maxbits =
        some (.ok (r1 && r2, ⟨b1, st.calls ++
          [(xf_item.xform IKEV2_XF_ENCR (encr_id encr), r1),
           (xf_item.attr_tv IKEV2_XF_ATTR_KEYLEN maxbits, r2)]⟩))) ∧
    (minbits ≠ maxbits →
      ∃ r1 r2 r3 r4 b1, ikev2_add_xf_encr ops debug st encr minbits maxbits =
        some (.ok (r1 && r2 && r3 && r4, ⟨b1, st.calls ++
          [(xf_item.xform IKEV2_XF_ENCR (encr_id encr), r1),
           (xf_item.attr_tv IKEV2_XF_ATTR_KEYLEN minbits, r2),
           (xf_item.xform IKEV2_XF_ENCR (encr_id encr), r3),
           (xf_item.attr_tv IKEV2_XF_ATTR_KEYLEN maxbits, r4)]⟩))) ∧
    (∀ r st1, ikev2_add_xf_encr ops debug st encr minbits maxbits = some (.ok (r, st1)) →
      ((st1.calls.drop st.calls.length).filter
        (fun c => decide (c.1 = xf_item.xform IKEV2_XF_ENCR (encr_id encr)))).length ≤ 2) := by
  have hsw : xf_encr_switch ops st encr minbits maxbits =
      if minbits = 0 ∧ maxbits = 0 then
        xf_switch.ret (ikev2_add_xform ops st IKEV2_XF_ENCR (encr_id encr))
      else xf_switch.incr 1 := by
    simp only [List.mem_cons, List.mem_singleton, List.not_mem_nil, or_false] at hrc
    rcases hrc with h | h | h | h <;> subst h <;> rfl
  have h1 : minbits = 0 → maxbits = 0 →
      ∃ r b1, ikev2_add_xf_encr ops debug st encr minbits maxbits =
        some (.ok (r, ⟨b1, st.calls ++ [(xf_item.xform IKEV2_XF_ENCR (encr_id encr), r)]⟩)) := by
    intro h0 h0'
    unfold ikev2_add_xf_encr
    rw [hsw, if_pos ⟨h0, h0'⟩]
    exact ⟨_, _, rfl⟩
  have h2 : minbits = maxbits → maxbits ≠ 0 →
      ∃ r1 r2 b1, ikev2_add_xf_encr ops debug st encr minbits maxbits =
        some (.ok (r1 && r2, ⟨b1, st.calls ++
          [(xf_item.xform IKEV2_XF_ENCR (encr_id encr), r1),
           (xf_item.attr_tv IKEV2_XF_ATTR_KEYLEN maxbits, r2)]⟩)) := by
    intro he hne
    unfold ikev2_add_xf_encr
    rw [hsw, if_neg (by omega)]
    dsimp only
    rw [if_pos rfl, if_neg (not_not.mpr he)]
    dsimp only
    obtain ⟨r1, r2, b2, hp⟩ := xf_encr_pair_eq ops debug encr maxbits true st hmax
    rw [hp]
    exact ⟨r1, r2, b2, by simp⟩
  have h3 : minbits ≠ maxbits →
      ∃ r1 r2 r3 r4 b1, ikev2_add_xf_encr ops debug st encr minbits maxbits =
        some (.ok (r1 && r2 && r3 && r4, ⟨b1, st.calls ++
          [(xf_item.xform IKEV2_XF_ENCR (encr_id encr), r1),
           (xf_item.attr_tv IKEV2_XF_ATTR_KEYLEN minbits, r2),
           (xf_item.xform IKEV2_XF_ENCR (encr_id encr), r3),
           (xf_item.attr_tv IKEV2_XF_ATTR_KEYLEN maxbits, r4)]⟩)) := by
    intro hne
    unfold ikev2_add_xf_encr
    rw [hsw, if_neg (by omega)]
    dsimp only
    rw [if_pos rfl, if_pos hne]
    obtain ⟨r1, r2, b2, hp⟩ := xf_encr_pair_eq ops debug encr minbits true st hmin
    rw [hp]
    dsimp only
    obtain ⟨r3, r4, b3, hp2⟩ := xf_encr_pair_eq ops debug encr maxbits (true && r1 && r2)
      ⟨b2, st.calls ++ [(xf_item.xform IKEV2_XF_ENCR (encr_id encr), r1),
        (xf_item.attr_tv IKEV2_XF_ATTR_KEYLEN minbits, r2)]⟩ hmax
    rw [hp2]
    exact ⟨r1, r2, r3, r4, b3, by simp [Bool.and_assoc]⟩
  refine ⟨h1, h2, h3, ?_⟩
  intro r st1 hres
  by_cases he : minbits = maxbits
  · by_cases h0 : maxbits = 0
    · obtain ⟨r', b1, hh⟩ := h1 (by omega) h0
      rw [hh] at hres
      simp only [Option.some.injEq, Except.ok.injEq, Prod.mk.injEq] at hres
      rw [← hres.2]
      simp
    · obtain ⟨r1, r2, b1, hh⟩ := h2 he h0
      rw [hh] at hres
      simp only [Option.some.injEq, Except.ok.injEq, Prod.mk.injEq] at hres
      rw [← hres.2]
      simp
  · obtain ⟨r1, r2, r3, r4, b1, hh⟩ := h3 he
    rw [hh] at hres
    simp only [Option.some.injEq, Except.ok.injEq, Prod.mk.injEq] at hres
    rw [← hres.2]
    simp

/-- Witness of C31: RC5 on the fresh sample packet with the key lengths (0, 0), (128, 128)
and (40, 128). -/
theorem c31_arbitrary_key_size_expansion_witness :
    (ikev2_add_xf_encr room_ops true ⟨sample_build sample_sa_cbc [0, 0, 0, 1], []⟩
        IKEV2_ENCR_RC5 0 0).map (fun r => r.map (fun x => (x.1, x.2.calls))) =
      some (.ok (true, [(xf_item.xform IKEV2_XF_ENCR 4, true)])) ∧
    (ikev2_add_xf_encr room_ops true ⟨sample_build sample_sa_cbc [0, 0, 0, 1], []⟩
        IKEV2_ENCR_RC5 128 128).map (fun r => r.map (fun x => (x.1, x.2.calls))) =
      some (.ok (true, [(xf_item.xform IKEV2_XF_ENCR 4, true),
        (xf_item.attr_tv IKEV2_XF_ATTR_KEYLEN 128, true)])) ∧
    (ikev2_add_xf_encr room_ops true ⟨sample_build sample_sa_cbc [0, 0, 0, 1], []⟩
        IKEV2_ENCR_RC5 40 128).map (fun r => r.map (fun x => (x.1, x.2.calls))) =
      some (.ok (true, [(xf_item.xform IKEV2_XF_ENCR 4, true),
        (xf_item.attr_tv IKEV2_XF_ATTR_KEYLEN 40, true),
        (xf_item.xform IKEV2_XF_ENCR 4, true),
        (xf_item.attr_tv IKEV2_XF_ATTR_KEYLEN 128, true)])) ∧
    ∃ r1 r2 r3 r4 b1,
      ikev2_add_xf_encr room_ops true ⟨sample_build sample_sa_cbc [0, 0, 0, 1], []⟩
          IKEV2_ENCR_RC5 40 128 =
        some (.ok (r1 && r2 && r3 && r4, ⟨b1, [] ++
          [(xf_item.xform IKEV2_XF_ENCR (encr_id IKEV2_ENCR_RC5), r1),
           (xf_item.attr_tv IKEV2_XF_ATTR_KEYLEN 40, r2),
           (xf_item.xform IKEV2_XF_ENCR (encr_id IKEV2_ENCR_RC5), r3),
           (xf_item.attr_tv IKEV2_XF_ATTR_KEYLEN 128, r4)]⟩)) :=
  ⟨rfl, rfl, rfl,
    (c31_arbitrary_key_size_expansion room_ops true
      ⟨sample_build sample_sa_cbc [0, 0, 0, 1], []⟩ IKEV2_ENCR_RC5 40 128 (by decide)
      (by decide) (by decide)).2.2.1 (by decide)⟩

/-- C32. For DES, DES_IV32, DES_IV64, 3DES, IDEA and 3IDEA `ikev2_add_xf_encr` stops at a
`VERIFY3U` unless `minbits = maxbits = 0`, and then asks for exactly one encryption
transform and no attribute, returning the answer. For NULL_AES_GMAC it returns `B_TRUE`
and leaves the packet as it is. For ENCR_NONE and ENCR_NULL it stops at `INVALID`, so
nothing is asked for. -/
theorem c32_fixed_key_and_null_arms (ops : xf_ops) (debug : Bool) (st : xf_st)
    (encr : ikev2_xf_encr_t) (minbits maxbits : Nat)
    (hfix : encr ∈ [IKEV2_ENCR_DES, IKEV2_ENCR_DES_IV32, IKEV2_ENCR_DES_IV64,
      IKEV2_ENCR_3DES, IKEV2_ENCR_IDEA, IKEV2_ENCR_3IDEA]) :
    (minbits = 0 → maxbits = 0 →
      ikev2_add_xf_encr ops debug st encr minbits maxbits =
        some (.ok ((ops.pkt_add_xform st.b IKEV2_XF_ENCR (encr_id encr)).1,
          ⟨(ops.pkt_add_xform st.b IKEV2_XF_ENCR (encr_id encr)).2,
            st.calls ++ [(xf_item.xform IKEV2_XF_ENCR (encr_id encr),
              (ops.pkt_add_xform st.b IKEV2_XF_ENCR (encr_id encr)).1)]⟩))) ∧
    (minbits ≠ 0 ∨ maxbits ≠ 0 →
      ikev2_add_xf_encr ops debug st encr minbits maxbits = some (.error Fault.verify)) ∧
    ikev2_add_xf_encr ops debug st IKEV2_ENCR_NULL_AES_GMAC minbits maxbits =
      some (.ok (true, st)) ∧
    ikev2_add_xf_encr ops debug st IKEV2_ENCR_NONE minbits maxbits =
      some (.error Fault.invalid) ∧
    ikev2_add_xf_encr ops debug st IKEV2_ENCR_NULL minbits maxbits =
      some (.error Fault.invalid) := by
  have hsw : xf_encr_switch ops st encr minbits maxbits =
      if ¬ (minbits = 0) then xf_switch.fault Fault.verify
      else if ¬ (maxbits = 0) then xf_switch.fault Fault.verify
      else xf_switch.ret (ikev2_add_xform ops st IKEV2_XF_ENCR (encr_id encr)) := by
    simp only [List.mem_cons, List.mem_singleton, List.not_mem_nil, or_false] at hfix
    rcases hfix with h | h | h | h | h | h <;> subst h <;> rfl
  refine ⟨?_, ?_, rfl, rfl, rfl⟩
  · intro h0 h1
    unfold ikev2_add_xf_encr
    rw [hsw, if_neg (not_not.mpr h0), if_neg (not_not.mpr h1)]
    rfl
  · intro h
    unfold ikev2_add_xf_encr
    rw [hsw]
    by_cases h0 : minbits = 0
    · rw [if_neg (not_not.mpr h0), if_pos (by omega)]
    · rw [if_pos h0]

/-- Witness of C32: 3DES on the fresh sample packet: with (0, 0) one transform and nothing
else, with (0, 192) a failed `VERIFY3U`. -/
theorem c32_fixed_key_and_null_arms_witness :
    (ikev2_add_xf_encr room_ops true ⟨sample_build sample_sa_cbc [0, 0, 0, 1], []⟩
        IKEV2_ENCR_3DES 0 0).map (fun r => r.map (fun x => (x.1, x.2.calls))) =
      some (.ok (true, [(xf_item.xform IKEV2_XF_ENCR 3, true)])) ∧
    ikev2_add_xf_encr room_ops true ⟨sample_build sample_sa_cbc [0, 0, 0, 1], []⟩
      IKEV2_ENCR_3DES 0 192 = some (.error Fault.verify) ∧
    ikev2_add_xf_encr room_ops true ⟨sample_build sample_sa_cbc [0, 0, 0, 1], []⟩
      IKEV2_ENCR_NULL_AES_GMAC 0 192 =
        some (.ok (true, ⟨sample_build sample_sa_cbc [0, 0, 0, 1], []⟩)) ∧
    ikev2_add_xf_encr room_ops true ⟨sample_build sample_sa_cbc [0, 0, 0, 1], []⟩
      IKEV2_ENCR_NONE 0 192 = some (.error Fault.invalid) ∧
    ikev2_add_xf_encr room_ops true ⟨sample_build sample_sa_cbc [0, 0, 0, 1], []⟩
      IKEV2_ENCR_NULL 0 192 = some (.error Fault.invalid) :=
  ⟨rfl,
    (c32_fixed_key_and_null_arms room_ops true ⟨sample_build sample_sa_cbc [0, 0, 0, 1], []⟩
      IKEV2_ENCR_3DES 0 192 (by decide)).2.1 (Or.inr (by decide)),
    (c32_fixed_key_and_null_arms room_ops true ⟨sample_build sample_sa_cbc [0, 0, 0, 1], []⟩
      IKEV2_ENCR_3DES 0 192 (by decide)).2.2⟩

/-- C39, at the failing inputs. Each of the three Camellia-CCM ciphers has the mode CCM in
`ikev2_encr_mode` and is mapped to the mechanism `CKM_CAMELLIA_CBC` by
`ikev2_encr_to_p11`; `crypt_common` then hands CCM parameters to the token together with
that CBC mechanism. The AES ciphers of mode CCM and GCM are mapped to `CKM_AES_CCM` and
`CKM_AES_GCM`. -/
theorem c39_camellia_ccm_maps_to_cbc :
    (ikev2_encr_mode IKEV2_ENCR_CAMELLIA_CCM_8 = MODE_CCM ∧
      ikev2_encr_to_p11 IKEV2_ENCR_CAMELLIA_CCM_8 = .ok CKM_CAMELLIA_CBC) ∧
    (ikev2_encr_mode IKEV2_ENCR_CAMELLIA_CCM_12 = MODE_CCM ∧
      ikev2_encr_to_p11 IKEV2_ENCR_CAMELLIA_CCM_12 = .ok CKM_CAMELLIA_CBC) ∧
    (ikev2_encr_mode IKEV2_ENCR_CAMELLIA_CCM_16 = MODE_CCM ∧
      ikev2_encr_to_p11 IKEV2_ENCR_CAMELLIA_CCM_16 = .ok CKM_CAMELLIA_CBC) ∧
    ikev2_encr_to_p11 IKEV2_ENCR_CAMELLIA_CBC = .ok CKM_CAMELLIA_CBC ∧
    (crypt_common yes_token (sample_sa IKEV2_ENCR_CAMELLIA_CCM_16 IKEV2_XF_AUTH_NONE)
        ⟨sample_open_pkt, []⟩ true 32 16 48 32 16).map (fun r => r.2.calls.head?) =
      .ok (some (p11_call.EncryptInit
        ⟨CKM_CAMELLIA_CBC, mech_param.ccm 0 32 (sample_open_pkt.pkt_raw.take 32)
          (List.replicate 16 0) 16⟩ 1)) ∧
    ikev2_encr_to_p11 IKEV2_ENCR_AES_CCM_8 = .ok CKM_AES_CCM ∧
    ikev2_encr_to_p11 IKEV2_ENCR_AES_CCM_12 = .ok CKM_AES_CCM ∧
    ikev2_encr_to_p11 IKEV2_ENCR_AES_CCM_16 = .ok CKM_AES_CCM ∧
    ikev2_encr_to_p11 IKEV2_ENCR_AES_GCM_8 = .ok CKM_AES_GCM ∧
    ikev2_encr_to_p11 IKEV2_ENCR_AES_GCM_12 = .ok CKM_AES_GCM ∧
    ikev2_encr_to_p11 IKEV2_ENCR_AES_GCM_16 = .ok CKM_AES_GCM :=
  ⟨⟨rfl, rfl⟩, ⟨rfl, rfl⟩, ⟨rfl, rfl⟩, rfl, rfl, rfl, rfl, rfl, rfl, rfl, rfl⟩

/-! ## Claims about the inbound parser, continued -/

/-- The loop of `ikev2_pkt_new_inbound` in terms of the counts it looks at: none of them
is the VENDOR or the CERTREQ count. -/
theorem sa_init_loop_congr (c1 c2 : Nat → Nat)
    (h : ∀ k, IKEV2_PAYLOAD_MIN ≤ k → k ≤ IKEV2_PAYLOAD_MAX → k ≠ IKEV2_PAYLOAD_VENDOR →
      k ≠ IKEV2_PAYLOAD_CERTREQ → PAYCOUNT c1 k = PAYCOUNT c2 k) :
    sa_init_loop c1 = sa_init_loop c2 := by
  have hnever : ∀ k ∈ sa_init_never, PAYCOUNT c1 k = PAYCOUNT c2 k := by
    intro k hk
    simp only [sa_init_never, List.mem_cons, List.mem_singleton, List.not_mem_nil,
      or_false] at hk
    rcases hk with hk | hk | hk | hk | hk | hk | hk | hk | hk | hk | hk <;> subst hk <;>
      exact h _ (by decide) (by decide) (by decide) (by decide)
  have hsa := h IKEV2_PAYLOAD_SA (by decide) (by decide) (by decide) (by decide)
  have hke := h IKEV2_PAYLOAD_KE (by decide) (by decide) (by decide) (by decide)
  have hno := h IKEV2_PAYLOAD_NONCE (by decide) (by decide) (by decide) (by decide)
  have hnt := h IKEV2_PAYLOAD_NOTIFY (by decide) (by decide) (by decide) (by decide)
  have hiff : sa_init_loop c1 = true ↔ sa_init_loop c2 = true := by
    rw [sa_init_loop_iff, sa_init_loop_iff, hsa, hke, hno, hnt]
    constructor
    · rintro ⟨a, b⟩
      exact ⟨fun k hk => by rw [← hnever k hk]; exact a k hk, b⟩
    · rintro ⟨a, b⟩
      exact ⟨fun k hk => by rw [hnever k hk]; exact a k hk, b⟩
  cases h1 : sa_init_loop c1 <;> cases h2 : sa_init_loop c2 <;> simp_all

/-- C38. Two IKE_SA_INIT datagrams that get through the payload walk and have the same
number of payloads of every kind but VENDOR and CERTREQ are both accepted or both discarded
by `ikev2_pkt_new_inbound`; the loop gives the same answer for their count vectors. In the
loop the VENDOR case never discards once the SA case, which comes first, has not: the run
from the VENDOR case into the SA case does not change the outcome. -/
theorem c38_vendor_and_certreq_counts_do_not_matter
    (alloc : List Nat → Option pkt_t) (debug : Bool) (buf1 buf2 : List Nat) (pkt1 pkt2 : pkt_t)
    (hver1 : version_assert_holds debug buf1) (hflags1 : flags_pass buf1)
    (hexch1 : (read_ike_header buf1).exch_type = IKEV2_EXCH_IKE_SA_INIT)
    (halloc1 : alloc buf1 = some pkt1)
    (hwalk1 : (inbound_walk buf1 pkt1).1 = PKT_WALK_OK)
    (hver2 : version_assert_holds debug buf2) (hflags2 : flags_pass buf2)
    (hexch2 : (read_ike_header buf2).exch_type = IKEV2_EXCH_IKE_SA_INIT)
    (halloc2 : alloc buf2 = some pkt2)
    (hwalk2 : (inbound_walk buf2 pkt2).1 = PKT_WALK_OK)
    (hsame : ∀ k, IKEV2_PAYLOAD_MIN ≤ k → k ≤ IKEV2_PAYLOAD_MAX → k ≠ IKEV2_PAYLOAD_VENDOR →
      k ≠ IKEV2_PAYLOAD_CERTREQ → (outer_kinds buf1).count k = (outer_kinds buf2).count k) :
    (Accepted (ikev2_pkt_new_inbound alloc debug buf1) ↔
      Accepted (ikev2_pkt_new_inbound alloc debug buf2)) ∧
    sa_init_loop (inbound_walk buf1 pkt1).2.payload_count =
      sa_init_loop (inbound_walk buf2 pkt2).2.payload_count ∧
    (∀ counts, sa_init_switch counts IKEV2_PAYLOAD_SA = true →
      sa_init_switch counts IKEV2_PAYLOAD_VENDOR = true ∧
      sa_init_switch counts IKEV2_PAYLOAD_CERTREQ = true) := by
  rcases hiw1 : inbound_walk buf1 pkt1 with ⟨r1, arg1⟩
  rcases hiw2 : inbound_walk buf2 pkt2 with ⟨r2, arg2⟩
  rw [hiw1] at hwalk1
  rw [hiw2] at hwalk2
  dsimp only at hwalk1 hwalk2
  subst hwalk1
  subst hwalk2
  obtain ⟨hx1, hc1⟩ := inbound_walk_counts_init buf1 pkt1 arg1 hexch1 hiw1
  obtain ⟨hx2, hc2⟩ := inbound_walk_counts_init buf2 pkt2 arg2 hexch2 hiw2
  have hloop : sa_init_loop arg1.payload_count = sa_init_loop arg2.payload_count := by
    apply sa_init_loop_congr
    intro k hk1 hk2 hk3 hk4
    rw [hc1 k hk1 hk2, hc2 k hk1 hk2]
    exact hsame k hk1 hk2 hk3 hk4
  refine ⟨?_, hloop, ?_⟩
  · have e1 : ikev2_pkt_new_inbound alloc debug buf1 =
        if sa_init_loop arg1.payload_count = true then .ok (some arg1.pkt) else .ok none := by
      rw [ikev2_pkt_new_inbound_eq alloc debug buf1 pkt1 hver1 hflags1 halloc1, hiw1]
      dsimp only
      rw [if_neg (by rw [hx1]; decide), if_neg (by rw [hx1]; decide)]
    have e2 : ikev2_pkt_new_inbound alloc debug buf2 =
        if sa_init_loop arg2.payload_count = true then .ok (some arg2.pkt) else .ok none := by
      rw [ikev2_pkt_new_inbound_eq alloc debug buf2 pkt2 hver2 hflags2 halloc2, hiw2]
      dsimp only
      rw [if_neg (by rw [hx2]; decide), if_neg (by rw [hx2]; decide)]
    rw [e1, e2, hloop]
    cases sa_init_loop arg2.payload_count
    · simp [Accepted]
    · simp [Accepted]
  · intro counts hsa
    have hcr : sa_init_switch counts IKEV2_PAYLOAD_CERTREQ = true := by
      simp [sa_init_switch, IKEV2_PAYLOAD_CERTREQ, IKEV2_PAYLOAD_IDi, IKEV2_PAYLOAD_IDr,
        IKEV2_PAYLOAD_CERT, IKEV2_PAYLOAD_AUTH, IKEV2_PAYLOAD_DELETE, IKEV2_PAYLOAD_TSi,
        IKEV2_PAYLOAD_TSr, IKEV2_PAYLOAD_SK, IKEV2_PAYLOAD_CP, IKEV2_PAYLOAD_EAP,
        IKEV2_PAYLOAD_GSPM]
    refine ⟨?_, hcr⟩
    simp only [sa_init_switch, PAYCOUNT, HAS_NOTIFY, IKEV2_PAYLOAD_MIN, IKEV2_PAYLOAD_SA,
      IKEV2_PAYLOAD_KE, IKEV2_PAYLOAD_IDi, IKEV2_PAYLOAD_IDr, IKEV2_PAYLOAD_CERT,
      IKEV2_PAYLOAD_CERTREQ, IKEV2_PAYLOAD_AUTH, IKEV2_PAYLOAD_NONCE, IKEV2_PAYLOAD_NOTIFY,
      IKEV2_PAYLOAD_DELETE, IKEV2_PAYLOAD_VENDOR, IKEV2_PAYLOAD_TSi, IKEV2_PAYLOAD_TSr,
      IKEV2_PAYLOAD_SK, IKEV2_PAYLOAD_CP, IKEV2_PAYLOAD_EAP, IKEV2_PAYLOAD_GSPM] at hsa ⊢
    norm_num at hsa ⊢
    omega

/-- Witness of C38: the IKE_SA_INIT request with SA, KE and NONCE, and the same request
with two VENDOR payloads and one CERTREQ payload behind them; both are accepted. -/
theorem c38_vendor_and_certreq_counts_do_not_matter_witness :
    Accepted (ikev2_pkt_new_inbound pkt_in_alloc true
      (dgram_sa_init IKEV2_VERSION IKEV2_FLAG_INITIATOR)) ∧
    outer_kinds dgram_sa_init_vendors = [IKEV2_PAYLOAD_SA, IKEV2_PAYLOAD_KE,
      IKEV2_PAYLOAD_NONCE, IKEV2_PAYLOAD_VENDOR, IKEV2_PAYLOAD_VENDOR, IKEV2_PAYLOAD_CERTREQ] ∧
    (Accepted (ikev2_pkt_new_inbound pkt_in_alloc true
        (dgram_sa_init IKEV2_VERSION IKEV2_FLAG_INITIATOR)) ↔
      Accepted (ikev2_pkt_new_inbound pkt_in_alloc true dgram_sa_init_vendors)) :=
  ⟨⟨_, rfl⟩, by decide,
    (c38_vendor_and_certreq_counts_do_not_matter pkt_in_alloc true
      (dgram_sa_init IKEV2_VERSION IKEV2_FLAG_INITIATOR) dgram_sa_init_vendors _ _
      (by decide) (by decide) (by decide) rfl (by decide)
      (by decide) (by decide) (by decide) rfl (by decide)
      (by
        intro k hk1 hk2 hk3 hk4
        have e1 : outer_kinds (dgram_sa_init IKEV2_VERSION IKEV2_FLAG_INITIATOR) =
            [IKEV2_PAYLOAD_SA, IKEV2_PAYLOAD_KE, IKEV2_PAYLOAD_NONCE] := by decide
        have e2 : outer_kinds dgram_sa_init_vendors = [IKEV2_PAYLOAD_SA, IKEV2_PAYLOAD_KE,
            IKEV2_PAYLOAD_NONCE, IKEV2_PAYLOAD_VENDOR, IKEV2_PAYLOAD_VENDOR,
            IKEV2_PAYLOAD_CERTREQ] := by decide
        rw [e1, e2]
        simp only [List.count_cons, List.count_nil, beq_iff_eq]
        have h1 : ¬ (IKEV2_PAYLOAD_VENDOR = k) := fun hc => hk3 hc.symm
        have h2 : ¬ (IKEV2_PAYLOAD_CERTREQ = k) := fun hc => hk4 hc.symm
        simp only [h1, h2, if_false, Nat.add_zero])).1⟩

/-- C34. In an IKE_SA_INIT walk, for a NOTIFY payload with a body of `L` octets at `buf`
whose notify header has the SPI size `s` (the octet at `buf + 1`), `check_payload` answers
`PKT_WALK_ERROR` if and only if `L < 4` or `L < 4 + s`. When it answers `PKT_WALK_OK`, the
notify slot with the number `arg->notify_count` holds the body pointer, the length `L` and
the 16 bit type at `buf + 2` read in network order; `arg->notify_count` and the NOTIFY
counter have gone up by one, and no other counter has changed. -/
theorem c34_notify_is_checked_and_recorded (resv : Nat) (mem : List Nat) (buf L : Nat)
    (arg : validate_data) (hexch : arg.exch_type = IKEV2_EXCH_IKE_SA_INIT) :
    ((check_payload IKEV2_PAYLOAD_NOTIFY resv mem buf L arg).1 = PKT_WALK_ERROR ↔
      (L < 4 ∨ L < 4 + rd8 mem (buf + 1))) ∧
    ((check_payload IKEV2_PAYLOAD_NOTIFY resv mem buf L arg).1 = PKT_WALK_OK →
      (check_payload IKEV2_PAYLOAD_NOTIFY resv mem buf L arg).2.pkt.pkt_notifies =
        arg.pkt.pkt_notifies.set arg.notify_count ⟨rd16 mem (buf + 2), buf, L⟩ ∧
      (arg.notify_count < arg.pkt.pkt_notifies.length →
        (check_payload IKEV2_PAYLOAD_NOTIFY resv mem buf L arg).2.pkt.pkt_notifies[
          arg.notify_count]? = some ⟨rd16 mem (buf + 2), buf, L⟩) ∧
      (check_payload IKEV2_PAYLOAD_NOTIFY resv mem buf L arg).2.notify_count =
        arg.notify_count + 1 ∧
      PAYCOUNT (check_payload IKEV2_PAYLOAD_NOTIFY resv mem buf L arg).2.payload_count
          IKEV2_PAYLOAD_NOTIFY = PAYCOUNT arg.payload_count IKEV2_PAYLOAD_NOTIFY + 1 ∧
      ∀ k, IKEV2_PAYLOAD_MIN ≤ k → k ≤ IKEV2_PAYLOAD_MAX → k ≠ IKEV2_PAYLOAD_NOTIFY →
        PAYCOUNT (check_payload IKEV2_PAYLOAD_NOTIFY resv mem buf L arg).2.payload_count k =
          PAYCOUNT arg.payload_count k) := by
  have hx : ¬ (arg.exch_type = IKEV2_EXCH_IKE_AUTH ∨
      arg.exch_type = IKEV2_EXCH_CREATE_CHILD_SA ∨
      arg.exch_type = IKEV2_EXCH_INFORMATIONAL) := by
    rw [hexch]; decide
  have hcnt : ∀ k, IKEV2_PAYLOAD_MIN ≤ k → k ≤ IKEV2_PAYLOAD_MAX →
      PAYCOUNT (check_payload IKEV2_PAYLOAD_NOTIFY resv mem buf L arg).2.payload_count k =
        PAYCOUNT arg.payload_count k + (if IKEV2_PAYLOAD_NOTIFY = k then 1 else 0) :=
    fun k hk1 hk2 => check_payload_counts_init _ _ _ _ _ _ hexch k hk1 hk2
  have h4 : sizeof_ikev2_notify_t = 4 := rfl
  have hev : check_payload IKEV2_PAYLOAD_NOTIFY resv mem buf L arg =
      if L < 4 then
        (PKT_WALK_ERROR, { arg with
          payload_count := Function.update arg.payload_count
            (IKEV2_PAYLOAD_NOTIFY - IKEV2_PAYLOAD_MIN)
            (arg.payload_count (IKEV2_PAYLOAD_NOTIFY - IKEV2_PAYLOAD_MIN) + 1)
          notify_count := arg.notify_count + 1 })
      else if L < 4 + rd8 mem (buf + 1) then
        (PKT_WALK_ERROR, { arg with
          payload_count := Function.update arg.payload_count
            (IKEV2_PAYLOAD_NOTIFY - IKEV2_PAYLOAD_MIN)
            (arg.payload_count (IKEV2_PAYLOAD_NOTIFY - IKEV2_PAYLOAD_MIN) + 1)
          notify_count := arg.notify_count + 1 })
      else
        (PKT_WALK_OK, { arg with
          payload_count := Function.update arg.payload_count
            (IKEV2_PAYLOAD_NOTIFY - IKEV2_PAYLOAD_MIN)
            (arg.payload_count (IKEV2_PAYLOAD_NOTIFY - IKEV2_PAYLOAD_MIN) + 1)
          notify_count := arg.notify_count + 1
          pkt := pkt_notify_store arg.pkt arg.notify_count
            ⟨rd16 mem (buf + 2), buf, L⟩ }) := by
    unfold check_payload
    dsimp only
    rw [if_neg (by decide), if_neg hx, if_pos hexch, if_pos rfl, h4]
  constructor
  · rw [hev]
    by_cases h1 : L < 4
    · rw [if_pos h1]
      exact ⟨fun _ => Or.inl h1, fun _ => rfl⟩
    · rw [if_neg h1]
      by_cases h2 : L < 4 + rd8 mem (buf + 1)
      · rw [if_pos h2]
        exact ⟨fun _ => Or.inr h2, fun _ => rfl⟩
      · rw [if_neg h2]
        constructor
        · intro hc; cases hc
        · intro hc; rcases hc with hc | hc <;> omega
  · intro hok
    have hk := hcnt
    refine ⟨?_, ?_, ?_, ?_, ?_⟩
    · rw [hev] at hok ⊢
      by_cases h1 : L < 4
      · rw [if_pos h1] at hok; cases hok
      · rw [if_neg h1] at hok ⊢
        by_cases h2 : L < 4 + rd8 mem (buf + 1)
        · rw [if_pos h2] at hok; cases hok
        · rw [if_neg h2]
          rfl
    · intro hlt
      rw [hev] at hok ⊢
      by_cases h1 : L < 4
      · rw [if_pos h1] at hok; cases hok
      · rw [if_neg h1] at hok ⊢
        by_cases h2 : L < 4 + rd8 mem (buf + 1)
        · rw [if_pos h2] at hok; cases hok
        · rw [if_neg h2]
          dsimp only [pkt_notify_store]
          rw [List.getElem?_set_self hlt]
    · rw [hev]
      split_ifs <;> rfl
    · rw [hk _ (by decide) (by decide), if_pos rfl]
    · intro k hk1 hk2 hk3
      rw [hk k hk1 hk2, if_neg (fun hc => hk3 hc.symm), Nat.add_zero]

/-- Witness of C34: the NOTIFY payload of `dgram_sa_init_notify`, a body of 4 octets at
offset 32 with SPI size 0 and type 14; it is recorded in slot 0. -/
theorem c34_notify_is_checked_and_recorded_witness :
    (check_payload IKEV2_PAYLOAD_NOTIFY 0 dgram_sa_init_notify 32 4 sample_validate_start).1 =
      PKT_WALK_OK ∧
    (check_payload IKEV2_PAYLOAD_NOTIFY 0 dgram_sa_init_notify 32 4
      sample_validate_start).2.pkt.pkt_notifies = [⟨14, 32, 4⟩] ∧
    (check_payload IKEV2_PAYLOAD_NOTIFY 0 dgram_sa_init_notify 32 3 sample_validate_start).1 =
      PKT_WALK_ERROR ∧
    ((check_payload IKEV2_PAYLOAD_NOTIFY 0 dgram_sa_init_notify 32 4 sample_validate_start).1 =
      PKT_WALK_ERROR ↔ (4 < 4 ∨ 4 < 4 + rd8 dgram_sa_init_notify (32 + 1))) :=
  ⟨by decide, by decide, by decide,
    (c34_notify_is_checked_and_recorded 0 dgram_sa_init_notify 32 4 sample_validate_start
      (by decide)).1⟩

/-! ## Claims about proposals and traffic selectors -/

/-- C33, at a failing input. For IKEV2_PROTO_IKE the SPI length that `ikev2_add_prop` hands
to `pkt_add_prop` is whatever the local `spilen` held on entry, whether or not the SPI is
zero: the IKE arm of the switch compares where it should assign. With 5 in the local the
length is 5 for the SPI 0 and for the SPI 77, not 0 and 8. For AH and ESP the length
is 4. -/
theorem c33_ike_spi_length_is_uninitialised {α : Type}
    (pkt_add_prop : build_st → Nat → ikev2_spi_proto_t → Nat → Nat → α) (junk : Nat)
    (b : build_st) (propnum spi : Nat) :
    ikev2_add_prop pkt_add_prop junk b propnum ikev2_spi_proto_t.IKEV2_PROTO_IKE spi =
      .ok (pkt_add_prop b propnum ikev2_spi_proto_t.IKEV2_PROTO_IKE junk spi) ∧
    ikev2_add_prop_spilen 5 ikev2_spi_proto_t.IKEV2_PROTO_IKE 0 = .ok 5 ∧
    ikev2_add_prop_spilen 5 ikev2_spi_proto_t.IKEV2_PROTO_IKE 77 = .ok 5 ∧
    ikev2_add_prop pkt_add_prop junk b propnum ikev2_spi_proto_t.IKEV2_PROTO_AH spi =
      .ok (pkt_add_prop b propnum ikev2_spi_proto_t.IKEV2_PROTO_AH 4 spi) ∧
    ikev2_add_prop pkt_add_prop junk b propnum ikev2_spi_proto_t.IKEV2_PROTO_ESP spi =
      .ok (pkt_add_prop b propnum ikev2_spi_proto_t.IKEV2_PROTO_ESP 4 spi) :=
  ⟨rfl, rfl, rfl, rfl, rfl⟩

/-- Whenever `ikev2_add_ts` returns false, the packet is the one of before the call and the
container stack has one more entry, the one of the selector. -/
theorem ikev2_add_ts_false_pushes (debug : Bool) (b b1 : build_st) (type : ikev2_ts_type_t)
    (ip_proto : Nat) (start fin : sockaddr_u_t)
    (h : ikev2_add_ts debug b type ip_proto start fin = .ok (false, b1)) :
    b1.pkt = b.pkt ∧ b1.next_slot = b.next_slot ∧
    b1.stack =
      ⟨pkt_stack_item_t.PSI_TS, pkt_finish_fn.no_finish, b.pkt.pkt_ptr, 0, 0⟩ :: b.stack := by
  unfold ikev2_add_ts at h
  dsimp only at h
  split at h
  · cases h
  split at h
  · cases h
  split at h
  · cases h
  · split at h
    · cases h
      exact ⟨rfl, rfl, rfl⟩
    · cases h

/-- C35, at a failing input. With a TSi payload open and 8 octets of room, `ikev2_add_ts`
for an IPv4 range of 16 octets returns false and leaves the cursor and the octets of the
buffer alone, but the container stack is not the one of before the call: the entry of the
selector has been pushed in front of the entry of the TSi payload, since the push comes
before the look at the room. -/
theorem c35_failed_selector_stays_on_stack :
    (∀ debug : Bool,
      ikev2_add_ts debug sample_build_tsp ikev2_ts_type_t.IKEV2_TS_IPV4_ADDR_RANGE 6
          (sample_sockaddr 1 0) (sample_sockaddr 9 65535) =
        .ok (false, { sample_build_tsp with
          stack := ⟨pkt_stack_item_t.PSI_TS, pkt_finish_fn.no_finish, 120, 0, 0⟩ ::
            sample_build_tsp.stack })) ∧
    pkt_write_left sample_build_tsp.pkt = 8 ∧
    sample_build_tsp.stack =
      [⟨pkt_stack_item_t.PSI_TSP, pkt_finish_fn.ts_finish_fn, 104, 0, 0⟩] ∧
    (⟨pkt_stack_item_t.PSI_TS, pkt_finish_fn.no_finish, 120, 0, 0⟩ ::
      sample_build_tsp.stack) ≠ sample_build_tsp.stack := by
  refine ⟨?_, rfl, rfl, by decide⟩
  intro debug
  cases debug <;> rfl

/-! ## Claims about the SK envelope, continued -/

/-- C36, as the code has it. Once `ikev2_add_sk` has opened the SK container at the cursor
and anything at all has been appended behind the room for the IV, the sanity check at the
start of `encrypt_payloads`, `VERIFY3P(data, >=, pkt->pkt_ptr)`, fails for the SK header of
that container: closing an SK container with a non-empty plaintext stops the process in
both build flavours and no plaintext length is computed. -/
theorem c36_nonempty_sk_close_aborts (tok : Token) (debug : Bool) (b b1 b2 : build_st)
    (h : ikev2_add_sk debug b = .ok (true, b1))
    (hsa : b2.pkt.pkt_sa = b1.pkt.pkt_sa)
    (hptr : b1.pkt.pkt_ptr < b2.pkt.pkt_ptr) :
    encrypt_payloads tok debug b2.pkt b.pkt.pkt_ptr = .error Fault.verify := by
  obtain ⟨sa, icvlen, _, hicv, _, _, hsa1, _, _, hp, _⟩ := ikev2_add_sk_inv debug b b1 h
  exact encrypt_payloads_stops_on_plaintext tok debug b2.pkt b.pkt.pkt_ptr sa icvlen
    (hsa.trans hsa1) hicv (by omega)

/-- C36 at a concrete input: under AES-CBC with HMAC-SHA1-96 the SK container is opened at
offset 28, which leaves the cursor at offset 48; a vendor payload with four octets of
vendor id moves the cursor to offset 56, and closing the container stops at the check. -/
theorem c36_nonempty_sk_close_aborts_witness :
    ikev2_add_sk true (sample_build sample_sa_cbc [0, 0, 0, 1]) =
      .ok (true, sample_sk_begun true) ∧
    (sample_sk_begun true).pkt.pkt_ptr = 48 ∧
    ikev2_add_vendor true (sample_sk_begun true) [1, 2, 3, 4] =
      .ok (true, sample_sk_vendor true [1, 2, 3, 4]) ∧
    (sample_sk_vendor true [1, 2, 3, 4]).pkt.pkt_ptr = 56 ∧
    encrypt_payloads toy_token true (sample_sk_vendor true [1, 2, 3, 4]).pkt
      (sample_build sample_sa_cbc [0, 0, 0, 1]).pkt.pkt_ptr = .error Fault.verify :=
  ⟨rfl, rfl, rfl, rfl,
    c36_nonempty_sk_close_aborts toy_token true (sample_build sample_sa_cbc [0, 0, 0, 1])
      (sample_sk_begun true) (sample_sk_vendor true [1, 2, 3, 4]) rfl rfl (by decide)⟩

/-- What `ikev2_pkt_decrypt` does behind the cipher, in its two steps: the shrink of the
length with the padding validation, then the counting and indexing with the length that
the shrink has left. -/
theorem ikev2_pkt_decrypt_index_staged (debug : Bool) (sa : ikev2_sa_t) (st : crypt_st)
    (fr : sk_open_t) :
    ikev2_pkt_decrypt_index debug sa st fr =
      match ikev2_pkt_decrypt_shrink sa st.pkt fr with
      | none => .ok (false, st)
      | some r => ikev2_pkt_decrypt_count debug st fr r.2 := by
  unfold ikev2_pkt_decrypt_index ikev2_pkt_decrypt_shrink ikev2_pkt_decrypt_count
  dsimp only
  split <;> rfl

/-- C37, at a failing input. The SK payload of `sample_short_pkt` decrypts to a region of
n = 16 octets whose last octet is p = 200, so p + 1 > n. Nothing in `ikev2_pkt_decrypt`
looks at that: for a peer that is not of our own kind the shrink never returns, whatever
the lengths are, and here `datalen -= padlen + 1` wraps to 2^64 - 185. That length goes on
to `pkt_count_payloads`, whose walk counts the inner IDi payload before it fails; only
that failure makes the call return `B_FALSE`. For a peer of our own kind the padding
validation reads the octet at `data + datalen`, which for p = 16 and n = 16 is the last
octet of the IV: with 16 there the validation passes and the length 2^64 - 1 goes on to
the counting. -/
theorem c37_pad_length_shrink_wraps :
    (∀ (pkt : pkt_t) (fr : sk_open_t),
      ikev2_pkt_decrypt_shrink sample_sa_other pkt fr =
        some (rd8 pkt.pkt_raw ((fr.icv + ULONG_MOD - 1) % ULONG_MOD),
          (fr.datalen + ULONG_MOD -
            (rd8 pkt.pkt_raw ((fr.icv + ULONG_MOD - 1) % ULONG_MOD) + 1)) % ULONG_MOD)) ∧
    ikev2_pkt_decrypt_layout true sample_short_pkt sample_sa_other =
      .ok (some sample_short_frame) ∧
    sample_short_frame.datalen = 16 ∧
    rdN sample_short_opened.pkt.pkt_raw 48 16 = sample_inner_idi ++ [0, 0, 0, 200] ∧
    ikev2_pkt_decrypt_shrink sample_sa_other sample_short_opened.pkt sample_short_frame =
      some (200, ULONG_MOD - 185) ∧
    ikev2_pkt_decrypt_index true sample_sa_other sample_short_opened sample_short_frame =
      ikev2_pkt_decrypt_count true sample_short_opened sample_short_frame
        (ULONG_MOD - 185) ∧
    pkt_payload_walk (rdN sample_short_opened.pkt.pkt_raw 48 (ULONG_MOD - 185)) 0
        (ULONG_MOD - 185) count_cb IKEV2_PAYLOAD_IDi (0, 0) = (PKT_WALK_ERROR, (1, 0)) ∧
    ikev2_pkt_decrypt toy_token true sample_short_pkt = .ok (false, sample_short_opened) ∧
    ikev2_pkt_decrypt toy_token false sample_short_pkt = .ok (false, sample_short_opened) ∧
    ikev2_pkt_decrypt_shrink sample_sa_cbc sample_short_own_pkt sample_short_frame =
      some (16, ULONG_MOD - 1) := by
  refine ⟨?_, rfl, rfl, by decide, by decide, rfl, by decide, rfl, rfl, by decide⟩
  intro pkt fr
  unfold ikev2_pkt_decrypt_shrink
  dsimp only
  rw [if_neg (fun hc => absurd hc.1 (by decide))]


end Ikev2
